import Mathlib

/-!
Shallow embedding of the sliding-puzzle game engine of
qt-sliding-puzzle.py (classes Tile and Gameboard).

Modelling conventions, kept throughout:

* The Python dict self.tiles, mapping grid positions (row, col) to Tile
  objects, is modelled as an association list; dget / dset / dremove model
  dictionary lookup, assignment and pop on it.
* Pure UI behaviour (painting, fading, Qt layout and widget bookkeeping)
  is not modelled: it never touches the tile dictionary, the empty-cell
  tracker, the counter or the game flag.
* The won_signal emission in set_won_state is instrumented by the field
  emitted, which records the value of the move counter at the moment the
  signal is emitted: the connected slot (MainWindow.won_game) runs
  synchronously during the emission and reads gameboard.counter there.
* random.randint(0, len(ns) - 1) in shuffle is modelled by an arbitrary
  stream r : Nat -> Nat of random values; the choice at step i is
  r i taken modulo the number of candidates, so quantifying over r covers
  every possible sequence of randint results.
* The unbounded while-loop of shuffle is modelled with explicit fuel; a
  Python exception propagating out of an operation is modelled as none.
-/

namespace SlidingPuzzle

/-- One tile of the dissected image (class Tile): field location is the
mutable current grid position (self._location), field id is the home
position assigned at construction (self._id, "correct location"). -/
structure Tile where
  location : Nat × Nat
  id : Nat × Nat
  deriving DecidableEq, Repr

/-- Tile.is_in_right_place: the tile is in the right place when its current
location equals its id. -/
def Tile.is_in_right_place (t : Tile) : Bool :=
  t.location == t.id

/-- The tile dictionary self.tiles, a Python dict from positions to tiles,
modelled as an association list. -/
abbrev TileDict := List ((Nat × Nat) × Tile)

/-- Dictionary lookup d[k] (returning none where Python raises KeyError). -/
def dget : TileDict → (Nat × Nat) → Option Tile
  | [], _ => none
  | (k', v) :: rest, k => if k' = k then some v else dget rest k

/-- Dictionary assignment d[k] = v: replaces the entry of an existing key in
place, otherwise appends a new entry (Python dicts preserve insertion
order). -/
def dset : TileDict → (Nat × Nat) → Tile → TileDict
  | [], k, v => [(k, v)]
  | (k', v') :: rest, k, v =>
    if k' = k then (k, v) :: rest else (k', v') :: dset rest k v

/-- Dictionary removal d.pop(k): removes the entry of key k if present (the
value returned by pop is read off separately with dget). -/
def dremove : TileDict → (Nat × Nat) → TileDict
  | [], _ => []
  | (k', v') :: rest, k => if k' = k then rest else (k', v') :: dremove rest k

/-- The keys of the dictionary. -/
def dkeys (d : TileDict) : List (Nat × Nat) :=
  d.map Prod.fst

/-- The game engine state (class Gameboard).  Widget-only holders (image,
image_label, image_fraction, file_path, the QGridLayout) are not modelled.
The field emitted instruments the won_signal as explained in the file
header. -/
structure Gameboard where
  grid_size : Nat
  counter : Nat
  game_running : Bool
  current_empty_tile : Option (Nat × Nat)
  tiles : TileDict
  emitted : List Nat
  deriving DecidableEq, Repr

/-- The state established by Gameboard.__init__ (counter 0, not running,
default grid size 3, no empty-cell tracker, empty tile dict). -/
def initGameboard : Gameboard :=
  { grid_size := 3
    counter := 0
    game_running := false
    current_empty_tile := none
    tiles := []
    emitted := [] }

/-- Gameboard.get_neightbor_tiles: the up-to-four orthogonal in-bounds
neighbours of a location, in the source order up, down, left, right. -/
def get_neightbor_tiles (g : Gameboard) (loc : Nat × Nat) : List (Nat × Nat) :=
  (if 0 < loc.1 then [(loc.1 - 1, loc.2)] else []) ++
  (if loc.1 < g.grid_size - 1 then [(loc.1 + 1, loc.2)] else []) ++
  (if 0 < loc.2 then [(loc.1, loc.2 - 1)] else []) ++
  (if loc.2 < g.grid_size - 1 then [(loc.1, loc.2 + 1)] else [])

/-- Gameboard.moveable_tile: a location is moveable when the current empty
tile is among its neighbours.  Before shuffle, current_empty_tile is None
(Python: None is never equal to a coordinate pair, so the membership test is
False). -/
def moveable_tile (g : Gameboard) (loc : Nat × Nat) : Bool :=
  match g.current_empty_tile with
  | none => false
  | some e => decide (e ∈ get_neightbor_tiles g loc)

/-- The grid positions in the iteration order of the source
(for col in range(grid_size): for row in range(grid_size)). -/
def gridPositionsCM (n : Nat) : List (Nat × Nat) :=
  (List.range n).flatMap (fun col => (List.range n).map (fun row => (row, col)))

/-- Gameboard.get_moveable_tiles: all grid positions whose tile can be
moved, collected in the source loop order. -/
def get_moveable_tiles (g : Gameboard) : List (Nat × Nat) :=
  (gridPositionsCM g.grid_size).filter (fun rc => moveable_tile g rc)

/-- Gameboard.check_win: the game is won when every tile in the dictionary
is in the right place. -/
def check_win (g : Gameboard) : Bool :=
  g.tiles.all (fun kv => kv.2.is_in_right_place)

/-- Gameboard.move_tile, stripped of the fade animation (pure UI): the
clicked tile is the dictionary entry at position p (callers obtain it from
the dictionary or from the clicked widget, whose location field equals its
key on every reachable state).  The steps mirror the source statements:
increment the counter; set the location of the tile at the empty position
to the location of the clicked tile; pop both entries and re-insert them
swapped; finally the clicked tile object (now stored under the old empty
position) gets its location set to the old empty position, and the tracker
moves to the clicked position.  A missing current_empty_tile or missing
dictionary entry raises in Python; that is modelled as none. -/
def move_tile (g : Gameboard) (p : Nat × Nat) : Option Gameboard :=
  match g.current_empty_tile with
  | none => none
  | some e =>
    match dget g.tiles p, dget g.tiles e with
    | some t, some et =>
      let d1 := dset g.tiles e { et with location := t.location }
      let d2 := dremove (dremove d1 e) t.location
      let d3 := dset d2 t.location { et with location := t.location }
      let d4 := dset d3 e { t with location := e }
      some { g with
              tiles := d4
              current_empty_tile := some t.location
              counter := g.counter + 1 }
    | _, _ => none

/-- Gameboard.reset_holders, restricted to the modelled state: the
empty-cell tracker returns to the bottom-right corner and the tile
dictionary is cleared (widget deletion is UI bookkeeping). -/
def reset_holders (g : Gameboard) : Gameboard :=
  { g with
      current_empty_tile := some (g.grid_size - 1, g.grid_size - 1)
      tiles := [] }

/-- Gameboard.set_won_state: optionally emit won_signal (recording the
counter value observed synchronously by the connected slot), clear the
holders, show the whole image (UI), stop the game and reset the counter. -/
def set_won_state (g : Gameboard) (emit : Bool) : Gameboard :=
  let g1 := if emit then { g with emitted := g.emitted ++ [g.counter] } else g
  let g2 := reset_holders g1
  { g2 with game_running := false, counter := 0 }

/-- Gameboard.tile_clicked: ignore the click when the game is not running;
otherwise, when the clicked location is moveable, move the tile and, when
the game is then won, switch to the won state.  none models an exception
escaping the slot. -/
def tile_clicked (g : Gameboard) (p : Nat × Nat) : Option Gameboard :=
  if g.game_running then
    if moveable_tile g p then
      match move_tile g p with
      | none => none
      | some g1 => some (if check_win g1 then set_won_state g1 true else g1)
    else some g
  else some g

/-- The grid-construction part of Gameboard.shuffle (lines up to the random
walk): set the grid size, build one tile per position with location and id
both equal to that position (overwriting dictionary entries in the source
loop order), and set the empty-cell tracker to the bottom-right corner
(whose tile widget is deleted from the layout but stays in the
dictionary). -/
def setup_grid (g : Gameboard) (n : Nat) : Gameboard :=
  { g with
      grid_size := n
      tiles := (gridPositionsCM n).foldl
        (fun d rc => dset d rc { location := rc, id := rc }) g.tiles
      current_empty_tile := some (n - 1, n - 1) }

/-- One step of the random walk in Gameboard.shuffle: pick a random
neighbour of the current empty tile and move it; k is the random value
consumed by this step.  An empty neighbour list makes randint raise
(grid size below 2), modelled as none. -/
def shuffle_step (g : Gameboard) (k : Nat) : Option Gameboard :=
  match g.current_empty_tile with
  | none => none
  | some e =>
    let ns := get_neightbor_tiles g e
    match ns[k % ns.length]? with
    | none => none
    | some p => move_tile g p

/-- One pass of m random moves in Gameboard.shuffle, consuming the random
stream r from index i on. -/
def run_pass (g : Gameboard) (r : Nat → Nat) (i : Nat) : Nat → Option Gameboard
  | 0 => some g
  | m + 1 =>
    match shuffle_step g (r i) with
    | none => none
    | some g1 => run_pass g1 r (i + 1) m

/-- The while-True loop of Gameboard.shuffle with explicit fuel: run a full
pass of grid_size ^ 2 random moves, accept when the empty tile is back in
the bottom-right corner and the layout is not already solved, otherwise run
another full pass.  Exhausted fuel (the loop not yet terminated) is none. -/
def shuffle_loop (r : Nat → Nat) : Nat → Gameboard → Nat → Option Gameboard
  | 0, _, _ => none
  | fuel + 1, g, i =>
    match run_pass g r i (g.grid_size ^ 2) with
    | none => none
    | some g1 =>
      if g1.current_empty_tile = some (g1.grid_size - 1, g1.grid_size - 1)
          ∧ check_win g1 = false
      then some g1
      else shuffle_loop r fuel g1 (i + g.grid_size ^ 2)

/-- Gameboard.shuffle: when a game is already running the call resets the
board through the won state (without emitting) and returns; otherwise it
builds the fresh grid, runs the random-walk loop, flags the game as running
and resets the counter. -/
def shuffle (g : Gameboard) (n : Nat) (r : Nat → Nat) (fuel : Nat) :
    Option Gameboard :=
  if g.game_running then some (set_won_state g false)
  else
    match shuffle_loop r fuel (setup_grid g n) 0 with
    | none => none
    | some g2 => some { g2 with game_running := true, counter := 0 }

/-- Orthogonal adjacency of two grid positions: they differ by exactly one
in exactly one coordinate. -/
def adjacent (p q : Nat × Nat) : Prop :=
  (p.1 = q.1 ∧ (p.2 + 1 = q.2 ∨ q.2 + 1 = p.2)) ∨
  (p.2 = q.2 ∧ (p.1 + 1 = q.1 ∨ q.1 + 1 = p.1))

instance (p q : Nat × Nat) : Decidable (adjacent p q) := by
  unfold adjacent; infer_instance

/-! ### Lemmas about the dictionary operations -/

theorem dget_dset_self (d : TileDict) (k : Nat × Nat) (v : Tile) :
    dget (dset d k v) k = some v := by
  induction d with
  | nil => simp [dset, dget]
  | cons kv rest ih =>
    obtain ⟨k', v'⟩ := kv
    by_cases h : k' = k
    · simp [dset, dget, h]
    · simp [dset, dget, h, ih]

theorem dget_dset_ne (d : TileDict) (k k1 : Nat × Nat) (v : Tile)
    (h : k1 ≠ k) : dget (dset d k v) k1 = dget d k1 := by
  induction d with
  | nil => simp [dset, dget, Ne.symm h]
  | cons kv rest ih =>
    obtain ⟨k', v'⟩ := kv
    by_cases hk : k' = k
    · subst hk
      simp [dset, dget, Ne.symm h]
    · simp only [dset, if_neg hk, dget]
      by_cases hk1 : k' = k1 <;> simp [hk1, ih]

theorem dget_dremove_ne (d : TileDict) (k k1 : Nat × Nat)
    (h : k1 ≠ k) : dget (dremove d k) k1 = dget d k1 := by
  induction d with
  | nil => simp [dremove]
  | cons kv rest ih =>
    obtain ⟨k', v'⟩ := kv
    by_cases hk : k' = k
    · subst hk
      simp [dremove, dget, Ne.symm h]
    · simp only [dremove, if_neg hk, dget]
      by_cases hk1 : k' = k1 <;> simp [hk1, ih]

theorem dremove_dset_self (d : TileDict) (k : Nat × Nat) (v : Tile) :
    dremove (dset d k v) k = dremove d k := by
  induction d with
  | nil => simp [dset, dremove]
  | cons kv rest ih =>
    obtain ⟨k', v'⟩ := kv
    by_cases hk : k' = k
    · simp [dset, dremove, hk]
    · simp [dset, dremove, hk, ih]

theorem dset_eq_append (d : TileDict) (k : Nat × Nat) (v : Tile)
    (h : dget d k = none) : dset d k v = d ++ [(k, v)] := by
  induction d with
  | nil => simp [dset]
  | cons kv rest ih =>
    obtain ⟨k', v'⟩ := kv
    by_cases hk : k' = k
    · simp [dget, hk] at h
    · simp only [dget, if_neg hk] at h
      simp [dset, hk, ih h]

theorem dget_append_left (d1 d2 : TileDict) (k : Nat × Nat) (v : Tile)
    (h : dget d1 k = some v) : dget (d1 ++ d2) k = some v := by
  induction d1 with
  | nil => simp [dget] at h
  | cons kv rest ih =>
    obtain ⟨k', v'⟩ := kv
    by_cases hk : k' = k
    · simp only [dget, if_pos hk] at h
      simp [dget, hk, h]
    · simp only [dget, if_neg hk] at h
      simp [dget, hk, ih h]

theorem dget_append_right (d1 d2 : TileDict) (k : Nat × Nat)
    (h : dget d1 k = none) : dget (d1 ++ d2) k = dget d2 k := by
  induction d1 with
  | nil => simp [dget]
  | cons kv rest ih =>
    obtain ⟨k', v'⟩ := kv
    by_cases hk : k' = k
    · simp [dget, hk] at h
    · simp only [dget, if_neg hk] at h
      simp [dget, hk, ih h]

theorem mem_of_dget (d : TileDict) (k : Nat × Nat) (v : Tile)
    (h : dget d k = some v) : (k, v) ∈ d := by
  induction d with
  | nil => simp [dget] at h
  | cons kv rest ih =>
    obtain ⟨k', v'⟩ := kv
    by_cases hk : k' = k
    · subst hk
      have hv : v' = v := by simpa [dget] using h
      subst hv
      exact List.mem_cons_self _ _
    · simp only [dget, if_neg hk] at h
      exact List.mem_cons_of_mem _ (ih h)

theorem dget_isSome_iff (d : TileDict) (k : Nat × Nat) :
    (dget d k).isSome = true ↔ k ∈ dkeys d := by
  induction d with
  | nil => simp [dget, dkeys]
  | cons kv rest ih =>
    obtain ⟨k', v'⟩ := kv
    by_cases hk : k' = k
    · subst hk
      simp [dget, dkeys]
    · simp [dget, hk, dkeys, Ne.symm hk]
      simpa [dkeys] using ih

theorem dget_of_mem (d : TileDict) (k : Nat × Nat) (v : Tile)
    (hnd : (dkeys d).Nodup) (h : (k, v) ∈ d) : dget d k = some v := by
  induction d with
  | nil => simp at h
  | cons kv rest ih =>
    obtain ⟨k', v'⟩ := kv
    simp only [dkeys, List.map_cons, List.nodup_cons] at hnd
    rcases List.mem_cons.mp h with h1 | h1
    · obtain ⟨rfl, rfl⟩ := Prod.mk.injEq .. ▸ h1
      simp_all [dget]
    · have hk : k' ≠ k := by
        rintro rfl
        exact hnd.1 (List.mem_map.mpr ⟨(k', v), h1, rfl⟩)
      simpa [dget, hk] using ih hnd.2 h1

theorem dget_dremove_self (d : TileDict) (k : Nat × Nat)
    (hnd : (dkeys d).Nodup) : dget (dremove d k) k = none := by
  induction d with
  | nil => simp [dremove, dget]
  | cons kv rest ih =>
    obtain ⟨k', v'⟩ := kv
    simp only [dkeys, List.map_cons, List.nodup_cons] at hnd
    by_cases hk : k' = k
    · subst hk
      simp only [dremove, if_pos rfl]
      cases ho : dget rest k' with
      | none => exact ho
      | some w =>
        exact absurd (List.mem_map.mpr ⟨(k', w), mem_of_dget _ _ _ ho, rfl⟩) hnd.1
    · simpa [dremove, dget, hk] using ih hnd.2

theorem dremove_sublist (d : TileDict) (k : Nat × Nat) :
    (dremove d k).Sublist d := by
  induction d with
  | nil => simp [dremove]
  | cons kv rest ih =>
    obtain ⟨k', v'⟩ := kv
    by_cases hk : k' = k
    · simp only [dremove, if_pos hk]
      exact List.sublist_cons_self _ _
    · simp only [dremove, if_neg hk]
      exact ih.cons₂ ((k', v'))

theorem dkeys_nodup_dremove (d : TileDict) (k : Nat × Nat)
    (hnd : (dkeys d).Nodup) : (dkeys (dremove d k)).Nodup :=
  hnd.sublist ((dremove_sublist d k).map Prod.fst)

theorem mem_dremove (d : TileDict) (k : Nat × Nat) (kv : (Nat × Nat) × Tile)
    (hnd : (dkeys d).Nodup) : kv ∈ dremove d k ↔ kv ∈ d ∧ kv.1 ≠ k := by
  induction d with
  | nil => simp [dremove]
  | cons hd rest ih =>
    obtain ⟨k', v'⟩ := hd
    simp only [dkeys, List.map_cons, List.nodup_cons] at hnd
    by_cases hk : k' = k
    · subst hk
      simp only [dremove, if_pos rfl, List.mem_cons]
      constructor
      · intro h
        refine ⟨Or.inr h, ?_⟩
        rintro rfl
        exact hnd.1 (List.mem_map.mpr ⟨kv, h, rfl⟩)
      · rintro ⟨h | h, hne⟩
        · exact absurd (congrArg Prod.fst h) hne
        · exact h
    · simp only [dremove, if_neg hk, List.mem_cons, ih hnd.2]
      constructor
      · rintro (rfl | ⟨h, hne⟩)
        · exact ⟨Or.inl rfl, hk⟩
        · exact ⟨Or.inr h, hne⟩
      · rintro ⟨rfl | h, hne⟩
        · exact Or.inl rfl
        · exact Or.inr ⟨h, hne⟩

theorem dremove_perm (d : TileDict) (k : Nat × Nat) (v : Tile)
    (h : dget d k = some v) : d.Perm ((k, v) :: dremove d k) := by
  induction d with
  | nil => simp [dget] at h
  | cons kv rest ih =>
    obtain ⟨k', v'⟩ := kv
    by_cases hk : k' = k
    · subst hk
      have hv : v' = v := by simpa [dget] using h
      subst hv
      rw [show dremove ((k', v') :: rest) k' = rest by simp [dremove]]
    · simp only [dget, if_neg hk] at h
      have h1 := (ih h).cons (k', v')
      have h2 : ((k', v') :: (k, v) :: dremove rest k).Perm
          ((k, v) :: (k', v') :: dremove rest k) := List.Perm.swap _ _ _
      simpa [dremove, hk] using h1.trans h2

theorem dremove_append_left (d1 d2 : TileDict) (k : Nat × Nat)
    (h : dget d1 k = none) : dremove (d1 ++ d2) k = d1 ++ dremove d2 k := by
  induction d1 with
  | nil => simp [dremove]
  | cons kv rest ih =>
    obtain ⟨k', v'⟩ := kv
    by_cases hk : k' = k
    · simp [dget, hk] at h
    · simp only [dget, if_neg hk] at h
      simp [dremove, hk, ih h]

/-! ### The grid enumeration -/

theorem mem_gridPositionsCM (n : Nat) (p : Nat × Nat) :
    p ∈ gridPositionsCM n ↔ p.1 < n ∧ p.2 < n := by
  obtain ⟨r, c⟩ := p
  simp only [gridPositionsCM, List.mem_flatMap, List.mem_map, List.mem_range,
    Prod.mk.injEq]
  constructor
  · rintro ⟨col, hcol, row, hrow, rfl, rfl⟩
    exact ⟨hrow, hcol⟩
  · rintro ⟨h1, h2⟩
    exact ⟨c, h2, r, h1, rfl, rfl⟩

theorem nodup_gridPositionsCM (n : Nat) : (gridPositionsCM n).Nodup := by
  refine List.nodup_flatMap.mpr ⟨?_, ?_⟩
  · intro col _
    exact (List.nodup_range n).map (fun a b h => congrArg Prod.fst h)
  · refine (List.nodup_range n).imp ?_
    intro a b hne x hxa hxb
    simp only [List.mem_map] at hxa hxb
    obtain ⟨r1, _, rfl⟩ := hxa
    obtain ⟨r2, _, h⟩ := hxb
    exact hne (congrArg Prod.snd h).symm

/-! ### Neighbourhood and adjacency -/

theorem adjacent_symm (p q : Nat × Nat) : adjacent p q ↔ adjacent q p := by
  unfold adjacent
  omega

theorem adjacent_ne (p q : Nat × Nat) (h : adjacent p q) : p ≠ q := by
  intro he
  subst he
  unfold adjacent at h
  omega

theorem mem_get_neightbor_tiles (g : Gameboard) (p q : Nat × Nat)
    (hp1 : p.1 < g.grid_size) (hp2 : p.2 < g.grid_size) :
    q ∈ get_neightbor_tiles g p ↔
      adjacent q p ∧ q.1 < g.grid_size ∧ q.2 < g.grid_size := by
  obtain ⟨pr, pc⟩ := p
  obtain ⟨qr, qc⟩ := q
  simp only at hp1 hp2
  unfold get_neightbor_tiles adjacent
  split_ifs <;>
    simp_all [List.mem_append, Prod.mk.injEq] <;> omega

theorem get_neightbor_tiles_ne_nil (g : Gameboard) (p : Nat × Nat)
    (hn : 2 ≤ g.grid_size) (hp1 : p.1 < g.grid_size) :
    get_neightbor_tiles g p ≠ [] := by
  unfold get_neightbor_tiles
  split_ifs <;> simp_all <;> omega

/-! ### A closed form for move_tile -/

theorem move_tile_spec (g : Gameboard) (e p : Nat × Nat) (t et : Tile)
    (he : g.current_empty_tile = some e) (hne : p ≠ e)
    (ht : dget g.tiles p = some t) (htl : t.location = p)
    (het : dget g.tiles e = some et)
    (hnd : (dkeys g.tiles).Nodup) :
    move_tile g p = some
      { g with
          tiles := dremove (dremove g.tiles e) p ++
            [(p, { et with location := p }), (e, { t with location := e })]
          current_empty_tile := some p
          counter := g.counter + 1 } := by
  have hnd1 : (dkeys (dremove g.tiles e)).Nodup := dkeys_nodup_dremove _ _ hnd
  have hd2get : dget (dremove (dremove g.tiles e) p) p = none :=
    dget_dremove_self _ _ hnd1
  have hd2gete : dget (dremove (dremove g.tiles e) p) e = none := by
    rw [dget_dremove_ne _ _ _ (Ne.symm hne)]
    exact dget_dremove_self _ _ hnd
  have hd3gete :
      dget (dremove (dremove g.tiles e) p ++ [(p, { et with location := p })]) e
        = none := by
    rw [dget_append_right _ _ _ hd2gete]
    simp [dget, hne]
  unfold move_tile
  rw [he]
  dsimp only
  rw [ht, het]
  dsimp only
  rw [htl, dremove_dset_self, dset_eq_append _ _ _ hd2get,
    dset_eq_append _ _ _ hd3gete, List.append_assoc]
  rfl

/-- Unconditional bookkeeping of move_tile: whenever it succeeds, the grid
size, the running flag and the signal record are untouched and the move
counter grows by one. -/
theorem move_tile_fields (g : Gameboard) (p : Nat × Nat) (g1 : Gameboard)
    (h : move_tile g p = some g1) :
    g1.grid_size = g.grid_size ∧ g1.game_running = g.game_running ∧
      g1.emitted = g.emitted ∧ g1.counter = g.counter + 1 := by
  unfold move_tile at h
  split at h
  · exact Option.noConfusion h
  · split at h
    · cases h
      exact ⟨rfl, rfl, rfl, rfl⟩
    · exact Option.noConfusion h

/-! ### The bijection invariant -/

/-- The bijection invariant maintained by the source on every state
reachable in a game: the dictionary keys are exactly the in-bounds grid
positions, without duplicates; every stored tile records as its location
the key it is stored under; the home positions (ids) of the stored tiles
are pairwise distinct, so no tile occupies two positions; and the tracked
empty position is in bounds and holds the tile whose home is the
bottom-right corner (the one whose widget shuffle removed from the
board). -/
structure Inv (g : Gameboard) : Prop where
  keys_nodup : (dkeys g.tiles).Nodup
  entry_loc : ∀ kv ∈ g.tiles, kv.2.location = kv.1
  entry_bounds : ∀ kv ∈ g.tiles, kv.1.1 < g.grid_size ∧ kv.1.2 < g.grid_size
  total : ∀ q ∈ gridPositionsCM g.grid_size, (dget g.tiles q).isSome = true
  ids_nodup : (g.tiles.map (fun kv => kv.2.id)).Nodup
  empty_some : ∃ e, g.current_empty_tile = some e ∧
    e.1 < g.grid_size ∧ e.2 < g.grid_size ∧
    (dget g.tiles e).map Tile.id = some (g.grid_size - 1, g.grid_size - 1)

/-- Moving a moveable in-bounds tile always succeeds on an invariant state,
preserves the invariant, and moves the empty-cell tracker to the clicked
position. -/
theorem Inv_move_tile (g : Gameboard) (p : Nat × Nat) (hInv : Inv g)
    (hp1 : p.1 < g.grid_size) (hp2 : p.2 < g.grid_size)
    (hmv : moveable_tile g p = true) :
    ∃ g1, move_tile g p = some g1 ∧ Inv g1 ∧
      g1.current_empty_tile = some p := by
  obtain ⟨e, he, he1, he2, heid⟩ := hInv.empty_some
  have hmem : e ∈ get_neightbor_tiles g p := by
    unfold moveable_tile at hmv
    rw [he] at hmv
    exact of_decide_eq_true hmv
  have hadj : adjacent e p :=
    ((mem_get_neightbor_tiles g p e hp1 hp2).mp hmem).1
  have hne : p ≠ e := (adjacent_ne e p hadj).symm
  obtain ⟨t, ht⟩ := Option.isSome_iff_exists.mp
    (hInv.total p ((mem_gridPositionsCM _ _).mpr ⟨hp1, hp2⟩))
  obtain ⟨et, het⟩ := Option.isSome_iff_exists.mp
    (hInv.total e ((mem_gridPositionsCM _ _).mpr ⟨he1, he2⟩))
  have htl : t.location = p := hInv.entry_loc (p, t) (mem_of_dget _ _ _ ht)
  have hetid : et.id = (g.grid_size - 1, g.grid_size - 1) := by
    rw [het] at heid
    simpa using heid
  have hndD2e : (dkeys (dremove g.tiles e)).Nodup :=
    dkeys_nodup_dremove _ _ hInv.keys_nodup
  have hgetD2p : dget (dremove (dremove g.tiles e) p) p = none :=
    dget_dremove_self _ _ hndD2e
  have hgetD2e : dget (dremove (dremove g.tiles e) p) e = none := by
    rw [dget_dremove_ne _ _ _ (Ne.symm hne)]
    exact dget_dremove_self _ _ hInv.keys_nodup
  have hspec := move_tile_spec g e p t et he hne ht htl het hInv.keys_nodup
  set et' : Tile := { et with location := p } with het'
  set t' : Tile := { t with location := e } with ht'
  set D2 : TileDict := dremove (dremove g.tiles e) p with hD2
  have hD2sub : D2.Sublist g.tiles :=
    (dremove_sublist _ _).trans (dremove_sublist _ _)
  have hD2mem : ∀ kv ∈ D2, kv ∈ g.tiles := fun kv hkv => hD2sub.mem hkv
  have hD2notp : p ∉ dkeys D2 := by
    intro hmem2
    rw [← dget_isSome_iff] at hmem2
    rw [hgetD2p] at hmem2
    exact Bool.noConfusion hmem2
  have hD2note : e ∉ dkeys D2 := by
    intro hmem2
    rw [← dget_isSome_iff] at hmem2
    rw [hgetD2e] at hmem2
    exact Bool.noConfusion hmem2
  have hgetD2 : ∀ q : Nat × Nat, q ≠ p → q ≠ e → dget D2 q = dget g.tiles q := by
    intro q hqp hqe
    rw [hD2, dget_dremove_ne _ _ _ hqp, dget_dremove_ne _ _ _ hqe]
  refine ⟨_, hspec, ?_, rfl⟩
  constructor
  · -- keys_nodup
    show (dkeys (D2 ++ [(p, et'), (e, t')])).Nodup
    rw [dkeys, List.map_append]
    refine List.nodup_append.mpr ⟨hInv.keys_nodup.sublist (hD2sub.map Prod.fst), ?_, ?_⟩
    · simp [hne]
    · intro q hq1 hq2
      simp only [List.map_cons, List.map_nil, List.mem_cons,
        List.not_mem_nil, or_false] at hq2
      rcases hq2 with rfl | rfl
      · exact hD2notp hq1
      · exact hD2note hq1
  · -- entry_loc
    intro kv hkv
    rcases List.mem_append.mp hkv with hkv | hkv
    · exact hInv.entry_loc kv (hD2mem kv hkv)
    · rcases List.mem_cons.mp hkv with rfl | hkv
      · rfl
      · rcases List.mem_cons.mp hkv with rfl | hkv
        · rfl
        · exact absurd hkv (List.not_mem_nil _)
  · -- entry_bounds
    intro kv hkv
    rcases List.mem_append.mp hkv with hkv | hkv
    · exact hInv.entry_bounds kv (hD2mem kv hkv)
    · rcases List.mem_cons.mp hkv with rfl | hkv
      · exact ⟨hp1, hp2⟩
      · rcases List.mem_cons.mp hkv with rfl | hkv
        · exact ⟨he1, he2⟩
        · exact absurd hkv (List.not_mem_nil _)
  · -- total
    intro q hq
    obtain ⟨hq1, hq2⟩ := (mem_gridPositionsCM _ _).mp hq
    by_cases hqp : q = p
    · subst hqp
      rw [dget_append_right _ _ _ hgetD2p]
      simp [dget]
    · by_cases hqe : q = e
      · subst hqe
        rw [dget_append_right _ _ _ hgetD2e]
        simp [dget, hne]
      · have hqs := hInv.total q ((mem_gridPositionsCM _ _).mpr ⟨hq1, hq2⟩)
        obtain ⟨w, hw⟩ := Option.isSome_iff_exists.mp hqs
        rw [dget_append_left _ _ _ w (by rw [hgetD2 q hqp hqe]; exact hw)]
        rfl
  · -- ids_nodup
    have h1 : g.tiles.Perm ((e, et) :: dremove g.tiles e) :=
      dremove_perm _ _ _ het
    have h2 : (dremove g.tiles e).Perm ((p, t) :: D2) :=
      dremove_perm _ _ _ (by rw [dget_dremove_ne _ _ _ hne]; exact ht)
    have h3 : g.tiles.Perm ((e, et) :: (p, t) :: D2) := h1.trans (h2.cons _)
    have h4 : (D2 ++ [(p, et'), (e, t')]).Perm ((p, et') :: (e, t') :: D2) :=
      List.perm_append_comm
    have h5 := h4.map (fun kv => kv.2.id)
    refine h5.nodup_iff.mpr ?_
    have h6 := (h3.map (fun kv => kv.2.id)).nodup_iff.mp hInv.ids_nodup
    simpa using h6
  · -- empty_some
    refine ⟨p, rfl, hp1, hp2, ?_⟩
    rw [dget_append_right _ _ _ hgetD2p]
    simp [dget, het', hetid]

/-! ### Reachability by legal moves -/

/-- Reachability in the legal-move graph: the reflexive-transitive closure
of moving a moveable in-bounds tile (every click and every shuffle step
originates from a tile of the grid, so its position is in bounds). -/
inductive ReachableFrom (g0 : Gameboard) : Gameboard → Prop
  | refl : ReachableFrom g0 g0
  | step {g g1 : Gameboard} {p : Nat × Nat} :
      ReachableFrom g0 g →
      p.1 < g.grid_size → p.2 < g.grid_size →
      moveable_tile g p = true →
      move_tile g p = some g1 →
      ReachableFrom g0 g1

theorem Inv_of_reachable (g0 g : Gameboard) (h0 : Inv g0)
    (h : ReachableFrom g0 g) : Inv g := by
  induction h with
  | refl => exact h0
  | step hr hp1 hp2 hmv hstep ih =>
    obtain ⟨g1', hg1', hInv1, _⟩ := Inv_move_tile _ _ ih hp1 hp2 hmv
    rw [hstep] at hg1'
    cases hg1'
    exact hInv1

/-! ### The grid built by shuffle -/

theorem dget_foldl_dset (L : List (Nat × Nat)) (d : TileDict)
    (f : Nat × Nat → Tile) (q : Nat × Nat) :
    dget (L.foldl (fun d rc => dset d rc (f rc)) d) q =
      if q ∈ L then some (f q) else dget d q := by
  induction L generalizing d with
  | nil => simp
  | cons k rest ih =>
    simp only [List.foldl_cons]
    rw [ih]
    by_cases hq : q ∈ rest
    · simp [hq, List.mem_cons]
    · by_cases hqk : q = k
      · subst hqk
        simp [hq, dget_dset_self]
      · simp [hq, hqk, dget_dset_ne _ _ _ _ hqk, List.mem_cons]

theorem foldl_dset_eq_append (L : List (Nat × Nat)) (f : Nat × Nat → Tile) :
    ∀ d : TileDict, L.Nodup → (∀ k ∈ L, dget d k = none) →
      L.foldl (fun d rc => dset d rc (f rc)) d =
        d ++ L.map (fun rc => (rc, f rc)) := by
  induction L with
  | nil => simp
  | cons k rest ih =>
    intro d hnd hfresh
    simp only [List.foldl_cons, List.map_cons]
    rw [dset_eq_append _ _ _ (hfresh k (List.mem_cons_self _ _))]
    rw [ih _ (List.nodup_cons.mp hnd).2 ?_]
    · rw [List.append_assoc]
      rfl
    · intro k1 hk1
      have hne : k1 ≠ k := by
        rintro rfl
        exact (List.nodup_cons.mp hnd).1 hk1
      rw [dget_append_right _ _ _ (hfresh k1 (List.mem_cons_of_mem _ hk1))]
      simp [dget, Ne.symm hne]

theorem setup_grid_tiles (g : Gameboard) (n : Nat) (hg : g.tiles = []) :
    (setup_grid g n).tiles =
      (gridPositionsCM n).map (fun rc => (rc, { location := rc, id := rc })) := by
  show (gridPositionsCM n).foldl
      (fun d rc => dset d rc { location := rc, id := rc }) g.tiles = _
  rw [hg, foldl_dset_eq_append _ _ [] (nodup_gridPositionsCM n)
    (fun k _ => rfl)]
  rfl

theorem Inv_setup_grid (g : Gameboard) (n : Nat) (hg : g.tiles = [])
    (hn : 1 ≤ n) : Inv (setup_grid g n) := by
  have htiles := setup_grid_tiles g n hg
  have hsize : (setup_grid g n).grid_size = n := rfl
  have hget : ∀ q : Nat × Nat, dget (setup_grid g n).tiles q =
      if q ∈ gridPositionsCM n then some { location := q, id := q } else none := by
    intro q
    show dget ((gridPositionsCM n).foldl
      (fun d rc => dset d rc { location := rc, id := rc }) g.tiles) q = _
    rw [dget_foldl_dset, hg]
    rfl
  constructor
  · rw [htiles]
    show ((((gridPositionsCM n).map _).map Prod.fst)).Nodup
    rw [List.map_map]
    exact (nodup_gridPositionsCM n).map (fun a b h => h)
  · intro kv hkv
    rw [htiles] at hkv
    obtain ⟨rc, _, rfl⟩ := List.mem_map.mp hkv
    rfl
  · intro kv hkv
    rw [htiles] at hkv
    obtain ⟨rc, hrc, rfl⟩ := List.mem_map.mp hkv
    exact (mem_gridPositionsCM n rc).mp hrc
  · intro q hq
    rw [hget q, if_pos (show q ∈ gridPositionsCM n from hsize ▸ hq)]
    rfl
  · rw [htiles, List.map_map]
    exact (nodup_gridPositionsCM n).map (fun a b h => h)
  · refine ⟨(n - 1, n - 1), rfl, by omega, by omega, ?_⟩
    rw [hget _, if_pos ((mem_gridPositionsCM n _).mpr ⟨by omega, by omega⟩)]
    rfl

/-! ### The random walk of shuffle -/

theorem shuffle_step_spec (g : Gameboard) (k : Nat) (hInv : Inv g)
    (hn : 2 ≤ g.grid_size) :
    ∃ g1, shuffle_step g k = some g1 ∧ Inv g1 ∧
      (∀ g0, ReachableFrom g0 g → ReachableFrom g0 g1) := by
  obtain ⟨e, he, he1, he2, _⟩ := hInv.empty_some
  have hnil : get_neightbor_tiles g e ≠ [] :=
    get_neightbor_tiles_ne_nil g e hn he1
  have hlen : 0 < (get_neightbor_tiles g e).length :=
    List.length_pos.mpr hnil
  have hidx : k % (get_neightbor_tiles g e).length <
      (get_neightbor_tiles g e).length := Nat.mod_lt _ hlen
  have hget : (get_neightbor_tiles g e)[k % (get_neightbor_tiles g e).length]? =
      some ((get_neightbor_tiles g e).get
        ⟨k % (get_neightbor_tiles g e).length, hidx⟩) :=
    List.getElem?_eq_getElem hidx
  set p := (get_neightbor_tiles g e).get
    ⟨k % (get_neightbor_tiles g e).length, hidx⟩ with hp
  have hpmem : p ∈ get_neightbor_tiles g e := List.getElem_mem hidx
  obtain ⟨hpadj, hp1, hp2⟩ := (mem_get_neightbor_tiles g e p he1 he2).mp hpmem
  have hmv : moveable_tile g p = true := by
    unfold moveable_tile
    rw [he]
    exact decide_eq_true ((mem_get_neightbor_tiles g p e hp1 hp2).mpr
      ⟨(adjacent_symm p e).mp hpadj, he1, he2⟩)
  obtain ⟨g1, hg1, hInv1, _⟩ := Inv_move_tile g p hInv hp1 hp2 hmv
  refine ⟨g1, ?_, hInv1, fun g0 hr => hr.step hp1 hp2 hmv hg1⟩
  unfold shuffle_step
  rw [he]
  dsimp only
  rw [hget]
  exact hg1

/-- Unconditional bookkeeping of one shuffle step. -/
theorem shuffle_step_fields (g : Gameboard) (k : Nat) (g1 : Gameboard)
    (h : shuffle_step g k = some g1) :
    g1.grid_size = g.grid_size ∧ g1.game_running = g.game_running ∧
      g1.emitted = g.emitted := by
  unfold shuffle_step at h
  split at h
  · exact Option.noConfusion h
  · dsimp only at h
    split at h
    · exact Option.noConfusion h
    · have hf := move_tile_fields _ _ _ h
      exact ⟨hf.1, hf.2.1, hf.2.2.1⟩

theorem run_pass_spec (r : Nat → Nat) (m : Nat) :
    ∀ g i, Inv g → 2 ≤ g.grid_size →
      ∃ g1, run_pass g r i m = some g1 ∧ Inv g1 ∧
        g1.grid_size = g.grid_size ∧
        (∀ g0, ReachableFrom g0 g → ReachableFrom g0 g1) := by
  induction m with
  | zero =>
    intro g i hInv hn
    exact ⟨g, rfl, hInv, rfl, fun _ h => h⟩
  | succ m ih =>
    intro g i hInv hn
    obtain ⟨g1, hg1, hInv1, hreach1⟩ := shuffle_step_spec g (r i) hInv hn
    have hsize1 : g1.grid_size = g.grid_size :=
      (shuffle_step_fields _ _ _ hg1).1
    obtain ⟨g2, hg2, hInv2, hsize2, hreach2⟩ :=
      ih g1 (i + 1) hInv1 (hsize1 ▸ hn)
    refine ⟨g2, ?_, hInv2, by rw [hsize2, hsize1], fun g0 h => hreach2 g0 (hreach1 g0 h)⟩
    unfold run_pass
    rw [hg1]
    exact hg2

/-- Unconditional bookkeeping of one full pass. -/
theorem run_pass_fields (r : Nat → Nat) (m : Nat) :
    ∀ g i g1, run_pass g r i m = some g1 →
      g1.grid_size = g.grid_size ∧ g1.game_running = g.game_running ∧
        g1.emitted = g.emitted := by
  induction m with
  | zero =>
    intro g i g1 h
    cases h
    exact ⟨rfl, rfl, rfl⟩
  | succ m ih =>
    intro g i g1 h
    unfold run_pass at h
    split at h
    · exact Option.noConfusion h
    · rename_i g2 hstep
      have h1 := shuffle_step_fields _ _ _ hstep
      have h2 := ih _ _ _ h
      exact ⟨h2.1.trans h1.1, h2.2.1.trans h1.2.1, h2.2.2.trans h1.2.2⟩

/-- When the loop of shuffle terminates, its result satisfies the two
acceptance conditions checked by the source: empty tile back in the
bottom-right corner, layout not solved. -/
theorem shuffle_loop_break (r : Nat → Nat) (fuel : Nat) :
    ∀ g i g2, shuffle_loop r fuel g i = some g2 →
      g2.current_empty_tile = some (g2.grid_size - 1, g2.grid_size - 1) ∧
        check_win g2 = false := by
  induction fuel with
  | zero =>
    intro g i g2 h
    exact Option.noConfusion h
  | succ fuel ih =>
    intro g i g2 h
    unfold shuffle_loop at h
    split at h
    · exact Option.noConfusion h
    · split at h
      · rename_i hcond
        cases h
        exact hcond
      · exact ih _ _ _ h

/-- Unconditional bookkeeping of the loop of shuffle. -/
theorem shuffle_loop_fields (r : Nat → Nat) (fuel : Nat) :
    ∀ g i g2, shuffle_loop r fuel g i = some g2 →
      g2.grid_size = g.grid_size ∧ g2.game_running = g.game_running ∧
        g2.emitted = g.emitted := by
  induction fuel with
  | zero =>
    intro g i g2 h
    exact Option.noConfusion h
  | succ fuel ih =>
    intro g i g2 h
    unfold shuffle_loop at h
    split at h
    · exact Option.noConfusion h
    · rename_i g1 hpass
      have h1 := run_pass_fields r _ _ _ _ hpass
      split at h
      · cases h
        exact h1
      · have h2 := ih _ _ _ h
        exact ⟨h2.1.trans h1.1, h2.2.1.trans h1.2.1, h2.2.2.trans h1.2.2⟩

/-- The loop of shuffle preserves the invariant and produces a state
reachable by legal moves from its starting state. -/
theorem shuffle_loop_spec (r : Nat → Nat) (fuel : Nat) :
    ∀ g i g2, Inv g → 2 ≤ g.grid_size →
      shuffle_loop r fuel g i = some g2 →
      Inv g2 ∧ (∀ g0, ReachableFrom g0 g → ReachableFrom g0 g2) := by
  induction fuel with
  | zero =>
    intro g i g2 _ _ h
    exact Option.noConfusion h
  | succ fuel ih =>
    intro g i g2 hInv hn h
    unfold shuffle_loop at h
    split at h
    · exact Option.noConfusion h
    · rename_i g1 hpass
      obtain ⟨g1', hg1', hInv1, hsize1, hreach1⟩ :=
        run_pass_spec r _ g i hInv hn
      rw [hpass] at hg1'
      cases hg1'
      split at h
      · cases h
        exact ⟨hInv1, hreach1⟩
      · obtain ⟨hI2, hr2⟩ := ih _ _ _ hInv1 (by rw [hsize1]; exact hn) h
        exact ⟨hI2, fun g0 h0 => hr2 g0 (hreach1 g0 h0)⟩

/-- Decomposition of a successful shuffle call made while no game is
running: the result is the loop result with the running flag raised and the
counter reset. -/
theorem shuffle_some (g : Gameboard) (n : Nat) (r : Nat → Nat) (fuel : Nat)
    (g' : Gameboard) (hrun : g.game_running = false)
    (h : shuffle g n r fuel = some g') :
    ∃ g2, shuffle_loop r fuel (setup_grid g n) 0 = some g2 ∧
      g' = { g2 with game_running := true, counter := 0 } := by
  unfold shuffle at h
  rw [if_neg (by simp [hrun])] at h
  split at h
  · exact Option.noConfusion h
  · rename_i g2 hloop
    cases h
    exact ⟨g2, hloop, rfl⟩

/-! ### Claim theorems -/

/-- C1: if shuffle(gridSize) is invoked when no game is running and its
random-walk loop terminates (modelled: the call returns a state), then at
return the tracked empty cell is at (gridSize-1, gridSize-1), check_win
returns false, the move counter equals zero, and the game state is
running. -/
theorem shuffle_postconditions (g : Gameboard) (n : Nat) (r : Nat → Nat)
    (fuel : Nat) (g' : Gameboard) (hrun : g.game_running = false)
    (h : shuffle g n r fuel = some g') :
    g'.current_empty_tile = some (n - 1, n - 1) ∧ check_win g' = false ∧
      g'.counter = 0 ∧ g'.game_running = true := by
  obtain ⟨g2, hloop, rfl⟩ := shuffle_some g n r fuel g' hrun h
  have hbreak := shuffle_loop_break r fuel _ 0 g2 hloop
  have hsize : g2.grid_size = n := (shuffle_loop_fields r fuel _ 0 g2 hloop).1
  refine ⟨?_, hbreak.2, rfl, rfl⟩
  show g2.current_empty_tile = some (n - 1, n - 1)
  rw [hbreak.1, hsize]

/-- A concrete terminating 2 by 2 shuffle: the random stream alternating
0, 1 makes the first pass rotate three tiles around the grid and return the
empty cell to the corner, so the pass is accepted. -/
def shuffledSample : Gameboard :=
  (shuffle initGameboard 2 (fun i => i % 2) 1).getD initGameboard

theorem shuffle_postconditions_witness :
    shuffledSample.current_empty_tile = some (2 - 1, 2 - 1) ∧
      check_win shuffledSample = false ∧ shuffledSample.counter = 0 ∧
      shuffledSample.game_running = true :=
  shuffle_postconditions initGameboard 2 (fun i => i % 2) 1 shuffledSample
    rfl rfl

/-- C2: every layout produced by a terminating shuffle call (started, as in
every call site of the application, on a cleared tile dictionary with no
game running) is reachable from the solved layout by a finite sequence of
legal moves: the freshly built grid is solved with the empty cell at the
corner, and the returned tiles and empty-cell tracker are those of a state
reachable from it in the legal-move graph. -/
theorem shuffle_produces_reachable (g : Gameboard) (n : Nat) (r : Nat → Nat)
    (fuel : Nat) (g' : Gameboard) (hrun : g.game_running = false)
    (hg : g.tiles = []) (hn : 2 ≤ n)
    (h : shuffle g n r fuel = some g') :
    check_win (setup_grid g n) = true ∧
      (setup_grid g n).current_empty_tile = some (n - 1, n - 1) ∧
      ∃ g2, ReachableFrom (setup_grid g n) g2 ∧
        g'.tiles = g2.tiles ∧ g'.current_empty_tile = g2.current_empty_tile := by
  obtain ⟨g2, hloop, rfl⟩ := shuffle_some g n r fuel g' hrun h
  have hInv0 := Inv_setup_grid g n hg (by omega)
  obtain ⟨hI2, hr⟩ := shuffle_loop_spec r fuel _ 0 g2 hInv0 hn hloop
  refine ⟨?_, rfl, g2, hr _ ReachableFrom.refl, rfl, rfl⟩
  simp only [check_win, setup_grid_tiles g n hg, Tile.is_in_right_place,
    List.all_eq_true, List.mem_map]
  rintro kv ⟨rc, _, rfl⟩
  exact beq_self_eq_true _

theorem shuffle_produces_reachable_witness :
    check_win (setup_grid initGameboard 2) = true ∧
      (setup_grid initGameboard 2).current_empty_tile = some (2 - 1, 2 - 1) ∧
      ∃ g2, ReachableFrom (setup_grid initGameboard 2) g2 ∧
        shuffledSample.tiles = g2.tiles ∧
        shuffledSample.current_empty_tile = g2.current_empty_tile :=
  shuffle_produces_reachable initGameboard 2 (fun i => i % 2) 1 shuffledSample
    rfl rfl (by decide) rfl

/-- C3: on every state reachable during a game (the grid freshly set up by
shuffle, then any sequence of legal moves of in-bounds tiles), the tile
dictionary is a bijection between grid positions and tiles: one entry per
grid position with no duplicate keys, pairwise distinct tile identities,
every tile filed under its own location field, and the tracker naming the
in-bounds cell holding the hidden corner tile (Inv); move_tile preserves
all of it atomically and moves the tracker to the moved tile's former
position. -/
theorem reachable_bijection (b : Gameboard) (n : Nat) (g : Gameboard)
    (hb : b.tiles = []) (hn : 1 ≤ n)
    (hr : ReachableFrom (setup_grid b n) g) :
    Inv g ∧ ∀ p g1, p.1 < g.grid_size → p.2 < g.grid_size →
      moveable_tile g p = true → move_tile g p = some g1 →
      Inv g1 ∧ g1.current_empty_tile = some p := by
  have hInv := Inv_of_reachable _ _ (Inv_setup_grid b n hb hn) hr
  refine ⟨hInv, ?_⟩
  intro p g1 hp1 hp2 hmv hstep
  obtain ⟨g1', h1, h2, h3⟩ := Inv_move_tile g p hInv hp1 hp2 hmv
  rw [hstep] at h1
  cases h1
  exact ⟨h2, h3⟩

theorem reachable_bijection_witness :
    Inv (setup_grid initGameboard 2) ∧
      ∀ p g1, p.1 < (setup_grid initGameboard 2).grid_size →
        p.2 < (setup_grid initGameboard 2).grid_size →
        moveable_tile (setup_grid initGameboard 2) p = true →
        move_tile (setup_grid initGameboard 2) p = some g1 →
        Inv g1 ∧ g1.current_empty_tile = some p :=
  reachable_bijection initGameboard 2 (setup_grid initGameboard 2) rfl
    (by decide) ReachableFrom.refl

/-- C4: on a state satisfying the game invariant (every reachable game
state), check_win returns true iff every tile of the dictionary has its
current location equal to its home id — equivalently, iff every grid
position holds exactly the tile whose home position it is. -/
theorem check_win_iff_all_home (g : Gameboard) (hInv : Inv g) :
    (check_win g = true ↔ ∀ kv ∈ g.tiles, kv.2.location = kv.2.id) ∧
      (check_win g = true ↔ ∀ p ∈ gridPositionsCM g.grid_size,
        dget g.tiles p = some { location := p, id := p }) := by
  have hall : check_win g = true ↔ ∀ kv ∈ g.tiles, kv.2.location = kv.2.id := by
    simp [check_win, List.all_eq_true, Tile.is_in_right_place]
  refine ⟨hall, hall.trans ⟨?_, ?_⟩⟩
  · intro hw p hp
    obtain ⟨t, ht⟩ := Option.isSome_iff_exists.mp (hInv.total p hp)
    have hloc : t.location = p := hInv.entry_loc (p, t) (mem_of_dget _ _ _ ht)
    have hid : t.id = p := ((hw (p, t) (mem_of_dget _ _ _ ht)).symm).trans hloc
    obtain ⟨tl, tid⟩ := t
    dsimp only at hloc hid
    rw [ht, hloc, hid]
  · intro hw kv hkv
    obtain ⟨k, v⟩ := kv
    have hb := hInv.entry_bounds (k, v) hkv
    have h1 : dget g.tiles k = some v := dget_of_mem _ _ _ hInv.keys_nodup hkv
    have h2 := hw k ((mem_gridPositionsCM _ _).mpr hb)
    rw [h1] at h2
    injection h2 with h2
    subst h2
    rfl

theorem check_win_iff_all_home_witness :
    (check_win (setup_grid initGameboard 2) = true ↔
        ∀ kv ∈ (setup_grid initGameboard 2).tiles,
          kv.2.location = kv.2.id) ∧
      (check_win (setup_grid initGameboard 2) = true ↔
        ∀ p ∈ gridPositionsCM (setup_grid initGameboard 2).grid_size,
          dget (setup_grid initGameboard 2).tiles p =
            some { location := p, id := p }) :=
  check_win_iff_all_home (setup_grid initGameboard 2)
    (Inv_setup_grid initGameboard 2 rfl (by decide))

/-- C5: for every in-bounds position p, on a state whose empty-cell tracker
holds an in-bounds position e (as on every reachable game state),
moveable_tile p is true iff p is orthogonally adjacent to e (differing by
exactly one in exactly one coordinate), and iff p is a member of
get_moveable_tiles; both queries are pure functions of the state and mutate
nothing. -/
theorem moveable_iff_neighbor (g : Gameboard) (p e : Nat × Nat)
    (he : g.current_empty_tile = some e)
    (he1 : e.1 < g.grid_size) (he2 : e.2 < g.grid_size)
    (hp1 : p.1 < g.grid_size) (hp2 : p.2 < g.grid_size) :
    (moveable_tile g p = true ↔ adjacent p e) ∧
      (moveable_tile g p = true ↔ p ∈ get_moveable_tiles g) := by
  have h1 : moveable_tile g p = true ↔ adjacent p e := by
    unfold moveable_tile
    rw [he, decide_eq_true_iff, mem_get_neightbor_tiles g p e hp1 hp2]
    constructor
    · intro h
      exact (adjacent_symm e p).mp h.1
    · intro h
      exact ⟨(adjacent_symm p e).mp h, he1, he2⟩
  refine ⟨h1, ?_⟩
  unfold get_moveable_tiles
  rw [List.mem_filter]
  constructor
  · intro h
    exact ⟨(mem_gridPositionsCM _ _).mpr ⟨hp1, hp2⟩, h⟩
  · intro h
    exact h.2

theorem moveable_iff_neighbor_witness :
    (moveable_tile (setup_grid initGameboard 2) (0, 1) = true ↔
        adjacent (0, 1) (1, 1)) ∧
      (moveable_tile (setup_grid initGameboard 2) (0, 1) = true ↔
        (0, 1) ∈ get_moveable_tiles (setup_grid initGameboard 2)) :=
  moveable_iff_neighbor (setup_grid initGameboard 2) (0, 1) (1, 1)
    rfl (by decide) (by decide) (by decide) (by decide)

/-- A running 2 by 2 game one legal move away from the solved layout, with
five moves already counted: the hidden corner tile sits at (0, 1) and the
tile whose home is (0, 1) sits at (1, 1). -/
def nearWonSample : Gameboard :=
  { grid_size := 2
    counter := 5
    game_running := true
    current_empty_tile := some (0, 1)
    tiles := [((0, 0), { location := (0, 0), id := (0, 0) }),
              ((1, 0), { location := (1, 0), id := (1, 0) }),
              ((0, 1), { location := (0, 1), id := (1, 1) }),
              ((1, 1), { location := (1, 1), id := (0, 1) })]
    emitted := [] }

/-- C6 as stated is refuted at the winning click: on nearWonSample (game
running, counter 5) the click at (1, 1) is legal and accepted, yet the
counter afterwards is 0, not 5 + 1 — the won-state transition resets it
within the same call. -/
theorem tile_clicked_counter_counterexample :
    nearWonSample.game_running = true ∧ nearWonSample.counter = 5 ∧
      moveable_tile nearWonSample (1, 1) = true ∧
      (tile_clicked nearWonSample (1, 1)).map Gameboard.counter = some 0 :=
  ⟨rfl, rfl, by decide, by decide⟩

/-- C6 (amended): a click on a non-moveable position while the game runs is
rejected with no mutation and no exception; a click on a moveable in-bounds
position is accepted, performs the swap (moving the empty tracker to the
clicked position) and increments the counter by exactly one — unless the
move solves the puzzle, in which case the won-state transition resets the
counter to zero before the call returns. -/
theorem tile_clicked_accept_reject (g : Gameboard) (p : Nat × Nat)
    (hrun : g.game_running = true) :
    (moveable_tile g p = false → tile_clicked g p = some g) ∧
      (Inv g → p.1 < g.grid_size → p.2 < g.grid_size →
        moveable_tile g p = true →
        ∃ gm, move_tile g p = some gm ∧ gm.counter = g.counter + 1 ∧
          gm.current_empty_tile = some p ∧
          tile_clicked g p =
            some (if check_win gm then set_won_state gm true else gm) ∧
          (check_win gm = false → tile_clicked g p = some gm) ∧
          (check_win gm = true → (set_won_state gm true).counter = 0)) := by
  constructor
  · intro hmv
    simp [tile_clicked, hrun, hmv]
  · intro hInv hp1 hp2 hmv
    obtain ⟨gm, hgm, hI, hemp⟩ := Inv_move_tile g p hInv hp1 hp2 hmv
    have hc := (move_tile_fields _ _ _ hgm).2.2.2
    refine ⟨gm, hgm, hc, hemp, ?_, ?_, fun _ => rfl⟩
    · simp [tile_clicked, hrun, hmv, hgm]
    · intro hw
      simp [tile_clicked, hrun, hmv, hgm, hw]

theorem tile_clicked_accept_reject_witness :
    tile_clicked nearWonSample (1, 0) = some nearWonSample ∧
      ∃ gm, move_tile nearWonSample (1, 1) = some gm ∧
        gm.counter = nearWonSample.counter + 1 ∧
        gm.current_empty_tile = some (1, 1) ∧
        tile_clicked nearWonSample (1, 1) =
          some (if check_win gm then set_won_state gm true else gm) ∧
        (check_win gm = false → tile_clicked nearWonSample (1, 1) = some gm) ∧
        (check_win gm = true → (set_won_state gm true).counter = 0) :=
  ⟨(tile_clicked_accept_reject nearWonSample (1, 0) rfl).1 (by decide),
    (tile_clicked_accept_reject nearWonSample (1, 1) rfl).2
      ⟨by decide, by decide, by decide, by decide, by decide,
        ⟨(0, 1), rfl, by decide, by decide, by decide⟩⟩
      (by decide) (by decide) (by decide)⟩

/-- A second running 2 by 2 game one legal move from solved, with seven
moves counted: the hidden corner tile sits at (1, 0) and the tile whose
home is (1, 0) sits at (1, 1). -/
def nearWonSample2 : Gameboard :=
  { grid_size := 2
    counter := 7
    game_running := true
    current_empty_tile := some (1, 0)
    tiles := [((0, 0), { location := (0, 0), id := (0, 0) }),
              ((0, 1), { location := (0, 1), id := (0, 1) }),
              ((1, 0), { location := (1, 0), id := (1, 1) }),
              ((1, 1), { location := (1, 1), id := (1, 0) })]
    emitted := [] }

/-- C7 as stated is refuted: after the winning click on nearWonSample2 the
engine counter reads 0, not the final move count 8; the final count 8 is
observable only in the synchronous won_signal emission recorded in
emitted. -/
theorem winning_click_counterexample :
    nearWonSample2.game_running = true ∧
      nearWonSample2.counter = 7 ∧
      moveable_tile nearWonSample2 (1, 1) = true ∧
      (tile_clicked nearWonSample2 (1, 1)).map
        (fun g => (g.counter, g.emitted)) = some (0, [8]) :=
  ⟨rfl, rfl, by decide, by decide⟩

/-- C7 (amended): when a legal move solves the puzzle, the engine stops the
game (won state) and emits won_signal while the counter still holds the
final move count — one more than before the click — which the connected
caller reads during the synchronous emission; set_won_state then resets the
counter to zero before the click handler returns. -/
theorem winning_click_emits_then_resets (g : Gameboard) (p : Nat × Nat)
    (gm : Gameboard) (hrun : g.game_running = true)
    (hmv : moveable_tile g p = true)
    (hgm : move_tile g p = some gm) (hwin : check_win gm = true) :
    tile_clicked g p = some (set_won_state gm true) ∧
      gm.counter = g.counter + 1 ∧
      (set_won_state gm true).emitted = g.emitted ++ [g.counter + 1] ∧
      (set_won_state gm true).game_running = false ∧
      (set_won_state gm true).counter = 0 := by
  have hf := move_tile_fields _ _ _ hgm
  refine ⟨?_, hf.2.2.2, ?_, rfl, rfl⟩
  · simp [tile_clicked, hrun, hmv, hgm, hwin]
  · show gm.emitted ++ [gm.counter] = g.emitted ++ [g.counter + 1]
    rw [hf.2.2.1, hf.2.2.2]

/-- The state after the winning move on nearWonSample2, before the
won-state transition. -/
def nearWonMoved : Gameboard :=
  (move_tile nearWonSample2 (1, 1)).getD initGameboard

theorem winning_click_emits_then_resets_witness :
    tile_clicked nearWonSample2 (1, 1) =
        some (set_won_state nearWonMoved true) ∧
      nearWonMoved.counter = nearWonSample2.counter + 1 ∧
      (set_won_state nearWonMoved true).emitted =
        nearWonSample2.emitted ++ [nearWonSample2.counter + 1] ∧
      (set_won_state nearWonMoved true).game_running = false ∧
      (set_won_state nearWonMoved true).counter = 0 :=
  winning_click_emits_then_resets nearWonSample2 (1, 1) nearWonMoved rfl
    (by decide) rfl (by decide)

/-- C8 (amended): operating on the engine before shuffle has established a
grid is silently ignored rather than signalled: a tile click returns with
no state change and no exception (the game-running guard returns early),
and moveable_tile returns false, because the empty-cell tracker is still
None and None is not among any neighbour list. -/
theorem uninitialized_click_ignored (p : Nat × Nat) :
    tile_clicked initGameboard p = some initGameboard ∧
      moveable_tile initGameboard p = false :=
  ⟨rfl, rfl⟩

/-- C8 as stated is refuted: the click at (0, 0) on the freshly
constructed, never-shuffled engine does not raise or propagate any
precondition violation — it returns the unchanged state, and the legality
query answers false instead of failing. -/
theorem uninitialized_click_no_error :
    tile_clicked initGameboard (0, 0) = some initGameboard ∧
      moveable_tile initGameboard (0, 0) = false :=
  ⟨rfl, rfl⟩

set_option maxRecDepth 100000

/-- A random stream driving an 11 by 11 shuffle to acceptance at the end of
its second pass: the first four moves rotate three tiles around the
bottom-right corner, then the walk oscillates between the corner and the
cell above it (a pass has the odd length 121, so the empty cell can reach
the corner only after an even number of passes). -/
def oversizeStream (i : Nat) : Nat :=
  if i = 0 then 0 else if i = 1 then 2 else if i = 2 then 1
  else if i = 3 then 2 else i % 2

/-- Splitting a pass of m = m1 + m2 random moves at move m1. -/
theorem run_pass_append (r : Nat → Nat) (m m1 m2 : Nat) (g g1 g2 : Gameboard)
    (i : Nat) (hm : m = m1 + m2) (h1 : run_pass g r i m1 = some g1)
    (h2 : run_pass g1 r (i + m1) m2 = some g2) :
    run_pass g r i m = some g2 := by
  subst hm
  induction m1 generalizing g i with
  | zero =>
    cases h1
    simpa using h2
  | succ m1 ih =>
    rw [Nat.succ_add m1 m2]
    unfold run_pass
    unfold run_pass at h1
    split at h1
    · exact Option.noConfusion h1
    · rename_i g3 hstep
      have h2a : run_pass g1 r (i + 1 + m1) m2 = some g2 := by
        rw [show i + 1 + m1 = i + (m1 + 1) by omega]
        exact h2
      exact ih _ _ h1 h2a

/-- One unfolding of the loop of shuffle. -/
theorem shuffle_loop_succ (r : Nat → Nat) (fuel : Nat) (g : Gameboard)
    (i : Nat) :
    shuffle_loop r (fuel + 1) g i =
      match run_pass g r i (g.grid_size ^ 2) with
      | none => none
      | some g1 =>
        if g1.current_empty_tile = some (g1.grid_size - 1, g1.grid_size - 1)
            ∧ check_win g1 = false
        then some g1
        else shuffle_loop r fuel g1 (i + g.grid_size ^ 2) := rfl

/-- The states of the 11 by 11 walk driven by oversizeStream, recorded
every eleven moves (ovB0 is the freshly built grid, ovB11 the end of pass
one, ovB22 the accepted end of pass two). -/
def ovB0 : Gameboard := Gameboard.mk 11 0 false (some (10, 10)) [((0, 0), Tile.mk (0, 0) (0, 0)), ((1, 0), Tile.mk (1, 0) (1, 0)), ((2, 0), Tile.mk (2, 0) (2, 0)), ((3, 0), Tile.mk (3, 0) (3, 0)), ((4, 0), Tile.mk (4, 0) (4, 0)), ((5, 0), Tile.mk (5, 0) (5, 0)), ((6, 0), Tile.mk (6, 0) (6, 0)), ((7, 0), Tile.mk (7, 0) (7, 0)), ((8, 0), Tile.mk (8, 0) (8, 0)), ((9, 0), Tile.mk (9, 0) (9, 0)), ((10, 0), Tile.mk (10, 0) (10, 0)), ((0, 1), Tile.mk (0, 1) (0, 1)), ((1, 1), Tile.mk (1, 1) (1, 1)), ((2, 1), Tile.mk (2, 1) (2, 1)), ((3, 1), Tile.mk (3, 1) (3, 1)), ((4, 1), Tile.mk (4, 1) (4, 1)), ((5, 1), Tile.mk (5, 1) (5, 1)), ((6, 1), Tile.mk (6, 1) (6, 1)), ((7, 1), Tile.mk (7, 1) (7, 1)), ((8, 1), Tile.mk (8, 1) (8, 1)), ((9, 1), Tile.mk (9, 1) (9, 1)), ((10, 1), Tile.mk (10, 1) (10, 1)), ((0, 2), Tile.mk (0, 2) (0, 2)), ((1, 2), Tile.mk (1, 2) (1, 2)), ((2, 2), Tile.mk (2, 2) (2, 2)), ((3, 2), Tile.mk (3, 2) (3, 2)), ((4, 2), Tile.mk (4, 2) (4, 2)), ((5, 2), Tile.mk (5, 2) (5, 2)), ((6, 2), Tile.mk (6, 2) (6, 2)), ((7, 2), Tile.mk (7, 2) (7, 2)), ((8, 2), Tile.mk (8, 2) (8, 2)), ((9, 2), Tile.mk (9, 2) (9, 2)), ((10, 2), Tile.mk (10, 2) (10, 2)), ((0, 3), Tile.mk (0, 3) (0, 3)), ((1, 3), Tile.mk (1, 3) (1, 3)), ((2, 3), Tile.mk (2, 3) (2, 3)), ((3, 3), Tile.mk (3, 3) (3, 3)), ((4, 3), Tile.mk (4, 3) (4, 3)), ((5, 3), Tile.mk (5, 3) (5, 3)), ((6, 3), Tile.mk (6, 3) (6, 3)), ((7, 3), Tile.mk (7, 3) (7, 3)), ((8, 3), Tile.mk (8, 3) (8, 3)), ((9, 3), Tile.mk (9, 3) (9, 3)), ((10, 3), Tile.mk (10, 3) (10, 3)), ((0, 4), Tile.mk (0, 4) (0, 4)), ((1, 4), Tile.mk (1, 4) (1, 4)), ((2, 4), Tile.mk (2, 4) (2, 4)), ((3, 4), Tile.mk (3, 4) (3, 4)), ((4, 4), Tile.mk (4, 4) (4, 4)), ((5, 4), Tile.mk (5, 4) (5, 4)), ((6, 4), Tile.mk (6, 4) (6, 4)), ((7, 4), Tile.mk (7, 4) (7, 4)), ((8, 4), Tile.mk (8, 4) (8, 4)), ((9, 4), Tile.mk (9, 4) (9, 4)), ((10, 4), Tile.mk (10, 4) (10, 4)), ((0, 5), Tile.mk (0, 5) (0, 5)), ((1, 5), Tile.mk (1, 5) (1, 5)), ((2, 5), Tile.mk (2, 5) (2, 5)), ((3, 5), Tile.mk (3, 5) (3, 5)), ((4, 5), Tile.mk (4, 5) (4, 5)), ((5, 5), Tile.mk (5, 5) (5, 5)), ((6, 5), Tile.mk (6, 5) (6, 5)), ((7, 5), Tile.mk (7, 5) (7, 5)), ((8, 5), Tile.mk (8, 5) (8, 5)), ((9, 5), Tile.mk (9, 5) (9, 5)), ((10, 5), Tile.mk (10, 5) (10, 5)), ((0, 6), Tile.mk (0, 6) (0, 6)), ((1, 6), Tile.mk (1, 6) (1, 6)), ((2, 6), Tile.mk (2, 6) (2, 6)), ((3, 6), Tile.mk (3, 6) (3, 6)), ((4, 6), Tile.mk (4, 6) (4, 6)), ((5, 6), Tile.mk (5, 6) (5, 6)), ((6, 6), Tile.mk (6, 6) (6, 6)), ((7, 6), Tile.mk (7, 6) (7, 6)), ((8, 6), Tile.mk (8, 6) (8, 6)), ((9, 6), Tile.mk (9, 6) (9, 6)), ((10, 6), Tile.mk (10, 6) (10, 6)), ((0, 7), Tile.mk (0, 7) (0, 7)), ((1, 7), Tile.mk (1, 7) (1, 7)), ((2, 7), Tile.mk (2, 7) (2, 7)), ((3, 7), Tile.mk (3, 7) (3, 7)), ((4, 7), Tile.mk (4, 7) (4, 7)), ((5, 7), Tile.mk (5, 7) (5, 7)), ((6, 7), Tile.mk (6, 7) (6, 7)), ((7, 7), Tile.mk (7, 7) (7, 7)), ((8, 7), Tile.mk (8, 7) (8, 7)), ((9, 7), Tile.mk (9, 7) (9, 7)), ((10, 7), Tile.mk (10, 7) (10, 7)), ((0, 8), Tile.mk (0, 8) (0, 8)), ((1, 8), Tile.mk (1, 8) (1, 8)), ((2, 8), Tile.mk (2, 8) (2, 8)), ((3, 8), Tile.mk (3, 8) (3, 8)), ((4, 8), Tile.mk (4, 8) (4, 8)), ((5, 8), Tile.mk (5, 8) (5, 8)), ((6, 8), Tile.mk (6, 8) (6, 8)), ((7, 8), Tile.mk (7, 8) (7, 8)), ((8, 8), Tile.mk (8, 8) (8, 8)), ((9, 8), Tile.mk (9, 8) (9, 8)), ((10, 8), Tile.mk (10, 8) (10, 8)), ((0, 9), Tile.mk (0, 9) (0, 9)), ((1, 9), Tile.mk (1, 9) (1, 9)), ((2, 9), Tile.mk (2, 9) (2, 9)), ((3, 9), Tile.mk (3, 9) (3, 9)), ((4, 9), Tile.mk (4, 9) (4, 9)), ((5, 9), Tile.mk (5, 9) (5, 9)), ((6, 9), Tile.mk (6, 9) (6, 9)), ((7, 9), Tile.mk (7, 9) (7, 9)), ((8, 9), Tile.mk (8, 9) (8, 9)), ((9, 9), Tile.mk (9, 9) (9, 9)), ((10, 9), Tile.mk (10, 9) (10, 9)), ((0, 10), Tile.mk (0, 10) (0, 10)), ((1, 10), Tile.mk (1, 10) (1, 10)), ((2, 10), Tile.mk (2, 10) (2, 10)), ((3, 10), Tile.mk (3, 10) (3, 10)), ((4, 10), Tile.mk (4, 10) (4, 10)), ((5, 10), Tile.mk (5, 10) (5, 10)), ((6, 10), Tile.mk (6, 10) (6, 10)), ((7, 10), Tile.mk (7, 10) (7, 10)), ((8, 10), Tile.mk (8, 10) (8, 10)), ((9, 10), Tile.mk (9, 10) (9, 10)), ((10, 10), Tile.mk (10, 10) (10, 10))] []

def ovB1 : Gameboard := Gameboard.mk 11 11 false (some (9, 10)) [((0, 0), Tile.mk (0, 0) (0, 0)), ((1, 0), Tile.mk (1, 0) (1, 0)), ((2, 0), Tile.mk (2, 0) (2, 0)), ((3, 0), Tile.mk (3, 0) (3, 0)), ((4, 0), Tile.mk (4, 0) (4, 0)), ((5, 0), Tile.mk (5, 0) (5, 0)), ((6, 0), Tile.mk (6, 0) (6, 0)), ((7, 0), Tile.mk (7, 0) (7, 0)), ((8, 0), Tile.mk (8, 0) (8, 0)), ((9, 0), Tile.mk (9, 0) (9, 0)), ((10, 0), Tile.mk (10, 0) (10, 0)), ((0, 1), Tile.mk (0, 1) (0, 1)), ((1, 1), Tile.mk (1, 1) (1, 1)), ((2, 1), Tile.mk (2, 1) (2, 1)), ((3, 1), Tile.mk (3, 1) (3, 1)), ((4, 1), Tile.mk (4, 1) (4, 1)), ((5, 1), Tile.mk (5, 1) (5, 1)), ((6, 1), Tile.mk (6, 1) (6, 1)), ((7, 1), Tile.mk (7, 1) (7, 1)), ((8, 1), Tile.mk (8, 1) (8, 1)), ((9, 1), Tile.mk (9, 1) (9, 1)), ((10, 1), Tile.mk (10, 1) (10, 1)), ((0, 2), Tile.mk (0, 2) (0, 2)), ((1, 2), Tile.mk (1, 2) (1, 2)), ((2, 2), Tile.mk (2, 2) (2, 2)), ((3, 2), Tile.mk (3, 2) (3, 2)), ((4, 2), Tile.mk (4, 2) (4, 2)), ((5, 2), Tile.mk (5, 2) (5, 2)), ((6, 2), Tile.mk (6, 2) (6, 2)), ((7, 2), Tile.mk (7, 2) (7, 2)), ((8, 2), Tile.mk (8, 2) (8, 2)), ((9, 2), Tile.mk (9, 2) (9, 2)), ((10, 2), Tile.mk (10, 2) (10, 2)), ((0, 3), Tile.mk (0, 3) (0, 3)), ((1, 3), Tile.mk (1, 3) (1, 3)), ((2, 3), Tile.mk (2, 3) (2, 3)), ((3, 3), Tile.mk (3, 3) (3, 3)), ((4, 3), Tile.mk (4, 3) (4, 3)), ((5, 3), Tile.mk (5, 3) (5, 3)), ((6, 3), Tile.mk (6, 3) (6, 3)), ((7, 3), Tile.mk (7, 3) (7, 3)), ((8, 3), Tile.mk (8, 3) (8, 3)), ((9, 3), Tile.mk (9, 3) (9, 3)), ((10, 3), Tile.mk (10, 3) (10, 3)), ((0, 4), Tile.mk (0, 4) (0, 4)), ((1, 4), Tile.mk (1, 4) (1, 4)), ((2, 4), Tile.mk (2, 4) (2, 4)), ((3, 4), Tile.mk (3, 4) (3, 4)), ((4, 4), Tile.mk (4, 4) (4, 4)), ((5, 4), Tile.mk (5, 4) (5, 4)), ((6, 4), Tile.mk (6, 4) (6, 4)), ((7, 4), Tile.mk (7, 4) (7, 4)), ((8, 4), Tile.mk (8, 4) (8, 4)), ((9, 4), Tile.mk (9, 4) (9, 4)), ((10, 4), Tile.mk (10, 4) (10, 4)), ((0, 5), Tile.mk (0, 5) (0, 5)), ((1, 5), Tile.mk (1, 5) (1, 5)), ((2, 5), Tile.mk (2, 5) (2, 5)), ((3, 5), Tile.mk (3, 5) (3, 5)), ((4, 5), Tile.mk (4, 5) (4, 5)), ((5, 5), Tile.mk (5, 5) (5, 5)), ((6, 5), Tile.mk (6, 5) (6, 5)), ((7, 5), Tile.mk (7, 5) (7, 5)), ((8, 5), Tile.mk (8, 5) (8, 5)), ((9, 5), Tile.mk (9, 5) (9, 5)), ((10, 5), Tile.mk (10, 5) (10, 5)), ((0, 6), Tile.mk (0, 6) (0, 6)), ((1, 6), Tile.mk (1, 6) (1, 6)), ((2, 6), Tile.mk (2, 6) (2, 6)), ((3, 6), Tile.mk (3, 6) (3, 6)), ((4, 6), Tile.mk (4, 6) (4, 6)), ((5, 6), Tile.mk (5, 6) (5, 6)), ((6, 6), Tile.mk (6, 6) (6, 6)), ((7, 6), Tile.mk (7, 6) (7, 6)), ((8, 6), Tile.mk (8, 6) (8, 6)), ((9, 6), Tile.mk (9, 6) (9, 6)), ((10, 6), Tile.mk (10, 6) (10, 6)), ((0, 7), Tile.mk (0, 7) (0, 7)), ((1, 7), Tile.mk (1, 7) (1, 7)), ((2, 7), Tile.mk (2, 7) (2, 7)), ((3, 7), Tile.mk (3, 7) (3, 7)), ((4, 7), Tile.mk (4, 7) (4, 7)), ((5, 7), Tile.mk (5, 7) (5, 7)), ((6, 7), Tile.mk (6, 7) (6, 7)), ((7, 7), Tile.mk (7, 7) (7, 7)), ((8, 7), Tile.mk (8, 7) (8, 7)), ((9, 7), Tile.mk (9, 7) (9, 7)), ((10, 7), Tile.mk (10, 7) (10, 7)), ((0, 8), Tile.mk (0, 8) (0, 8)), ((1, 8), Tile.mk (1, 8) (1, 8)), ((2, 8), Tile.mk (2, 8) (2, 8)), ((3, 8), Tile.mk (3, 8) (3, 8)), ((4, 8), Tile.mk (4, 8) (4, 8)), ((5, 8), Tile.mk (5, 8) (5, 8)), ((6, 8), Tile.mk (6, 8) (6, 8)), ((7, 8), Tile.mk (7, 8) (7, 8)), ((8, 8), Tile.mk (8, 8) (8, 8)), ((9, 8), Tile.mk (9, 8) (9, 8)), ((10, 8), Tile.mk (10, 8) (10, 8)), ((0, 9), Tile.mk (0, 9) (0, 9)), ((1, 9), Tile.mk (1, 9) (1, 9)), ((2, 9), Tile.mk (2, 9) (2, 9)), ((3, 9), Tile.mk (3, 9) (3, 9)), ((4, 9), Tile.mk (4, 9) (4, 9)), ((5, 9), Tile.mk (5, 9) (5, 9)), ((6, 9), Tile.mk (6, 9) (6, 9)), ((7, 9), Tile.mk (7, 9) (7, 9)), ((8, 9), Tile.mk (8, 9) (8, 9)), ((0, 10), Tile.mk (0, 10) (0, 10)), ((1, 10), Tile.mk (1, 10) (1, 10)), ((2, 10), Tile.mk (2, 10) (2, 10)), ((3, 10), Tile.mk (3, 10) (3, 10)), ((4, 10), Tile.mk (4, 10) (4, 10)), ((5, 10), Tile.mk (5, 10) (5, 10)), ((6, 10), Tile.mk (6, 10) (6, 10)), ((7, 10), Tile.mk (7, 10) (7, 10)), ((8, 10), Tile.mk (8, 10) (8, 10)), ((9, 9), Tile.mk (9, 9) (10, 9)), ((10, 9), Tile.mk (10, 9) (9, 10)), ((9, 10), Tile.mk (9, 10) (10, 10)), ((10, 10), Tile.mk (10, 10) (9, 9))] []

def ovB2 : Gameboard := Gameboard.mk 11 22 false (some (10, 10)) [((0, 0), Tile.mk (0, 0) (0, 0)), ((1, 0), Tile.mk (1, 0) (1, 0)), ((2, 0), Tile.mk (2, 0) (2, 0)), ((3, 0), Tile.mk (3, 0) (3, 0)), ((4, 0), Tile.mk (4, 0) (4, 0)), ((5, 0), Tile.mk (5, 0) (5, 0)), ((6, 0), Tile.mk (6, 0) (6, 0)), ((7, 0), Tile.mk (7, 0) (7, 0)), ((8, 0), Tile.mk (8, 0) (8, 0)), ((9, 0), Tile.mk (9, 0) (9, 0)), ((10, 0), Tile.mk (10, 0) (10, 0)), ((0, 1), Tile.mk (0, 1) (0, 1)), ((1, 1), Tile.mk (1, 1) (1, 1)), ((2, 1), Tile.mk (2, 1) (2, 1)), ((3, 1), Tile.mk (3, 1) (3, 1)), ((4, 1), Tile.mk (4, 1) (4, 1)), ((5, 1), Tile.mk (5, 1) (5, 1)), ((6, 1), Tile.mk (6, 1) (6, 1)), ((7, 1), Tile.mk (7, 1) (7, 1)), ((8, 1), Tile.mk (8, 1) (8, 1)), ((9, 1), Tile.mk (9, 1) (9, 1)), ((10, 1), Tile.mk (10, 1) (10, 1)), ((0, 2), Tile.mk (0, 2) (0, 2)), ((1, 2), Tile.mk (1, 2) (1, 2)), ((2, 2), Tile.mk (2, 2) (2, 2)), ((3, 2), Tile.mk (3, 2) (3, 2)), ((4, 2), Tile.mk (4, 2) (4, 2)), ((5, 2), Tile.mk (5, 2) (5, 2)), ((6, 2), Tile.mk (6, 2) (6, 2)), ((7, 2), Tile.mk (7, 2) (7, 2)), ((8, 2), Tile.mk (8, 2) (8, 2)), ((9, 2), Tile.mk (9, 2) (9, 2)), ((10, 2), Tile.mk (10, 2) (10, 2)), ((0, 3), Tile.mk (0, 3) (0, 3)), ((1, 3), Tile.mk (1, 3) (1, 3)), ((2, 3), Tile.mk (2, 3) (2, 3)), ((3, 3), Tile.mk (3, 3) (3, 3)), ((4, 3), Tile.mk (4, 3) (4, 3)), ((5, 3), Tile.mk (5, 3) (5, 3)), ((6, 3), Tile.mk (6, 3) (6, 3)), ((7, 3), Tile.mk (7, 3) (7, 3)), ((8, 3), Tile.mk (8, 3) (8, 3)), ((9, 3), Tile.mk (9, 3) (9, 3)), ((10, 3), Tile.mk (10, 3) (10, 3)), ((0, 4), Tile.mk (0, 4) (0, 4)), ((1, 4), Tile.mk (1, 4) (1, 4)), ((2, 4), Tile.mk (2, 4) (2, 4)), ((3, 4), Tile.mk (3, 4) (3, 4)), ((4, 4), Tile.mk (4, 4) (4, 4)), ((5, 4), Tile.mk (5, 4) (5, 4)), ((6, 4), Tile.mk (6, 4) (6, 4)), ((7, 4), Tile.mk (7, 4) (7, 4)), ((8, 4), Tile.mk (8, 4) (8, 4)), ((9, 4), Tile.mk (9, 4) (9, 4)), ((10, 4), Tile.mk (10, 4) (10, 4)), ((0, 5), Tile.mk (0, 5) (0, 5)), ((1, 5), Tile.mk (1, 5) (1, 5)), ((2, 5), Tile.mk (2, 5) (2, 5)), ((3, 5), Tile.mk (3, 5) (3, 5)), ((4, 5), Tile.mk (4, 5) (4, 5)), ((5, 5), Tile.mk (5, 5) (5, 5)), ((6, 5), Tile.mk (6, 5) (6, 5)), ((7, 5), Tile.mk (7, 5) (7, 5)), ((8, 5), Tile.mk (8, 5) (8, 5)), ((9, 5), Tile.mk (9, 5) (9, 5)), ((10, 5), Tile.mk (10, 5) (10, 5)), ((0, 6), Tile.mk (0, 6) (0, 6)), ((1, 6), Tile.mk (1, 6) (1, 6)), ((2, 6), Tile.mk (2, 6) (2, 6)), ((3, 6), Tile.mk (3, 6) (3, 6)), ((4, 6), Tile.mk (4, 6) (4, 6)), ((5, 6), Tile.mk (5, 6) (5, 6)), ((6, 6), Tile.mk (6, 6) (6, 6)), ((7, 6), Tile.mk (7, 6) (7, 6)), ((8, 6), Tile.mk (8, 6) (8, 6)), ((9, 6), Tile.mk (9, 6) (9, 6)), ((10, 6), Tile.mk (10, 6) (10, 6)), ((0, 7), Tile.mk (0, 7) (0, 7)), ((1, 7), Tile.mk (1, 7) (1, 7)), ((2, 7), Tile.mk (2, 7) (2, 7)), ((3, 7), Tile.mk (3, 7) (3, 7)), ((4, 7), Tile.mk (4, 7) (4, 7)), ((5, 7), Tile.mk (5, 7) (5, 7)), ((6, 7), Tile.mk (6, 7) (6, 7)), ((7, 7), Tile.mk (7, 7) (7, 7)), ((8, 7), Tile.mk (8, 7) (8, 7)), ((9, 7), Tile.mk (9, 7) (9, 7)), ((10, 7), Tile.mk (10, 7) (10, 7)), ((0, 8), Tile.mk (0, 8) (0, 8)), ((1, 8), Tile.mk (1, 8) (1, 8)), ((2, 8), Tile.mk (2, 8) (2, 8)), ((3, 8), Tile.mk (3, 8) (3, 8)), ((4, 8), Tile.mk (4, 8) (4, 8)), ((5, 8), Tile.mk (5, 8) (5, 8)), ((6, 8), Tile.mk (6, 8) (6, 8)), ((7, 8), Tile.mk (7, 8) (7, 8)), ((8, 8), Tile.mk (8, 8) (8, 8)), ((9, 8), Tile.mk (9, 8) (9, 8)), ((10, 8), Tile.mk (10, 8) (10, 8)), ((0, 9), Tile.mk (0, 9) (0, 9)), ((1, 9), Tile.mk (1, 9) (1, 9)), ((2, 9), Tile.mk (2, 9) (2, 9)), ((3, 9), Tile.mk (3, 9) (3, 9)), ((4, 9), Tile.mk (4, 9) (4, 9)), ((5, 9), Tile.mk (5, 9) (5, 9)), ((6, 9), Tile.mk (6, 9) (6, 9)), ((7, 9), Tile.mk (7, 9) (7, 9)), ((8, 9), Tile.mk (8, 9) (8, 9)), ((0, 10), Tile.mk (0, 10) (0, 10)), ((1, 10), Tile.mk (1, 10) (1, 10)), ((2, 10), Tile.mk (2, 10) (2, 10)), ((3, 10), Tile.mk (3, 10) (3, 10)), ((4, 10), Tile.mk (4, 10) (4, 10)), ((5, 10), Tile.mk (5, 10) (5, 10)), ((6, 10), Tile.mk (6, 10) (6, 10)), ((7, 10), Tile.mk (7, 10) (7, 10)), ((8, 10), Tile.mk (8, 10) (8, 10)), ((9, 9), Tile.mk (9, 9) (10, 9)), ((10, 9), Tile.mk (10, 9) (9, 10)), ((10, 10), Tile.mk (10, 10) (10, 10)), ((9, 10), Tile.mk (9, 10) (9, 9))] []

def ovB3 : Gameboard := Gameboard.mk 11 33 false (some (9, 10)) [((0, 0), Tile.mk (0, 0) (0, 0)), ((1, 0), Tile.mk (1, 0) (1, 0)), ((2, 0), Tile.mk (2, 0) (2, 0)), ((3, 0), Tile.mk (3, 0) (3, 0)), ((4, 0), Tile.mk (4, 0) (4, 0)), ((5, 0), Tile.mk (5, 0) (5, 0)), ((6, 0), Tile.mk (6, 0) (6, 0)), ((7, 0), Tile.mk (7, 0) (7, 0)), ((8, 0), Tile.mk (8, 0) (8, 0)), ((9, 0), Tile.mk (9, 0) (9, 0)), ((10, 0), Tile.mk (10, 0) (10, 0)), ((0, 1), Tile.mk (0, 1) (0, 1)), ((1, 1), Tile.mk (1, 1) (1, 1)), ((2, 1), Tile.mk (2, 1) (2, 1)), ((3, 1), Tile.mk (3, 1) (3, 1)), ((4, 1), Tile.mk (4, 1) (4, 1)), ((5, 1), Tile.mk (5, 1) (5, 1)), ((6, 1), Tile.mk (6, 1) (6, 1)), ((7, 1), Tile.mk (7, 1) (7, 1)), ((8, 1), Tile.mk (8, 1) (8, 1)), ((9, 1), Tile.mk (9, 1) (9, 1)), ((10, 1), Tile.mk (10, 1) (10, 1)), ((0, 2), Tile.mk (0, 2) (0, 2)), ((1, 2), Tile.mk (1, 2) (1, 2)), ((2, 2), Tile.mk (2, 2) (2, 2)), ((3, 2), Tile.mk (3, 2) (3, 2)), ((4, 2), Tile.mk (4, 2) (4, 2)), ((5, 2), Tile.mk (5, 2) (5, 2)), ((6, 2), Tile.mk (6, 2) (6, 2)), ((7, 2), Tile.mk (7, 2) (7, 2)), ((8, 2), Tile.mk (8, 2) (8, 2)), ((9, 2), Tile.mk (9, 2) (9, 2)), ((10, 2), Tile.mk (10, 2) (10, 2)), ((0, 3), Tile.mk (0, 3) (0, 3)), ((1, 3), Tile.mk (1, 3) (1, 3)), ((2, 3), Tile.mk (2, 3) (2, 3)), ((3, 3), Tile.mk (3, 3) (3, 3)), ((4, 3), Tile.mk (4, 3) (4, 3)), ((5, 3), Tile.mk (5, 3) (5, 3)), ((6, 3), Tile.mk (6, 3) (6, 3)), ((7, 3), Tile.mk (7, 3) (7, 3)), ((8, 3), Tile.mk (8, 3) (8, 3)), ((9, 3), Tile.mk (9, 3) (9, 3)), ((10, 3), Tile.mk (10, 3) (10, 3)), ((0, 4), Tile.mk (0, 4) (0, 4)), ((1, 4), Tile.mk (1, 4) (1, 4)), ((2, 4), Tile.mk (2, 4) (2, 4)), ((3, 4), Tile.mk (3, 4) (3, 4)), ((4, 4), Tile.mk (4, 4) (4, 4)), ((5, 4), Tile.mk (5, 4) (5, 4)), ((6, 4), Tile.mk (6, 4) (6, 4)), ((7, 4), Tile.mk (7, 4) (7, 4)), ((8, 4), Tile.mk (8, 4) (8, 4)), ((9, 4), Tile.mk (9, 4) (9, 4)), ((10, 4), Tile.mk (10, 4) (10, 4)), ((0, 5), Tile.mk (0, 5) (0, 5)), ((1, 5), Tile.mk (1, 5) (1, 5)), ((2, 5), Tile.mk (2, 5) (2, 5)), ((3, 5), Tile.mk (3, 5) (3, 5)), ((4, 5), Tile.mk (4, 5) (4, 5)), ((5, 5), Tile.mk (5, 5) (5, 5)), ((6, 5), Tile.mk (6, 5) (6, 5)), ((7, 5), Tile.mk (7, 5) (7, 5)), ((8, 5), Tile.mk (8, 5) (8, 5)), ((9, 5), Tile.mk (9, 5) (9, 5)), ((10, 5), Tile.mk (10, 5) (10, 5)), ((0, 6), Tile.mk (0, 6) (0, 6)), ((1, 6), Tile.mk (1, 6) (1, 6)), ((2, 6), Tile.mk (2, 6) (2, 6)), ((3, 6), Tile.mk (3, 6) (3, 6)), ((4, 6), Tile.mk (4, 6) (4, 6)), ((5, 6), Tile.mk (5, 6) (5, 6)), ((6, 6), Tile.mk (6, 6) (6, 6)), ((7, 6), Tile.mk (7, 6) (7, 6)), ((8, 6), Tile.mk (8, 6) (8, 6)), ((9, 6), Tile.mk (9, 6) (9, 6)), ((10, 6), Tile.mk (10, 6) (10, 6)), ((0, 7), Tile.mk (0, 7) (0, 7)), ((1, 7), Tile.mk (1, 7) (1, 7)), ((2, 7), Tile.mk (2, 7) (2, 7)), ((3, 7), Tile.mk (3, 7) (3, 7)), ((4, 7), Tile.mk (4, 7) (4, 7)), ((5, 7), Tile.mk (5, 7) (5, 7)), ((6, 7), Tile.mk (6, 7) (6, 7)), ((7, 7), Tile.mk (7, 7) (7, 7)), ((8, 7), Tile.mk (8, 7) (8, 7)), ((9, 7), Tile.mk (9, 7) (9, 7)), ((10, 7), Tile.mk (10, 7) (10, 7)), ((0, 8), Tile.mk (0, 8) (0, 8)), ((1, 8), Tile.mk (1, 8) (1, 8)), ((2, 8), Tile.mk (2, 8) (2, 8)), ((3, 8), Tile.mk (3, 8) (3, 8)), ((4, 8), Tile.mk (4, 8) (4, 8)), ((5, 8), Tile.mk (5, 8) (5, 8)), ((6, 8), Tile.mk (6, 8) (6, 8)), ((7, 8), Tile.mk (7, 8) (7, 8)), ((8, 8), Tile.mk (8, 8) (8, 8)), ((9, 8), Tile.mk (9, 8) (9, 8)), ((10, 8), Tile.mk (10, 8) (10, 8)), ((0, 9), Tile.mk (0, 9) (0, 9)), ((1, 9), Tile.mk (1, 9) (1, 9)), ((2, 9), Tile.mk (2, 9) (2, 9)), ((3, 9), Tile.mk (3, 9) (3, 9)), ((4, 9), Tile.mk (4, 9) (4, 9)), ((5, 9), Tile.mk (5, 9) (5, 9)), ((6, 9), Tile.mk (6, 9) (6, 9)), ((7, 9), Tile.mk (7, 9) (7, 9)), ((8, 9), Tile.mk (8, 9) (8, 9)), ((0, 10), Tile.mk (0, 10) (0, 10)), ((1, 10), Tile.mk (1, 10) (1, 10)), ((2, 10), Tile.mk (2, 10) (2, 10)), ((3, 10), Tile.mk (3, 10) (3, 10)), ((4, 10), Tile.mk (4, 10) (4, 10)), ((5, 10), Tile.mk (5, 10) (5, 10)), ((6, 10), Tile.mk (6, 10) (6, 10)), ((7, 10), Tile.mk (7, 10) (7, 10)), ((8, 10), Tile.mk (8, 10) (8, 10)), ((9, 9), Tile.mk (9, 9) (10, 9)), ((10, 9), Tile.mk (10, 9) (9, 10)), ((9, 10), Tile.mk (9, 10) (10, 10)), ((10, 10), Tile.mk (10, 10) (9, 9))] []

def ovB4 : Gameboard := Gameboard.mk 11 44 false (some (10, 10)) [((0, 0), Tile.mk (0, 0) (0, 0)), ((1, 0), Tile.mk (1, 0) (1, 0)), ((2, 0), Tile.mk (2, 0) (2, 0)), ((3, 0), Tile.mk (3, 0) (3, 0)), ((4, 0), Tile.mk (4, 0) (4, 0)), ((5, 0), Tile.mk (5, 0) (5, 0)), ((6, 0), Tile.mk (6, 0) (6, 0)), ((7, 0), Tile.mk (7, 0) (7, 0)), ((8, 0), Tile.mk (8, 0) (8, 0)), ((9, 0), Tile.mk (9, 0) (9, 0)), ((10, 0), Tile.mk (10, 0) (10, 0)), ((0, 1), Tile.mk (0, 1) (0, 1)), ((1, 1), Tile.mk (1, 1) (1, 1)), ((2, 1), Tile.mk (2, 1) (2, 1)), ((3, 1), Tile.mk (3, 1) (3, 1)), ((4, 1), Tile.mk (4, 1) (4, 1)), ((5, 1), Tile.mk (5, 1) (5, 1)), ((6, 1), Tile.mk (6, 1) (6, 1)), ((7, 1), Tile.mk (7, 1) (7, 1)), ((8, 1), Tile.mk (8, 1) (8, 1)), ((9, 1), Tile.mk (9, 1) (9, 1)), ((10, 1), Tile.mk (10, 1) (10, 1)), ((0, 2), Tile.mk (0, 2) (0, 2)), ((1, 2), Tile.mk (1, 2) (1, 2)), ((2, 2), Tile.mk (2, 2) (2, 2)), ((3, 2), Tile.mk (3, 2) (3, 2)), ((4, 2), Tile.mk (4, 2) (4, 2)), ((5, 2), Tile.mk (5, 2) (5, 2)), ((6, 2), Tile.mk (6, 2) (6, 2)), ((7, 2), Tile.mk (7, 2) (7, 2)), ((8, 2), Tile.mk (8, 2) (8, 2)), ((9, 2), Tile.mk (9, 2) (9, 2)), ((10, 2), Tile.mk (10, 2) (10, 2)), ((0, 3), Tile.mk (0, 3) (0, 3)), ((1, 3), Tile.mk (1, 3) (1, 3)), ((2, 3), Tile.mk (2, 3) (2, 3)), ((3, 3), Tile.mk (3, 3) (3, 3)), ((4, 3), Tile.mk (4, 3) (4, 3)), ((5, 3), Tile.mk (5, 3) (5, 3)), ((6, 3), Tile.mk (6, 3) (6, 3)), ((7, 3), Tile.mk (7, 3) (7, 3)), ((8, 3), Tile.mk (8, 3) (8, 3)), ((9, 3), Tile.mk (9, 3) (9, 3)), ((10, 3), Tile.mk (10, 3) (10, 3)), ((0, 4), Tile.mk (0, 4) (0, 4)), ((1, 4), Tile.mk (1, 4) (1, 4)), ((2, 4), Tile.mk (2, 4) (2, 4)), ((3, 4), Tile.mk (3, 4) (3, 4)), ((4, 4), Tile.mk (4, 4) (4, 4)), ((5, 4), Tile.mk (5, 4) (5, 4)), ((6, 4), Tile.mk (6, 4) (6, 4)), ((7, 4), Tile.mk (7, 4) (7, 4)), ((8, 4), Tile.mk (8, 4) (8, 4)), ((9, 4), Tile.mk (9, 4) (9, 4)), ((10, 4), Tile.mk (10, 4) (10, 4)), ((0, 5), Tile.mk (0, 5) (0, 5)), ((1, 5), Tile.mk (1, 5) (1, 5)), ((2, 5), Tile.mk (2, 5) (2, 5)), ((3, 5), Tile.mk (3, 5) (3, 5)), ((4, 5), Tile.mk (4, 5) (4, 5)), ((5, 5), Tile.mk (5, 5) (5, 5)), ((6, 5), Tile.mk (6, 5) (6, 5)), ((7, 5), Tile.mk (7, 5) (7, 5)), ((8, 5), Tile.mk (8, 5) (8, 5)), ((9, 5), Tile.mk (9, 5) (9, 5)), ((10, 5), Tile.mk (10, 5) (10, 5)), ((0, 6), Tile.mk (0, 6) (0, 6)), ((1, 6), Tile.mk (1, 6) (1, 6)), ((2, 6), Tile.mk (2, 6) (2, 6)), ((3, 6), Tile.mk (3, 6) (3, 6)), ((4, 6), Tile.mk (4, 6) (4, 6)), ((5, 6), Tile.mk (5, 6) (5, 6)), ((6, 6), Tile.mk (6, 6) (6, 6)), ((7, 6), Tile.mk (7, 6) (7, 6)), ((8, 6), Tile.mk (8, 6) (8, 6)), ((9, 6), Tile.mk (9, 6) (9, 6)), ((10, 6), Tile.mk (10, 6) (10, 6)), ((0, 7), Tile.mk (0, 7) (0, 7)), ((1, 7), Tile.mk (1, 7) (1, 7)), ((2, 7), Tile.mk (2, 7) (2, 7)), ((3, 7), Tile.mk (3, 7) (3, 7)), ((4, 7), Tile.mk (4, 7) (4, 7)), ((5, 7), Tile.mk (5, 7) (5, 7)), ((6, 7), Tile.mk (6, 7) (6, 7)), ((7, 7), Tile.mk (7, 7) (7, 7)), ((8, 7), Tile.mk (8, 7) (8, 7)), ((9, 7), Tile.mk (9, 7) (9, 7)), ((10, 7), Tile.mk (10, 7) (10, 7)), ((0, 8), Tile.mk (0, 8) (0, 8)), ((1, 8), Tile.mk (1, 8) (1, 8)), ((2, 8), Tile.mk (2, 8) (2, 8)), ((3, 8), Tile.mk (3, 8) (3, 8)), ((4, 8), Tile.mk (4, 8) (4, 8)), ((5, 8), Tile.mk (5, 8) (5, 8)), ((6, 8), Tile.mk (6, 8) (6, 8)), ((7, 8), Tile.mk (7, 8) (7, 8)), ((8, 8), Tile.mk (8, 8) (8, 8)), ((9, 8), Tile.mk (9, 8) (9, 8)), ((10, 8), Tile.mk (10, 8) (10, 8)), ((0, 9), Tile.mk (0, 9) (0, 9)), ((1, 9), Tile.mk (1, 9) (1, 9)), ((2, 9), Tile.mk (2, 9) (2, 9)), ((3, 9), Tile.mk (3, 9) (3, 9)), ((4, 9), Tile.mk (4, 9) (4, 9)), ((5, 9), Tile.mk (5, 9) (5, 9)), ((6, 9), Tile.mk (6, 9) (6, 9)), ((7, 9), Tile.mk (7, 9) (7, 9)), ((8, 9), Tile.mk (8, 9) (8, 9)), ((0, 10), Tile.mk (0, 10) (0, 10)), ((1, 10), Tile.mk (1, 10) (1, 10)), ((2, 10), Tile.mk (2, 10) (2, 10)), ((3, 10), Tile.mk (3, 10) (3, 10)), ((4, 10), Tile.mk (4, 10) (4, 10)), ((5, 10), Tile.mk (5, 10) (5, 10)), ((6, 10), Tile.mk (6, 10) (6, 10)), ((7, 10), Tile.mk (7, 10) (7, 10)), ((8, 10), Tile.mk (8, 10) (8, 10)), ((9, 9), Tile.mk (9, 9) (10, 9)), ((10, 9), Tile.mk (10, 9) (9, 10)), ((10, 10), Tile.mk (10, 10) (10, 10)), ((9, 10), Tile.mk (9, 10) (9, 9))] []

def ovB5 : Gameboard := Gameboard.mk 11 55 false (some (9, 10)) [((0, 0), Tile.mk (0, 0) (0, 0)), ((1, 0), Tile.mk (1, 0) (1, 0)), ((2, 0), Tile.mk (2, 0) (2, 0)), ((3, 0), Tile.mk (3, 0) (3, 0)), ((4, 0), Tile.mk (4, 0) (4, 0)), ((5, 0), Tile.mk (5, 0) (5, 0)), ((6, 0), Tile.mk (6, 0) (6, 0)), ((7, 0), Tile.mk (7, 0) (7, 0)), ((8, 0), Tile.mk (8, 0) (8, 0)), ((9, 0), Tile.mk (9, 0) (9, 0)), ((10, 0), Tile.mk (10, 0) (10, 0)), ((0, 1), Tile.mk (0, 1) (0, 1)), ((1, 1), Tile.mk (1, 1) (1, 1)), ((2, 1), Tile.mk (2, 1) (2, 1)), ((3, 1), Tile.mk (3, 1) (3, 1)), ((4, 1), Tile.mk (4, 1) (4, 1)), ((5, 1), Tile.mk (5, 1) (5, 1)), ((6, 1), Tile.mk (6, 1) (6, 1)), ((7, 1), Tile.mk (7, 1) (7, 1)), ((8, 1), Tile.mk (8, 1) (8, 1)), ((9, 1), Tile.mk (9, 1) (9, 1)), ((10, 1), Tile.mk (10, 1) (10, 1)), ((0, 2), Tile.mk (0, 2) (0, 2)), ((1, 2), Tile.mk (1, 2) (1, 2)), ((2, 2), Tile.mk (2, 2) (2, 2)), ((3, 2), Tile.mk (3, 2) (3, 2)), ((4, 2), Tile.mk (4, 2) (4, 2)), ((5, 2), Tile.mk (5, 2) (5, 2)), ((6, 2), Tile.mk (6, 2) (6, 2)), ((7, 2), Tile.mk (7, 2) (7, 2)), ((8, 2), Tile.mk (8, 2) (8, 2)), ((9, 2), Tile.mk (9, 2) (9, 2)), ((10, 2), Tile.mk (10, 2) (10, 2)), ((0, 3), Tile.mk (0, 3) (0, 3)), ((1, 3), Tile.mk (1, 3) (1, 3)), ((2, 3), Tile.mk (2, 3) (2, 3)), ((3, 3), Tile.mk (3, 3) (3, 3)), ((4, 3), Tile.mk (4, 3) (4, 3)), ((5, 3), Tile.mk (5, 3) (5, 3)), ((6, 3), Tile.mk (6, 3) (6, 3)), ((7, 3), Tile.mk (7, 3) (7, 3)), ((8, 3), Tile.mk (8, 3) (8, 3)), ((9, 3), Tile.mk (9, 3) (9, 3)), ((10, 3), Tile.mk (10, 3) (10, 3)), ((0, 4), Tile.mk (0, 4) (0, 4)), ((1, 4), Tile.mk (1, 4) (1, 4)), ((2, 4), Tile.mk (2, 4) (2, 4)), ((3, 4), Tile.mk (3, 4) (3, 4)), ((4, 4), Tile.mk (4, 4) (4, 4)), ((5, 4), Tile.mk (5, 4) (5, 4)), ((6, 4), Tile.mk (6, 4) (6, 4)), ((7, 4), Tile.mk (7, 4) (7, 4)), ((8, 4), Tile.mk (8, 4) (8, 4)), ((9, 4), Tile.mk (9, 4) (9, 4)), ((10, 4), Tile.mk (10, 4) (10, 4)), ((0, 5), Tile.mk (0, 5) (0, 5)), ((1, 5), Tile.mk (1, 5) (1, 5)), ((2, 5), Tile.mk (2, 5) (2, 5)), ((3, 5), Tile.mk (3, 5) (3, 5)), ((4, 5), Tile.mk (4, 5) (4, 5)), ((5, 5), Tile.mk (5, 5) (5, 5)), ((6, 5), Tile.mk (6, 5) (6, 5)), ((7, 5), Tile.mk (7, 5) (7, 5)), ((8, 5), Tile.mk (8, 5) (8, 5)), ((9, 5), Tile.mk (9, 5) (9, 5)), ((10, 5), Tile.mk (10, 5) (10, 5)), ((0, 6), Tile.mk (0, 6) (0, 6)), ((1, 6), Tile.mk (1, 6) (1, 6)), ((2, 6), Tile.mk (2, 6) (2, 6)), ((3, 6), Tile.mk (3, 6) (3, 6)), ((4, 6), Tile.mk (4, 6) (4, 6)), ((5, 6), Tile.mk (5, 6) (5, 6)), ((6, 6), Tile.mk (6, 6) (6, 6)), ((7, 6), Tile.mk (7, 6) (7, 6)), ((8, 6), Tile.mk (8, 6) (8, 6)), ((9, 6), Tile.mk (9, 6) (9, 6)), ((10, 6), Tile.mk (10, 6) (10, 6)), ((0, 7), Tile.mk (0, 7) (0, 7)), ((1, 7), Tile.mk (1, 7) (1, 7)), ((2, 7), Tile.mk (2, 7) (2, 7)), ((3, 7), Tile.mk (3, 7) (3, 7)), ((4, 7), Tile.mk (4, 7) (4, 7)), ((5, 7), Tile.mk (5, 7) (5, 7)), ((6, 7), Tile.mk (6, 7) (6, 7)), ((7, 7), Tile.mk (7, 7) (7, 7)), ((8, 7), Tile.mk (8, 7) (8, 7)), ((9, 7), Tile.mk (9, 7) (9, 7)), ((10, 7), Tile.mk (10, 7) (10, 7)), ((0, 8), Tile.mk (0, 8) (0, 8)), ((1, 8), Tile.mk (1, 8) (1, 8)), ((2, 8), Tile.mk (2, 8) (2, 8)), ((3, 8), Tile.mk (3, 8) (3, 8)), ((4, 8), Tile.mk (4, 8) (4, 8)), ((5, 8), Tile.mk (5, 8) (5, 8)), ((6, 8), Tile.mk (6, 8) (6, 8)), ((7, 8), Tile.mk (7, 8) (7, 8)), ((8, 8), Tile.mk (8, 8) (8, 8)), ((9, 8), Tile.mk (9, 8) (9, 8)), ((10, 8), Tile.mk (10, 8) (10, 8)), ((0, 9), Tile.mk (0, 9) (0, 9)), ((1, 9), Tile.mk (1, 9) (1, 9)), ((2, 9), Tile.mk (2, 9) (2, 9)), ((3, 9), Tile.mk (3, 9) (3, 9)), ((4, 9), Tile.mk (4, 9) (4, 9)), ((5, 9), Tile.mk (5, 9) (5, 9)), ((6, 9), Tile.mk (6, 9) (6, 9)), ((7, 9), Tile.mk (7, 9) (7, 9)), ((8, 9), Tile.mk (8, 9) (8, 9)), ((0, 10), Tile.mk (0, 10) (0, 10)), ((1, 10), Tile.mk (1, 10) (1, 10)), ((2, 10), Tile.mk (2, 10) (2, 10)), ((3, 10), Tile.mk (3, 10) (3, 10)), ((4, 10), Tile.mk (4, 10) (4, 10)), ((5, 10), Tile.mk (5, 10) (5, 10)), ((6, 10), Tile.mk (6, 10) (6, 10)), ((7, 10), Tile.mk (7, 10) (7, 10)), ((8, 10), Tile.mk (8, 10) (8, 10)), ((9, 9), Tile.mk (9, 9) (10, 9)), ((10, 9), Tile.mk (10, 9) (9, 10)), ((9, 10), Tile.mk (9, 10) (10, 10)), ((10, 10), Tile.mk (10, 10) (9, 9))] []

def ovB6 : Gameboard := Gameboard.mk 11 66 false (some (10, 10)) [((0, 0), Tile.mk (0, 0) (0, 0)), ((1, 0), Tile.mk (1, 0) (1, 0)), ((2, 0), Tile.mk (2, 0) (2, 0)), ((3, 0), Tile.mk (3, 0) (3, 0)), ((4, 0), Tile.mk (4, 0) (4, 0)), ((5, 0), Tile.mk (5, 0) (5, 0)), ((6, 0), Tile.mk (6, 0) (6, 0)), ((7, 0), Tile.mk (7, 0) (7, 0)), ((8, 0), Tile.mk (8, 0) (8, 0)), ((9, 0), Tile.mk (9, 0) (9, 0)), ((10, 0), Tile.mk (10, 0) (10, 0)), ((0, 1), Tile.mk (0, 1) (0, 1)), ((1, 1), Tile.mk (1, 1) (1, 1)), ((2, 1), Tile.mk (2, 1) (2, 1)), ((3, 1), Tile.mk (3, 1) (3, 1)), ((4, 1), Tile.mk (4, 1) (4, 1)), ((5, 1), Tile.mk (5, 1) (5, 1)), ((6, 1), Tile.mk (6, 1) (6, 1)), ((7, 1), Tile.mk (7, 1) (7, 1)), ((8, 1), Tile.mk (8, 1) (8, 1)), ((9, 1), Tile.mk (9, 1) (9, 1)), ((10, 1), Tile.mk (10, 1) (10, 1)), ((0, 2), Tile.mk (0, 2) (0, 2)), ((1, 2), Tile.mk (1, 2) (1, 2)), ((2, 2), Tile.mk (2, 2) (2, 2)), ((3, 2), Tile.mk (3, 2) (3, 2)), ((4, 2), Tile.mk (4, 2) (4, 2)), ((5, 2), Tile.mk (5, 2) (5, 2)), ((6, 2), Tile.mk (6, 2) (6, 2)), ((7, 2), Tile.mk (7, 2) (7, 2)), ((8, 2), Tile.mk (8, 2) (8, 2)), ((9, 2), Tile.mk (9, 2) (9, 2)), ((10, 2), Tile.mk (10, 2) (10, 2)), ((0, 3), Tile.mk (0, 3) (0, 3)), ((1, 3), Tile.mk (1, 3) (1, 3)), ((2, 3), Tile.mk (2, 3) (2, 3)), ((3, 3), Tile.mk (3, 3) (3, 3)), ((4, 3), Tile.mk (4, 3) (4, 3)), ((5, 3), Tile.mk (5, 3) (5, 3)), ((6, 3), Tile.mk (6, 3) (6, 3)), ((7, 3), Tile.mk (7, 3) (7, 3)), ((8, 3), Tile.mk (8, 3) (8, 3)), ((9, 3), Tile.mk (9, 3) (9, 3)), ((10, 3), Tile.mk (10, 3) (10, 3)), ((0, 4), Tile.mk (0, 4) (0, 4)), ((1, 4), Tile.mk (1, 4) (1, 4)), ((2, 4), Tile.mk (2, 4) (2, 4)), ((3, 4), Tile.mk (3, 4) (3, 4)), ((4, 4), Tile.mk (4, 4) (4, 4)), ((5, 4), Tile.mk (5, 4) (5, 4)), ((6, 4), Tile.mk (6, 4) (6, 4)), ((7, 4), Tile.mk (7, 4) (7, 4)), ((8, 4), Tile.mk (8, 4) (8, 4)), ((9, 4), Tile.mk (9, 4) (9, 4)), ((10, 4), Tile.mk (10, 4) (10, 4)), ((0, 5), Tile.mk (0, 5) (0, 5)), ((1, 5), Tile.mk (1, 5) (1, 5)), ((2, 5), Tile.mk (2, 5) (2, 5)), ((3, 5), Tile.mk (3, 5) (3, 5)), ((4, 5), Tile.mk (4, 5) (4, 5)), ((5, 5), Tile.mk (5, 5) (5, 5)), ((6, 5), Tile.mk (6, 5) (6, 5)), ((7, 5), Tile.mk (7, 5) (7, 5)), ((8, 5), Tile.mk (8, 5) (8, 5)), ((9, 5), Tile.mk (9, 5) (9, 5)), ((10, 5), Tile.mk (10, 5) (10, 5)), ((0, 6), Tile.mk (0, 6) (0, 6)), ((1, 6), Tile.mk (1, 6) (1, 6)), ((2, 6), Tile.mk (2, 6) (2, 6)), ((3, 6), Tile.mk (3, 6) (3, 6)), ((4, 6), Tile.mk (4, 6) (4, 6)), ((5, 6), Tile.mk (5, 6) (5, 6)), ((6, 6), Tile.mk (6, 6) (6, 6)), ((7, 6), Tile.mk (7, 6) (7, 6)), ((8, 6), Tile.mk (8, 6) (8, 6)), ((9, 6), Tile.mk (9, 6) (9, 6)), ((10, 6), Tile.mk (10, 6) (10, 6)), ((0, 7), Tile.mk (0, 7) (0, 7)), ((1, 7), Tile.mk (1, 7) (1, 7)), ((2, 7), Tile.mk (2, 7) (2, 7)), ((3, 7), Tile.mk (3, 7) (3, 7)), ((4, 7), Tile.mk (4, 7) (4, 7)), ((5, 7), Tile.mk (5, 7) (5, 7)), ((6, 7), Tile.mk (6, 7) (6, 7)), ((7, 7), Tile.mk (7, 7) (7, 7)), ((8, 7), Tile.mk (8, 7) (8, 7)), ((9, 7), Tile.mk (9, 7) (9, 7)), ((10, 7), Tile.mk (10, 7) (10, 7)), ((0, 8), Tile.mk (0, 8) (0, 8)), ((1, 8), Tile.mk (1, 8) (1, 8)), ((2, 8), Tile.mk (2, 8) (2, 8)), ((3, 8), Tile.mk (3, 8) (3, 8)), ((4, 8), Tile.mk (4, 8) (4, 8)), ((5, 8), Tile.mk (5, 8) (5, 8)), ((6, 8), Tile.mk (6, 8) (6, 8)), ((7, 8), Tile.mk (7, 8) (7, 8)), ((8, 8), Tile.mk (8, 8) (8, 8)), ((9, 8), Tile.mk (9, 8) (9, 8)), ((10, 8), Tile.mk (10, 8) (10, 8)), ((0, 9), Tile.mk (0, 9) (0, 9)), ((1, 9), Tile.mk (1, 9) (1, 9)), ((2, 9), Tile.mk (2, 9) (2, 9)), ((3, 9), Tile.mk (3, 9) (3, 9)), ((4, 9), Tile.mk (4, 9) (4, 9)), ((5, 9), Tile.mk (5, 9) (5, 9)), ((6, 9), Tile.mk (6, 9) (6, 9)), ((7, 9), Tile.mk (7, 9) (7, 9)), ((8, 9), Tile.mk (8, 9) (8, 9)), ((0, 10), Tile.mk (0, 10) (0, 10)), ((1, 10), Tile.mk (1, 10) (1, 10)), ((2, 10), Tile.mk (2, 10) (2, 10)), ((3, 10), Tile.mk (3, 10) (3, 10)), ((4, 10), Tile.mk (4, 10) (4, 10)), ((5, 10), Tile.mk (5, 10) (5, 10)), ((6, 10), Tile.mk (6, 10) (6, 10)), ((7, 10), Tile.mk (7, 10) (7, 10)), ((8, 10), Tile.mk (8, 10) (8, 10)), ((9, 9), Tile.mk (9, 9) (10, 9)), ((10, 9), Tile.mk (10, 9) (9, 10)), ((10, 10), Tile.mk (10, 10) (10, 10)), ((9, 10), Tile.mk (9, 10) (9, 9))] []

def ovB7 : Gameboard := Gameboard.mk 11 77 false (some (9, 10)) [((0, 0), Tile.mk (0, 0) (0, 0)), ((1, 0), Tile.mk (1, 0) (1, 0)), ((2, 0), Tile.mk (2, 0) (2, 0)), ((3, 0), Tile.mk (3, 0) (3, 0)), ((4, 0), Tile.mk (4, 0) (4, 0)), ((5, 0), Tile.mk (5, 0) (5, 0)), ((6, 0), Tile.mk (6, 0) (6, 0)), ((7, 0), Tile.mk (7, 0) (7, 0)), ((8, 0), Tile.mk (8, 0) (8, 0)), ((9, 0), Tile.mk (9, 0) (9, 0)), ((10, 0), Tile.mk (10, 0) (10, 0)), ((0, 1), Tile.mk (0, 1) (0, 1)), ((1, 1), Tile.mk (1, 1) (1, 1)), ((2, 1), Tile.mk (2, 1) (2, 1)), ((3, 1), Tile.mk (3, 1) (3, 1)), ((4, 1), Tile.mk (4, 1) (4, 1)), ((5, 1), Tile.mk (5, 1) (5, 1)), ((6, 1), Tile.mk (6, 1) (6, 1)), ((7, 1), Tile.mk (7, 1) (7, 1)), ((8, 1), Tile.mk (8, 1) (8, 1)), ((9, 1), Tile.mk (9, 1) (9, 1)), ((10, 1), Tile.mk (10, 1) (10, 1)), ((0, 2), Tile.mk (0, 2) (0, 2)), ((1, 2), Tile.mk (1, 2) (1, 2)), ((2, 2), Tile.mk (2, 2) (2, 2)), ((3, 2), Tile.mk (3, 2) (3, 2)), ((4, 2), Tile.mk (4, 2) (4, 2)), ((5, 2), Tile.mk (5, 2) (5, 2)), ((6, 2), Tile.mk (6, 2) (6, 2)), ((7, 2), Tile.mk (7, 2) (7, 2)), ((8, 2), Tile.mk (8, 2) (8, 2)), ((9, 2), Tile.mk (9, 2) (9, 2)), ((10, 2), Tile.mk (10, 2) (10, 2)), ((0, 3), Tile.mk (0, 3) (0, 3)), ((1, 3), Tile.mk (1, 3) (1, 3)), ((2, 3), Tile.mk (2, 3) (2, 3)), ((3, 3), Tile.mk (3, 3) (3, 3)), ((4, 3), Tile.mk (4, 3) (4, 3)), ((5, 3), Tile.mk (5, 3) (5, 3)), ((6, 3), Tile.mk (6, 3) (6, 3)), ((7, 3), Tile.mk (7, 3) (7, 3)), ((8, 3), Tile.mk (8, 3) (8, 3)), ((9, 3), Tile.mk (9, 3) (9, 3)), ((10, 3), Tile.mk (10, 3) (10, 3)), ((0, 4), Tile.mk (0, 4) (0, 4)), ((1, 4), Tile.mk (1, 4) (1, 4)), ((2, 4), Tile.mk (2, 4) (2, 4)), ((3, 4), Tile.mk (3, 4) (3, 4)), ((4, 4), Tile.mk (4, 4) (4, 4)), ((5, 4), Tile.mk (5, 4) (5, 4)), ((6, 4), Tile.mk (6, 4) (6, 4)), ((7, 4), Tile.mk (7, 4) (7, 4)), ((8, 4), Tile.mk (8, 4) (8, 4)), ((9, 4), Tile.mk (9, 4) (9, 4)), ((10, 4), Tile.mk (10, 4) (10, 4)), ((0, 5), Tile.mk (0, 5) (0, 5)), ((1, 5), Tile.mk (1, 5) (1, 5)), ((2, 5), Tile.mk (2, 5) (2, 5)), ((3, 5), Tile.mk (3, 5) (3, 5)), ((4, 5), Tile.mk (4, 5) (4, 5)), ((5, 5), Tile.mk (5, 5) (5, 5)), ((6, 5), Tile.mk (6, 5) (6, 5)), ((7, 5), Tile.mk (7, 5) (7, 5)), ((8, 5), Tile.mk (8, 5) (8, 5)), ((9, 5), Tile.mk (9, 5) (9, 5)), ((10, 5), Tile.mk (10, 5) (10, 5)), ((0, 6), Tile.mk (0, 6) (0, 6)), ((1, 6), Tile.mk (1, 6) (1, 6)), ((2, 6), Tile.mk (2, 6) (2, 6)), ((3, 6), Tile.mk (3, 6) (3, 6)), ((4, 6), Tile.mk (4, 6) (4, 6)), ((5, 6), Tile.mk (5, 6) (5, 6)), ((6, 6), Tile.mk (6, 6) (6, 6)), ((7, 6), Tile.mk (7, 6) (7, 6)), ((8, 6), Tile.mk (8, 6) (8, 6)), ((9, 6), Tile.mk (9, 6) (9, 6)), ((10, 6), Tile.mk (10, 6) (10, 6)), ((0, 7), Tile.mk (0, 7) (0, 7)), ((1, 7), Tile.mk (1, 7) (1, 7)), ((2, 7), Tile.mk (2, 7) (2, 7)), ((3, 7), Tile.mk (3, 7) (3, 7)), ((4, 7), Tile.mk (4, 7) (4, 7)), ((5, 7), Tile.mk (5, 7) (5, 7)), ((6, 7), Tile.mk (6, 7) (6, 7)), ((7, 7), Tile.mk (7, 7) (7, 7)), ((8, 7), Tile.mk (8, 7) (8, 7)), ((9, 7), Tile.mk (9, 7) (9, 7)), ((10, 7), Tile.mk (10, 7) (10, 7)), ((0, 8), Tile.mk (0, 8) (0, 8)), ((1, 8), Tile.mk (1, 8) (1, 8)), ((2, 8), Tile.mk (2, 8) (2, 8)), ((3, 8), Tile.mk (3, 8) (3, 8)), ((4, 8), Tile.mk (4, 8) (4, 8)), ((5, 8), Tile.mk (5, 8) (5, 8)), ((6, 8), Tile.mk (6, 8) (6, 8)), ((7, 8), Tile.mk (7, 8) (7, 8)), ((8, 8), Tile.mk (8, 8) (8, 8)), ((9, 8), Tile.mk (9, 8) (9, 8)), ((10, 8), Tile.mk (10, 8) (10, 8)), ((0, 9), Tile.mk (0, 9) (0, 9)), ((1, 9), Tile.mk (1, 9) (1, 9)), ((2, 9), Tile.mk (2, 9) (2, 9)), ((3, 9), Tile.mk (3, 9) (3, 9)), ((4, 9), Tile.mk (4, 9) (4, 9)), ((5, 9), Tile.mk (5, 9) (5, 9)), ((6, 9), Tile.mk (6, 9) (6, 9)), ((7, 9), Tile.mk (7, 9) (7, 9)), ((8, 9), Tile.mk (8, 9) (8, 9)), ((0, 10), Tile.mk (0, 10) (0, 10)), ((1, 10), Tile.mk (1, 10) (1, 10)), ((2, 10), Tile.mk (2, 10) (2, 10)), ((3, 10), Tile.mk (3, 10) (3, 10)), ((4, 10), Tile.mk (4, 10) (4, 10)), ((5, 10), Tile.mk (5, 10) (5, 10)), ((6, 10), Tile.mk (6, 10) (6, 10)), ((7, 10), Tile.mk (7, 10) (7, 10)), ((8, 10), Tile.mk (8, 10) (8, 10)), ((9, 9), Tile.mk (9, 9) (10, 9)), ((10, 9), Tile.mk (10, 9) (9, 10)), ((9, 10), Tile.mk (9, 10) (10, 10)), ((10, 10), Tile.mk (10, 10) (9, 9))] []

def ovB8 : Gameboard := Gameboard.mk 11 88 false (some (10, 10)) [((0, 0), Tile.mk (0, 0) (0, 0)), ((1, 0), Tile.mk (1, 0) (1, 0)), ((2, 0), Tile.mk (2, 0) (2, 0)), ((3, 0), Tile.mk (3, 0) (3, 0)), ((4, 0), Tile.mk (4, 0) (4, 0)), ((5, 0), Tile.mk (5, 0) (5, 0)), ((6, 0), Tile.mk (6, 0) (6, 0)), ((7, 0), Tile.mk (7, 0) (7, 0)), ((8, 0), Tile.mk (8, 0) (8, 0)), ((9, 0), Tile.mk (9, 0) (9, 0)), ((10, 0), Tile.mk (10, 0) (10, 0)), ((0, 1), Tile.mk (0, 1) (0, 1)), ((1, 1), Tile.mk (1, 1) (1, 1)), ((2, 1), Tile.mk (2, 1) (2, 1)), ((3, 1), Tile.mk (3, 1) (3, 1)), ((4, 1), Tile.mk (4, 1) (4, 1)), ((5, 1), Tile.mk (5, 1) (5, 1)), ((6, 1), Tile.mk (6, 1) (6, 1)), ((7, 1), Tile.mk (7, 1) (7, 1)), ((8, 1), Tile.mk (8, 1) (8, 1)), ((9, 1), Tile.mk (9, 1) (9, 1)), ((10, 1), Tile.mk (10, 1) (10, 1)), ((0, 2), Tile.mk (0, 2) (0, 2)), ((1, 2), Tile.mk (1, 2) (1, 2)), ((2, 2), Tile.mk (2, 2) (2, 2)), ((3, 2), Tile.mk (3, 2) (3, 2)), ((4, 2), Tile.mk (4, 2) (4, 2)), ((5, 2), Tile.mk (5, 2) (5, 2)), ((6, 2), Tile.mk (6, 2) (6, 2)), ((7, 2), Tile.mk (7, 2) (7, 2)), ((8, 2), Tile.mk (8, 2) (8, 2)), ((9, 2), Tile.mk (9, 2) (9, 2)), ((10, 2), Tile.mk (10, 2) (10, 2)), ((0, 3), Tile.mk (0, 3) (0, 3)), ((1, 3), Tile.mk (1, 3) (1, 3)), ((2, 3), Tile.mk (2, 3) (2, 3)), ((3, 3), Tile.mk (3, 3) (3, 3)), ((4, 3), Tile.mk (4, 3) (4, 3)), ((5, 3), Tile.mk (5, 3) (5, 3)), ((6, 3), Tile.mk (6, 3) (6, 3)), ((7, 3), Tile.mk (7, 3) (7, 3)), ((8, 3), Tile.mk (8, 3) (8, 3)), ((9, 3), Tile.mk (9, 3) (9, 3)), ((10, 3), Tile.mk (10, 3) (10, 3)), ((0, 4), Tile.mk (0, 4) (0, 4)), ((1, 4), Tile.mk (1, 4) (1, 4)), ((2, 4), Tile.mk (2, 4) (2, 4)), ((3, 4), Tile.mk (3, 4) (3, 4)), ((4, 4), Tile.mk (4, 4) (4, 4)), ((5, 4), Tile.mk (5, 4) (5, 4)), ((6, 4), Tile.mk (6, 4) (6, 4)), ((7, 4), Tile.mk (7, 4) (7, 4)), ((8, 4), Tile.mk (8, 4) (8, 4)), ((9, 4), Tile.mk (9, 4) (9, 4)), ((10, 4), Tile.mk (10, 4) (10, 4)), ((0, 5), Tile.mk (0, 5) (0, 5)), ((1, 5), Tile.mk (1, 5) (1, 5)), ((2, 5), Tile.mk (2, 5) (2, 5)), ((3, 5), Tile.mk (3, 5) (3, 5)), ((4, 5), Tile.mk (4, 5) (4, 5)), ((5, 5), Tile.mk (5, 5) (5, 5)), ((6, 5), Tile.mk (6, 5) (6, 5)), ((7, 5), Tile.mk (7, 5) (7, 5)), ((8, 5), Tile.mk (8, 5) (8, 5)), ((9, 5), Tile.mk (9, 5) (9, 5)), ((10, 5), Tile.mk (10, 5) (10, 5)), ((0, 6), Tile.mk (0, 6) (0, 6)), ((1, 6), Tile.mk (1, 6) (1, 6)), ((2, 6), Tile.mk (2, 6) (2, 6)), ((3, 6), Tile.mk (3, 6) (3, 6)), ((4, 6), Tile.mk (4, 6) (4, 6)), ((5, 6), Tile.mk (5, 6) (5, 6)), ((6, 6), Tile.mk (6, 6) (6, 6)), ((7, 6), Tile.mk (7, 6) (7, 6)), ((8, 6), Tile.mk (8, 6) (8, 6)), ((9, 6), Tile.mk (9, 6) (9, 6)), ((10, 6), Tile.mk (10, 6) (10, 6)), ((0, 7), Tile.mk (0, 7) (0, 7)), ((1, 7), Tile.mk (1, 7) (1, 7)), ((2, 7), Tile.mk (2, 7) (2, 7)), ((3, 7), Tile.mk (3, 7) (3, 7)), ((4, 7), Tile.mk (4, 7) (4, 7)), ((5, 7), Tile.mk (5, 7) (5, 7)), ((6, 7), Tile.mk (6, 7) (6, 7)), ((7, 7), Tile.mk (7, 7) (7, 7)), ((8, 7), Tile.mk (8, 7) (8, 7)), ((9, 7), Tile.mk (9, 7) (9, 7)), ((10, 7), Tile.mk (10, 7) (10, 7)), ((0, 8), Tile.mk (0, 8) (0, 8)), ((1, 8), Tile.mk (1, 8) (1, 8)), ((2, 8), Tile.mk (2, 8) (2, 8)), ((3, 8), Tile.mk (3, 8) (3, 8)), ((4, 8), Tile.mk (4, 8) (4, 8)), ((5, 8), Tile.mk (5, 8) (5, 8)), ((6, 8), Tile.mk (6, 8) (6, 8)), ((7, 8), Tile.mk (7, 8) (7, 8)), ((8, 8), Tile.mk (8, 8) (8, 8)), ((9, 8), Tile.mk (9, 8) (9, 8)), ((10, 8), Tile.mk (10, 8) (10, 8)), ((0, 9), Tile.mk (0, 9) (0, 9)), ((1, 9), Tile.mk (1, 9) (1, 9)), ((2, 9), Tile.mk (2, 9) (2, 9)), ((3, 9), Tile.mk (3, 9) (3, 9)), ((4, 9), Tile.mk (4, 9) (4, 9)), ((5, 9), Tile.mk (5, 9) (5, 9)), ((6, 9), Tile.mk (6, 9) (6, 9)), ((7, 9), Tile.mk (7, 9) (7, 9)), ((8, 9), Tile.mk (8, 9) (8, 9)), ((0, 10), Tile.mk (0, 10) (0, 10)), ((1, 10), Tile.mk (1, 10) (1, 10)), ((2, 10), Tile.mk (2, 10) (2, 10)), ((3, 10), Tile.mk (3, 10) (3, 10)), ((4, 10), Tile.mk (4, 10) (4, 10)), ((5, 10), Tile.mk (5, 10) (5, 10)), ((6, 10), Tile.mk (6, 10) (6, 10)), ((7, 10), Tile.mk (7, 10) (7, 10)), ((8, 10), Tile.mk (8, 10) (8, 10)), ((9, 9), Tile.mk (9, 9) (10, 9)), ((10, 9), Tile.mk (10, 9) (9, 10)), ((10, 10), Tile.mk (10, 10) (10, 10)), ((9, 10), Tile.mk (9, 10) (9, 9))] []

def ovB9 : Gameboard := Gameboard.mk 11 99 false (some (9, 10)) [((0, 0), Tile.mk (0, 0) (0, 0)), ((1, 0), Tile.mk (1, 0) (1, 0)), ((2, 0), Tile.mk (2, 0) (2, 0)), ((3, 0), Tile.mk (3, 0) (3, 0)), ((4, 0), Tile.mk (4, 0) (4, 0)), ((5, 0), Tile.mk (5, 0) (5, 0)), ((6, 0), Tile.mk (6, 0) (6, 0)), ((7, 0), Tile.mk (7, 0) (7, 0)), ((8, 0), Tile.mk (8, 0) (8, 0)), ((9, 0), Tile.mk (9, 0) (9, 0)), ((10, 0), Tile.mk (10, 0) (10, 0)), ((0, 1), Tile.mk (0, 1) (0, 1)), ((1, 1), Tile.mk (1, 1) (1, 1)), ((2, 1), Tile.mk (2, 1) (2, 1)), ((3, 1), Tile.mk (3, 1) (3, 1)), ((4, 1), Tile.mk (4, 1) (4, 1)), ((5, 1), Tile.mk (5, 1) (5, 1)), ((6, 1), Tile.mk (6, 1) (6, 1)), ((7, 1), Tile.mk (7, 1) (7, 1)), ((8, 1), Tile.mk (8, 1) (8, 1)), ((9, 1), Tile.mk (9, 1) (9, 1)), ((10, 1), Tile.mk (10, 1) (10, 1)), ((0, 2), Tile.mk (0, 2) (0, 2)), ((1, 2), Tile.mk (1, 2) (1, 2)), ((2, 2), Tile.mk (2, 2) (2, 2)), ((3, 2), Tile.mk (3, 2) (3, 2)), ((4, 2), Tile.mk (4, 2) (4, 2)), ((5, 2), Tile.mk (5, 2) (5, 2)), ((6, 2), Tile.mk (6, 2) (6, 2)), ((7, 2), Tile.mk (7, 2) (7, 2)), ((8, 2), Tile.mk (8, 2) (8, 2)), ((9, 2), Tile.mk (9, 2) (9, 2)), ((10, 2), Tile.mk (10, 2) (10, 2)), ((0, 3), Tile.mk (0, 3) (0, 3)), ((1, 3), Tile.mk (1, 3) (1, 3)), ((2, 3), Tile.mk (2, 3) (2, 3)), ((3, 3), Tile.mk (3, 3) (3, 3)), ((4, 3), Tile.mk (4, 3) (4, 3)), ((5, 3), Tile.mk (5, 3) (5, 3)), ((6, 3), Tile.mk (6, 3) (6, 3)), ((7, 3), Tile.mk (7, 3) (7, 3)), ((8, 3), Tile.mk (8, 3) (8, 3)), ((9, 3), Tile.mk (9, 3) (9, 3)), ((10, 3), Tile.mk (10, 3) (10, 3)), ((0, 4), Tile.mk (0, 4) (0, 4)), ((1, 4), Tile.mk (1, 4) (1, 4)), ((2, 4), Tile.mk (2, 4) (2, 4)), ((3, 4), Tile.mk (3, 4) (3, 4)), ((4, 4), Tile.mk (4, 4) (4, 4)), ((5, 4), Tile.mk (5, 4) (5, 4)), ((6, 4), Tile.mk (6, 4) (6, 4)), ((7, 4), Tile.mk (7, 4) (7, 4)), ((8, 4), Tile.mk (8, 4) (8, 4)), ((9, 4), Tile.mk (9, 4) (9, 4)), ((10, 4), Tile.mk (10, 4) (10, 4)), ((0, 5), Tile.mk (0, 5) (0, 5)), ((1, 5), Tile.mk (1, 5) (1, 5)), ((2, 5), Tile.mk (2, 5) (2, 5)), ((3, 5), Tile.mk (3, 5) (3, 5)), ((4, 5), Tile.mk (4, 5) (4, 5)), ((5, 5), Tile.mk (5, 5) (5, 5)), ((6, 5), Tile.mk (6, 5) (6, 5)), ((7, 5), Tile.mk (7, 5) (7, 5)), ((8, 5), Tile.mk (8, 5) (8, 5)), ((9, 5), Tile.mk (9, 5) (9, 5)), ((10, 5), Tile.mk (10, 5) (10, 5)), ((0, 6), Tile.mk (0, 6) (0, 6)), ((1, 6), Tile.mk (1, 6) (1, 6)), ((2, 6), Tile.mk (2, 6) (2, 6)), ((3, 6), Tile.mk (3, 6) (3, 6)), ((4, 6), Tile.mk (4, 6) (4, 6)), ((5, 6), Tile.mk (5, 6) (5, 6)), ((6, 6), Tile.mk (6, 6) (6, 6)), ((7, 6), Tile.mk (7, 6) (7, 6)), ((8, 6), Tile.mk (8, 6) (8, 6)), ((9, 6), Tile.mk (9, 6) (9, 6)), ((10, 6), Tile.mk (10, 6) (10, 6)), ((0, 7), Tile.mk (0, 7) (0, 7)), ((1, 7), Tile.mk (1, 7) (1, 7)), ((2, 7), Tile.mk (2, 7) (2, 7)), ((3, 7), Tile.mk (3, 7) (3, 7)), ((4, 7), Tile.mk (4, 7) (4, 7)), ((5, 7), Tile.mk (5, 7) (5, 7)), ((6, 7), Tile.mk (6, 7) (6, 7)), ((7, 7), Tile.mk (7, 7) (7, 7)), ((8, 7), Tile.mk (8, 7) (8, 7)), ((9, 7), Tile.mk (9, 7) (9, 7)), ((10, 7), Tile.mk (10, 7) (10, 7)), ((0, 8), Tile.mk (0, 8) (0, 8)), ((1, 8), Tile.mk (1, 8) (1, 8)), ((2, 8), Tile.mk (2, 8) (2, 8)), ((3, 8), Tile.mk (3, 8) (3, 8)), ((4, 8), Tile.mk (4, 8) (4, 8)), ((5, 8), Tile.mk (5, 8) (5, 8)), ((6, 8), Tile.mk (6, 8) (6, 8)), ((7, 8), Tile.mk (7, 8) (7, 8)), ((8, 8), Tile.mk (8, 8) (8, 8)), ((9, 8), Tile.mk (9, 8) (9, 8)), ((10, 8), Tile.mk (10, 8) (10, 8)), ((0, 9), Tile.mk (0, 9) (0, 9)), ((1, 9), Tile.mk (1, 9) (1, 9)), ((2, 9), Tile.mk (2, 9) (2, 9)), ((3, 9), Tile.mk (3, 9) (3, 9)), ((4, 9), Tile.mk (4, 9) (4, 9)), ((5, 9), Tile.mk (5, 9) (5, 9)), ((6, 9), Tile.mk (6, 9) (6, 9)), ((7, 9), Tile.mk (7, 9) (7, 9)), ((8, 9), Tile.mk (8, 9) (8, 9)), ((0, 10), Tile.mk (0, 10) (0, 10)), ((1, 10), Tile.mk (1, 10) (1, 10)), ((2, 10), Tile.mk (2, 10) (2, 10)), ((3, 10), Tile.mk (3, 10) (3, 10)), ((4, 10), Tile.mk (4, 10) (4, 10)), ((5, 10), Tile.mk (5, 10) (5, 10)), ((6, 10), Tile.mk (6, 10) (6, 10)), ((7, 10), Tile.mk (7, 10) (7, 10)), ((8, 10), Tile.mk (8, 10) (8, 10)), ((9, 9), Tile.mk (9, 9) (10, 9)), ((10, 9), Tile.mk (10, 9) (9, 10)), ((9, 10), Tile.mk (9, 10) (10, 10)), ((10, 10), Tile.mk (10, 10) (9, 9))] []

def ovB10 : Gameboard := Gameboard.mk 11 110 false (some (10, 10)) [((0, 0), Tile.mk (0, 0) (0, 0)), ((1, 0), Tile.mk (1, 0) (1, 0)), ((2, 0), Tile.mk (2, 0) (2, 0)), ((3, 0), Tile.mk (3, 0) (3, 0)), ((4, 0), Tile.mk (4, 0) (4, 0)), ((5, 0), Tile.mk (5, 0) (5, 0)), ((6, 0), Tile.mk (6, 0) (6, 0)), ((7, 0), Tile.mk (7, 0) (7, 0)), ((8, 0), Tile.mk (8, 0) (8, 0)), ((9, 0), Tile.mk (9, 0) (9, 0)), ((10, 0), Tile.mk (10, 0) (10, 0)), ((0, 1), Tile.mk (0, 1) (0, 1)), ((1, 1), Tile.mk (1, 1) (1, 1)), ((2, 1), Tile.mk (2, 1) (2, 1)), ((3, 1), Tile.mk (3, 1) (3, 1)), ((4, 1), Tile.mk (4, 1) (4, 1)), ((5, 1), Tile.mk (5, 1) (5, 1)), ((6, 1), Tile.mk (6, 1) (6, 1)), ((7, 1), Tile.mk (7, 1) (7, 1)), ((8, 1), Tile.mk (8, 1) (8, 1)), ((9, 1), Tile.mk (9, 1) (9, 1)), ((10, 1), Tile.mk (10, 1) (10, 1)), ((0, 2), Tile.mk (0, 2) (0, 2)), ((1, 2), Tile.mk (1, 2) (1, 2)), ((2, 2), Tile.mk (2, 2) (2, 2)), ((3, 2), Tile.mk (3, 2) (3, 2)), ((4, 2), Tile.mk (4, 2) (4, 2)), ((5, 2), Tile.mk (5, 2) (5, 2)), ((6, 2), Tile.mk (6, 2) (6, 2)), ((7, 2), Tile.mk (7, 2) (7, 2)), ((8, 2), Tile.mk (8, 2) (8, 2)), ((9, 2), Tile.mk (9, 2) (9, 2)), ((10, 2), Tile.mk (10, 2) (10, 2)), ((0, 3), Tile.mk (0, 3) (0, 3)), ((1, 3), Tile.mk (1, 3) (1, 3)), ((2, 3), Tile.mk (2, 3) (2, 3)), ((3, 3), Tile.mk (3, 3) (3, 3)), ((4, 3), Tile.mk (4, 3) (4, 3)), ((5, 3), Tile.mk (5, 3) (5, 3)), ((6, 3), Tile.mk (6, 3) (6, 3)), ((7, 3), Tile.mk (7, 3) (7, 3)), ((8, 3), Tile.mk (8, 3) (8, 3)), ((9, 3), Tile.mk (9, 3) (9, 3)), ((10, 3), Tile.mk (10, 3) (10, 3)), ((0, 4), Tile.mk (0, 4) (0, 4)), ((1, 4), Tile.mk (1, 4) (1, 4)), ((2, 4), Tile.mk (2, 4) (2, 4)), ((3, 4), Tile.mk (3, 4) (3, 4)), ((4, 4), Tile.mk (4, 4) (4, 4)), ((5, 4), Tile.mk (5, 4) (5, 4)), ((6, 4), Tile.mk (6, 4) (6, 4)), ((7, 4), Tile.mk (7, 4) (7, 4)), ((8, 4), Tile.mk (8, 4) (8, 4)), ((9, 4), Tile.mk (9, 4) (9, 4)), ((10, 4), Tile.mk (10, 4) (10, 4)), ((0, 5), Tile.mk (0, 5) (0, 5)), ((1, 5), Tile.mk (1, 5) (1, 5)), ((2, 5), Tile.mk (2, 5) (2, 5)), ((3, 5), Tile.mk (3, 5) (3, 5)), ((4, 5), Tile.mk (4, 5) (4, 5)), ((5, 5), Tile.mk (5, 5) (5, 5)), ((6, 5), Tile.mk (6, 5) (6, 5)), ((7, 5), Tile.mk (7, 5) (7, 5)), ((8, 5), Tile.mk (8, 5) (8, 5)), ((9, 5), Tile.mk (9, 5) (9, 5)), ((10, 5), Tile.mk (10, 5) (10, 5)), ((0, 6), Tile.mk (0, 6) (0, 6)), ((1, 6), Tile.mk (1, 6) (1, 6)), ((2, 6), Tile.mk (2, 6) (2, 6)), ((3, 6), Tile.mk (3, 6) (3, 6)), ((4, 6), Tile.mk (4, 6) (4, 6)), ((5, 6), Tile.mk (5, 6) (5, 6)), ((6, 6), Tile.mk (6, 6) (6, 6)), ((7, 6), Tile.mk (7, 6) (7, 6)), ((8, 6), Tile.mk (8, 6) (8, 6)), ((9, 6), Tile.mk (9, 6) (9, 6)), ((10, 6), Tile.mk (10, 6) (10, 6)), ((0, 7), Tile.mk (0, 7) (0, 7)), ((1, 7), Tile.mk (1, 7) (1, 7)), ((2, 7), Tile.mk (2, 7) (2, 7)), ((3, 7), Tile.mk (3, 7) (3, 7)), ((4, 7), Tile.mk (4, 7) (4, 7)), ((5, 7), Tile.mk (5, 7) (5, 7)), ((6, 7), Tile.mk (6, 7) (6, 7)), ((7, 7), Tile.mk (7, 7) (7, 7)), ((8, 7), Tile.mk (8, 7) (8, 7)), ((9, 7), Tile.mk (9, 7) (9, 7)), ((10, 7), Tile.mk (10, 7) (10, 7)), ((0, 8), Tile.mk (0, 8) (0, 8)), ((1, 8), Tile.mk (1, 8) (1, 8)), ((2, 8), Tile.mk (2, 8) (2, 8)), ((3, 8), Tile.mk (3, 8) (3, 8)), ((4, 8), Tile.mk (4, 8) (4, 8)), ((5, 8), Tile.mk (5, 8) (5, 8)), ((6, 8), Tile.mk (6, 8) (6, 8)), ((7, 8), Tile.mk (7, 8) (7, 8)), ((8, 8), Tile.mk (8, 8) (8, 8)), ((9, 8), Tile.mk (9, 8) (9, 8)), ((10, 8), Tile.mk (10, 8) (10, 8)), ((0, 9), Tile.mk (0, 9) (0, 9)), ((1, 9), Tile.mk (1, 9) (1, 9)), ((2, 9), Tile.mk (2, 9) (2, 9)), ((3, 9), Tile.mk (3, 9) (3, 9)), ((4, 9), Tile.mk (4, 9) (4, 9)), ((5, 9), Tile.mk (5, 9) (5, 9)), ((6, 9), Tile.mk (6, 9) (6, 9)), ((7, 9), Tile.mk (7, 9) (7, 9)), ((8, 9), Tile.mk (8, 9) (8, 9)), ((0, 10), Tile.mk (0, 10) (0, 10)), ((1, 10), Tile.mk (1, 10) (1, 10)), ((2, 10), Tile.mk (2, 10) (2, 10)), ((3, 10), Tile.mk (3, 10) (3, 10)), ((4, 10), Tile.mk (4, 10) (4, 10)), ((5, 10), Tile.mk (5, 10) (5, 10)), ((6, 10), Tile.mk (6, 10) (6, 10)), ((7, 10), Tile.mk (7, 10) (7, 10)), ((8, 10), Tile.mk (8, 10) (8, 10)), ((9, 9), Tile.mk (9, 9) (10, 9)), ((10, 9), Tile.mk (10, 9) (9, 10)), ((10, 10), Tile.mk (10, 10) (10, 10)), ((9, 10), Tile.mk (9, 10) (9, 9))] []

def ovB11 : Gameboard := Gameboard.mk 11 121 false (some (9, 10)) [((0, 0), Tile.mk (0, 0) (0, 0)), ((1, 0), Tile.mk (1, 0) (1, 0)), ((2, 0), Tile.mk (2, 0) (2, 0)), ((3, 0), Tile.mk (3, 0) (3, 0)), ((4, 0), Tile.mk (4, 0) (4, 0)), ((5, 0), Tile.mk (5, 0) (5, 0)), ((6, 0), Tile.mk (6, 0) (6, 0)), ((7, 0), Tile.mk (7, 0) (7, 0)), ((8, 0), Tile.mk (8, 0) (8, 0)), ((9, 0), Tile.mk (9, 0) (9, 0)), ((10, 0), Tile.mk (10, 0) (10, 0)), ((0, 1), Tile.mk (0, 1) (0, 1)), ((1, 1), Tile.mk (1, 1) (1, 1)), ((2, 1), Tile.mk (2, 1) (2, 1)), ((3, 1), Tile.mk (3, 1) (3, 1)), ((4, 1), Tile.mk (4, 1) (4, 1)), ((5, 1), Tile.mk (5, 1) (5, 1)), ((6, 1), Tile.mk (6, 1) (6, 1)), ((7, 1), Tile.mk (7, 1) (7, 1)), ((8, 1), Tile.mk (8, 1) (8, 1)), ((9, 1), Tile.mk (9, 1) (9, 1)), ((10, 1), Tile.mk (10, 1) (10, 1)), ((0, 2), Tile.mk (0, 2) (0, 2)), ((1, 2), Tile.mk (1, 2) (1, 2)), ((2, 2), Tile.mk (2, 2) (2, 2)), ((3, 2), Tile.mk (3, 2) (3, 2)), ((4, 2), Tile.mk (4, 2) (4, 2)), ((5, 2), Tile.mk (5, 2) (5, 2)), ((6, 2), Tile.mk (6, 2) (6, 2)), ((7, 2), Tile.mk (7, 2) (7, 2)), ((8, 2), Tile.mk (8, 2) (8, 2)), ((9, 2), Tile.mk (9, 2) (9, 2)), ((10, 2), Tile.mk (10, 2) (10, 2)), ((0, 3), Tile.mk (0, 3) (0, 3)), ((1, 3), Tile.mk (1, 3) (1, 3)), ((2, 3), Tile.mk (2, 3) (2, 3)), ((3, 3), Tile.mk (3, 3) (3, 3)), ((4, 3), Tile.mk (4, 3) (4, 3)), ((5, 3), Tile.mk (5, 3) (5, 3)), ((6, 3), Tile.mk (6, 3) (6, 3)), ((7, 3), Tile.mk (7, 3) (7, 3)), ((8, 3), Tile.mk (8, 3) (8, 3)), ((9, 3), Tile.mk (9, 3) (9, 3)), ((10, 3), Tile.mk (10, 3) (10, 3)), ((0, 4), Tile.mk (0, 4) (0, 4)), ((1, 4), Tile.mk (1, 4) (1, 4)), ((2, 4), Tile.mk (2, 4) (2, 4)), ((3, 4), Tile.mk (3, 4) (3, 4)), ((4, 4), Tile.mk (4, 4) (4, 4)), ((5, 4), Tile.mk (5, 4) (5, 4)), ((6, 4), Tile.mk (6, 4) (6, 4)), ((7, 4), Tile.mk (7, 4) (7, 4)), ((8, 4), Tile.mk (8, 4) (8, 4)), ((9, 4), Tile.mk (9, 4) (9, 4)), ((10, 4), Tile.mk (10, 4) (10, 4)), ((0, 5), Tile.mk (0, 5) (0, 5)), ((1, 5), Tile.mk (1, 5) (1, 5)), ((2, 5), Tile.mk (2, 5) (2, 5)), ((3, 5), Tile.mk (3, 5) (3, 5)), ((4, 5), Tile.mk (4, 5) (4, 5)), ((5, 5), Tile.mk (5, 5) (5, 5)), ((6, 5), Tile.mk (6, 5) (6, 5)), ((7, 5), Tile.mk (7, 5) (7, 5)), ((8, 5), Tile.mk (8, 5) (8, 5)), ((9, 5), Tile.mk (9, 5) (9, 5)), ((10, 5), Tile.mk (10, 5) (10, 5)), ((0, 6), Tile.mk (0, 6) (0, 6)), ((1, 6), Tile.mk (1, 6) (1, 6)), ((2, 6), Tile.mk (2, 6) (2, 6)), ((3, 6), Tile.mk (3, 6) (3, 6)), ((4, 6), Tile.mk (4, 6) (4, 6)), ((5, 6), Tile.mk (5, 6) (5, 6)), ((6, 6), Tile.mk (6, 6) (6, 6)), ((7, 6), Tile.mk (7, 6) (7, 6)), ((8, 6), Tile.mk (8, 6) (8, 6)), ((9, 6), Tile.mk (9, 6) (9, 6)), ((10, 6), Tile.mk (10, 6) (10, 6)), ((0, 7), Tile.mk (0, 7) (0, 7)), ((1, 7), Tile.mk (1, 7) (1, 7)), ((2, 7), Tile.mk (2, 7) (2, 7)), ((3, 7), Tile.mk (3, 7) (3, 7)), ((4, 7), Tile.mk (4, 7) (4, 7)), ((5, 7), Tile.mk (5, 7) (5, 7)), ((6, 7), Tile.mk (6, 7) (6, 7)), ((7, 7), Tile.mk (7, 7) (7, 7)), ((8, 7), Tile.mk (8, 7) (8, 7)), ((9, 7), Tile.mk (9, 7) (9, 7)), ((10, 7), Tile.mk (10, 7) (10, 7)), ((0, 8), Tile.mk (0, 8) (0, 8)), ((1, 8), Tile.mk (1, 8) (1, 8)), ((2, 8), Tile.mk (2, 8) (2, 8)), ((3, 8), Tile.mk (3, 8) (3, 8)), ((4, 8), Tile.mk (4, 8) (4, 8)), ((5, 8), Tile.mk (5, 8) (5, 8)), ((6, 8), Tile.mk (6, 8) (6, 8)), ((7, 8), Tile.mk (7, 8) (7, 8)), ((8, 8), Tile.mk (8, 8) (8, 8)), ((9, 8), Tile.mk (9, 8) (9, 8)), ((10, 8), Tile.mk (10, 8) (10, 8)), ((0, 9), Tile.mk (0, 9) (0, 9)), ((1, 9), Tile.mk (1, 9) (1, 9)), ((2, 9), Tile.mk (2, 9) (2, 9)), ((3, 9), Tile.mk (3, 9) (3, 9)), ((4, 9), Tile.mk (4, 9) (4, 9)), ((5, 9), Tile.mk (5, 9) (5, 9)), ((6, 9), Tile.mk (6, 9) (6, 9)), ((7, 9), Tile.mk (7, 9) (7, 9)), ((8, 9), Tile.mk (8, 9) (8, 9)), ((0, 10), Tile.mk (0, 10) (0, 10)), ((1, 10), Tile.mk (1, 10) (1, 10)), ((2, 10), Tile.mk (2, 10) (2, 10)), ((3, 10), Tile.mk (3, 10) (3, 10)), ((4, 10), Tile.mk (4, 10) (4, 10)), ((5, 10), Tile.mk (5, 10) (5, 10)), ((6, 10), Tile.mk (6, 10) (6, 10)), ((7, 10), Tile.mk (7, 10) (7, 10)), ((8, 10), Tile.mk (8, 10) (8, 10)), ((9, 9), Tile.mk (9, 9) (10, 9)), ((10, 9), Tile.mk (10, 9) (9, 10)), ((9, 10), Tile.mk (9, 10) (10, 10)), ((10, 10), Tile.mk (10, 10) (9, 9))] []

def ovB12 : Gameboard := Gameboard.mk 11 132 false (some (10, 10)) [((0, 0), Tile.mk (0, 0) (0, 0)), ((1, 0), Tile.mk (1, 0) (1, 0)), ((2, 0), Tile.mk (2, 0) (2, 0)), ((3, 0), Tile.mk (3, 0) (3, 0)), ((4, 0), Tile.mk (4, 0) (4, 0)), ((5, 0), Tile.mk (5, 0) (5, 0)), ((6, 0), Tile.mk (6, 0) (6, 0)), ((7, 0), Tile.mk (7, 0) (7, 0)), ((8, 0), Tile.mk (8, 0) (8, 0)), ((9, 0), Tile.mk (9, 0) (9, 0)), ((10, 0), Tile.mk (10, 0) (10, 0)), ((0, 1), Tile.mk (0, 1) (0, 1)), ((1, 1), Tile.mk (1, 1) (1, 1)), ((2, 1), Tile.mk (2, 1) (2, 1)), ((3, 1), Tile.mk (3, 1) (3, 1)), ((4, 1), Tile.mk (4, 1) (4, 1)), ((5, 1), Tile.mk (5, 1) (5, 1)), ((6, 1), Tile.mk (6, 1) (6, 1)), ((7, 1), Tile.mk (7, 1) (7, 1)), ((8, 1), Tile.mk (8, 1) (8, 1)), ((9, 1), Tile.mk (9, 1) (9, 1)), ((10, 1), Tile.mk (10, 1) (10, 1)), ((0, 2), Tile.mk (0, 2) (0, 2)), ((1, 2), Tile.mk (1, 2) (1, 2)), ((2, 2), Tile.mk (2, 2) (2, 2)), ((3, 2), Tile.mk (3, 2) (3, 2)), ((4, 2), Tile.mk (4, 2) (4, 2)), ((5, 2), Tile.mk (5, 2) (5, 2)), ((6, 2), Tile.mk (6, 2) (6, 2)), ((7, 2), Tile.mk (7, 2) (7, 2)), ((8, 2), Tile.mk (8, 2) (8, 2)), ((9, 2), Tile.mk (9, 2) (9, 2)), ((10, 2), Tile.mk (10, 2) (10, 2)), ((0, 3), Tile.mk (0, 3) (0, 3)), ((1, 3), Tile.mk (1, 3) (1, 3)), ((2, 3), Tile.mk (2, 3) (2, 3)), ((3, 3), Tile.mk (3, 3) (3, 3)), ((4, 3), Tile.mk (4, 3) (4, 3)), ((5, 3), Tile.mk (5, 3) (5, 3)), ((6, 3), Tile.mk (6, 3) (6, 3)), ((7, 3), Tile.mk (7, 3) (7, 3)), ((8, 3), Tile.mk (8, 3) (8, 3)), ((9, 3), Tile.mk (9, 3) (9, 3)), ((10, 3), Tile.mk (10, 3) (10, 3)), ((0, 4), Tile.mk (0, 4) (0, 4)), ((1, 4), Tile.mk (1, 4) (1, 4)), ((2, 4), Tile.mk (2, 4) (2, 4)), ((3, 4), Tile.mk (3, 4) (3, 4)), ((4, 4), Tile.mk (4, 4) (4, 4)), ((5, 4), Tile.mk (5, 4) (5, 4)), ((6, 4), Tile.mk (6, 4) (6, 4)), ((7, 4), Tile.mk (7, 4) (7, 4)), ((8, 4), Tile.mk (8, 4) (8, 4)), ((9, 4), Tile.mk (9, 4) (9, 4)), ((10, 4), Tile.mk (10, 4) (10, 4)), ((0, 5), Tile.mk (0, 5) (0, 5)), ((1, 5), Tile.mk (1, 5) (1, 5)), ((2, 5), Tile.mk (2, 5) (2, 5)), ((3, 5), Tile.mk (3, 5) (3, 5)), ((4, 5), Tile.mk (4, 5) (4, 5)), ((5, 5), Tile.mk (5, 5) (5, 5)), ((6, 5), Tile.mk (6, 5) (6, 5)), ((7, 5), Tile.mk (7, 5) (7, 5)), ((8, 5), Tile.mk (8, 5) (8, 5)), ((9, 5), Tile.mk (9, 5) (9, 5)), ((10, 5), Tile.mk (10, 5) (10, 5)), ((0, 6), Tile.mk (0, 6) (0, 6)), ((1, 6), Tile.mk (1, 6) (1, 6)), ((2, 6), Tile.mk (2, 6) (2, 6)), ((3, 6), Tile.mk (3, 6) (3, 6)), ((4, 6), Tile.mk (4, 6) (4, 6)), ((5, 6), Tile.mk (5, 6) (5, 6)), ((6, 6), Tile.mk (6, 6) (6, 6)), ((7, 6), Tile.mk (7, 6) (7, 6)), ((8, 6), Tile.mk (8, 6) (8, 6)), ((9, 6), Tile.mk (9, 6) (9, 6)), ((10, 6), Tile.mk (10, 6) (10, 6)), ((0, 7), Tile.mk (0, 7) (0, 7)), ((1, 7), Tile.mk (1, 7) (1, 7)), ((2, 7), Tile.mk (2, 7) (2, 7)), ((3, 7), Tile.mk (3, 7) (3, 7)), ((4, 7), Tile.mk (4, 7) (4, 7)), ((5, 7), Tile.mk (5, 7) (5, 7)), ((6, 7), Tile.mk (6, 7) (6, 7)), ((7, 7), Tile.mk (7, 7) (7, 7)), ((8, 7), Tile.mk (8, 7) (8, 7)), ((9, 7), Tile.mk (9, 7) (9, 7)), ((10, 7), Tile.mk (10, 7) (10, 7)), ((0, 8), Tile.mk (0, 8) (0, 8)), ((1, 8), Tile.mk (1, 8) (1, 8)), ((2, 8), Tile.mk (2, 8) (2, 8)), ((3, 8), Tile.mk (3, 8) (3, 8)), ((4, 8), Tile.mk (4, 8) (4, 8)), ((5, 8), Tile.mk (5, 8) (5, 8)), ((6, 8), Tile.mk (6, 8) (6, 8)), ((7, 8), Tile.mk (7, 8) (7, 8)), ((8, 8), Tile.mk (8, 8) (8, 8)), ((9, 8), Tile.mk (9, 8) (9, 8)), ((10, 8), Tile.mk (10, 8) (10, 8)), ((0, 9), Tile.mk (0, 9) (0, 9)), ((1, 9), Tile.mk (1, 9) (1, 9)), ((2, 9), Tile.mk (2, 9) (2, 9)), ((3, 9), Tile.mk (3, 9) (3, 9)), ((4, 9), Tile.mk (4, 9) (4, 9)), ((5, 9), Tile.mk (5, 9) (5, 9)), ((6, 9), Tile.mk (6, 9) (6, 9)), ((7, 9), Tile.mk (7, 9) (7, 9)), ((8, 9), Tile.mk (8, 9) (8, 9)), ((0, 10), Tile.mk (0, 10) (0, 10)), ((1, 10), Tile.mk (1, 10) (1, 10)), ((2, 10), Tile.mk (2, 10) (2, 10)), ((3, 10), Tile.mk (3, 10) (3, 10)), ((4, 10), Tile.mk (4, 10) (4, 10)), ((5, 10), Tile.mk (5, 10) (5, 10)), ((6, 10), Tile.mk (6, 10) (6, 10)), ((7, 10), Tile.mk (7, 10) (7, 10)), ((8, 10), Tile.mk (8, 10) (8, 10)), ((9, 9), Tile.mk (9, 9) (10, 9)), ((10, 9), Tile.mk (10, 9) (9, 10)), ((10, 10), Tile.mk (10, 10) (10, 10)), ((9, 10), Tile.mk (9, 10) (9, 9))] []

def ovB13 : Gameboard := Gameboard.mk 11 143 false (some (9, 10)) [((0, 0), Tile.mk (0, 0) (0, 0)), ((1, 0), Tile.mk (1, 0) (1, 0)), ((2, 0), Tile.mk (2, 0) (2, 0)), ((3, 0), Tile.mk (3, 0) (3, 0)), ((4, 0), Tile.mk (4, 0) (4, 0)), ((5, 0), Tile.mk (5, 0) (5, 0)), ((6, 0), Tile.mk (6, 0) (6, 0)), ((7, 0), Tile.mk (7, 0) (7, 0)), ((8, 0), Tile.mk (8, 0) (8, 0)), ((9, 0), Tile.mk (9, 0) (9, 0)), ((10, 0), Tile.mk (10, 0) (10, 0)), ((0, 1), Tile.mk (0, 1) (0, 1)), ((1, 1), Tile.mk (1, 1) (1, 1)), ((2, 1), Tile.mk (2, 1) (2, 1)), ((3, 1), Tile.mk (3, 1) (3, 1)), ((4, 1), Tile.mk (4, 1) (4, 1)), ((5, 1), Tile.mk (5, 1) (5, 1)), ((6, 1), Tile.mk (6, 1) (6, 1)), ((7, 1), Tile.mk (7, 1) (7, 1)), ((8, 1), Tile.mk (8, 1) (8, 1)), ((9, 1), Tile.mk (9, 1) (9, 1)), ((10, 1), Tile.mk (10, 1) (10, 1)), ((0, 2), Tile.mk (0, 2) (0, 2)), ((1, 2), Tile.mk (1, 2) (1, 2)), ((2, 2), Tile.mk (2, 2) (2, 2)), ((3, 2), Tile.mk (3, 2) (3, 2)), ((4, 2), Tile.mk (4, 2) (4, 2)), ((5, 2), Tile.mk (5, 2) (5, 2)), ((6, 2), Tile.mk (6, 2) (6, 2)), ((7, 2), Tile.mk (7, 2) (7, 2)), ((8, 2), Tile.mk (8, 2) (8, 2)), ((9, 2), Tile.mk (9, 2) (9, 2)), ((10, 2), Tile.mk (10, 2) (10, 2)), ((0, 3), Tile.mk (0, 3) (0, 3)), ((1, 3), Tile.mk (1, 3) (1, 3)), ((2, 3), Tile.mk (2, 3) (2, 3)), ((3, 3), Tile.mk (3, 3) (3, 3)), ((4, 3), Tile.mk (4, 3) (4, 3)), ((5, 3), Tile.mk (5, 3) (5, 3)), ((6, 3), Tile.mk (6, 3) (6, 3)), ((7, 3), Tile.mk (7, 3) (7, 3)), ((8, 3), Tile.mk (8, 3) (8, 3)), ((9, 3), Tile.mk (9, 3) (9, 3)), ((10, 3), Tile.mk (10, 3) (10, 3)), ((0, 4), Tile.mk (0, 4) (0, 4)), ((1, 4), Tile.mk (1, 4) (1, 4)), ((2, 4), Tile.mk (2, 4) (2, 4)), ((3, 4), Tile.mk (3, 4) (3, 4)), ((4, 4), Tile.mk (4, 4) (4, 4)), ((5, 4), Tile.mk (5, 4) (5, 4)), ((6, 4), Tile.mk (6, 4) (6, 4)), ((7, 4), Tile.mk (7, 4) (7, 4)), ((8, 4), Tile.mk (8, 4) (8, 4)), ((9, 4), Tile.mk (9, 4) (9, 4)), ((10, 4), Tile.mk (10, 4) (10, 4)), ((0, 5), Tile.mk (0, 5) (0, 5)), ((1, 5), Tile.mk (1, 5) (1, 5)), ((2, 5), Tile.mk (2, 5) (2, 5)), ((3, 5), Tile.mk (3, 5) (3, 5)), ((4, 5), Tile.mk (4, 5) (4, 5)), ((5, 5), Tile.mk (5, 5) (5, 5)), ((6, 5), Tile.mk (6, 5) (6, 5)), ((7, 5), Tile.mk (7, 5) (7, 5)), ((8, 5), Tile.mk (8, 5) (8, 5)), ((9, 5), Tile.mk (9, 5) (9, 5)), ((10, 5), Tile.mk (10, 5) (10, 5)), ((0, 6), Tile.mk (0, 6) (0, 6)), ((1, 6), Tile.mk (1, 6) (1, 6)), ((2, 6), Tile.mk (2, 6) (2, 6)), ((3, 6), Tile.mk (3, 6) (3, 6)), ((4, 6), Tile.mk (4, 6) (4, 6)), ((5, 6), Tile.mk (5, 6) (5, 6)), ((6, 6), Tile.mk (6, 6) (6, 6)), ((7, 6), Tile.mk (7, 6) (7, 6)), ((8, 6), Tile.mk (8, 6) (8, 6)), ((9, 6), Tile.mk (9, 6) (9, 6)), ((10, 6), Tile.mk (10, 6) (10, 6)), ((0, 7), Tile.mk (0, 7) (0, 7)), ((1, 7), Tile.mk (1, 7) (1, 7)), ((2, 7), Tile.mk (2, 7) (2, 7)), ((3, 7), Tile.mk (3, 7) (3, 7)), ((4, 7), Tile.mk (4, 7) (4, 7)), ((5, 7), Tile.mk (5, 7) (5, 7)), ((6, 7), Tile.mk (6, 7) (6, 7)), ((7, 7), Tile.mk (7, 7) (7, 7)), ((8, 7), Tile.mk (8, 7) (8, 7)), ((9, 7), Tile.mk (9, 7) (9, 7)), ((10, 7), Tile.mk (10, 7) (10, 7)), ((0, 8), Tile.mk (0, 8) (0, 8)), ((1, 8), Tile.mk (1, 8) (1, 8)), ((2, 8), Tile.mk (2, 8) (2, 8)), ((3, 8), Tile.mk (3, 8) (3, 8)), ((4, 8), Tile.mk (4, 8) (4, 8)), ((5, 8), Tile.mk (5, 8) (5, 8)), ((6, 8), Tile.mk (6, 8) (6, 8)), ((7, 8), Tile.mk (7, 8) (7, 8)), ((8, 8), Tile.mk (8, 8) (8, 8)), ((9, 8), Tile.mk (9, 8) (9, 8)), ((10, 8), Tile.mk (10, 8) (10, 8)), ((0, 9), Tile.mk (0, 9) (0, 9)), ((1, 9), Tile.mk (1, 9) (1, 9)), ((2, 9), Tile.mk (2, 9) (2, 9)), ((3, 9), Tile.mk (3, 9) (3, 9)), ((4, 9), Tile.mk (4, 9) (4, 9)), ((5, 9), Tile.mk (5, 9) (5, 9)), ((6, 9), Tile.mk (6, 9) (6, 9)), ((7, 9), Tile.mk (7, 9) (7, 9)), ((8, 9), Tile.mk (8, 9) (8, 9)), ((0, 10), Tile.mk (0, 10) (0, 10)), ((1, 10), Tile.mk (1, 10) (1, 10)), ((2, 10), Tile.mk (2, 10) (2, 10)), ((3, 10), Tile.mk (3, 10) (3, 10)), ((4, 10), Tile.mk (4, 10) (4, 10)), ((5, 10), Tile.mk (5, 10) (5, 10)), ((6, 10), Tile.mk (6, 10) (6, 10)), ((7, 10), Tile.mk (7, 10) (7, 10)), ((8, 10), Tile.mk (8, 10) (8, 10)), ((9, 9), Tile.mk (9, 9) (10, 9)), ((10, 9), Tile.mk (10, 9) (9, 10)), ((9, 10), Tile.mk (9, 10) (10, 10)), ((10, 10), Tile.mk (10, 10) (9, 9))] []

def ovB14 : Gameboard := Gameboard.mk 11 154 false (some (10, 10)) [((0, 0), Tile.mk (0, 0) (0, 0)), ((1, 0), Tile.mk (1, 0) (1, 0)), ((2, 0), Tile.mk (2, 0) (2, 0)), ((3, 0), Tile.mk (3, 0) (3, 0)), ((4, 0), Tile.mk (4, 0) (4, 0)), ((5, 0), Tile.mk (5, 0) (5, 0)), ((6, 0), Tile.mk (6, 0) (6, 0)), ((7, 0), Tile.mk (7, 0) (7, 0)), ((8, 0), Tile.mk (8, 0) (8, 0)), ((9, 0), Tile.mk (9, 0) (9, 0)), ((10, 0), Tile.mk (10, 0) (10, 0)), ((0, 1), Tile.mk (0, 1) (0, 1)), ((1, 1), Tile.mk (1, 1) (1, 1)), ((2, 1), Tile.mk (2, 1) (2, 1)), ((3, 1), Tile.mk (3, 1) (3, 1)), ((4, 1), Tile.mk (4, 1) (4, 1)), ((5, 1), Tile.mk (5, 1) (5, 1)), ((6, 1), Tile.mk (6, 1) (6, 1)), ((7, 1), Tile.mk (7, 1) (7, 1)), ((8, 1), Tile.mk (8, 1) (8, 1)), ((9, 1), Tile.mk (9, 1) (9, 1)), ((10, 1), Tile.mk (10, 1) (10, 1)), ((0, 2), Tile.mk (0, 2) (0, 2)), ((1, 2), Tile.mk (1, 2) (1, 2)), ((2, 2), Tile.mk (2, 2) (2, 2)), ((3, 2), Tile.mk (3, 2) (3, 2)), ((4, 2), Tile.mk (4, 2) (4, 2)), ((5, 2), Tile.mk (5, 2) (5, 2)), ((6, 2), Tile.mk (6, 2) (6, 2)), ((7, 2), Tile.mk (7, 2) (7, 2)), ((8, 2), Tile.mk (8, 2) (8, 2)), ((9, 2), Tile.mk (9, 2) (9, 2)), ((10, 2), Tile.mk (10, 2) (10, 2)), ((0, 3), Tile.mk (0, 3) (0, 3)), ((1, 3), Tile.mk (1, 3) (1, 3)), ((2, 3), Tile.mk (2, 3) (2, 3)), ((3, 3), Tile.mk (3, 3) (3, 3)), ((4, 3), Tile.mk (4, 3) (4, 3)), ((5, 3), Tile.mk (5, 3) (5, 3)), ((6, 3), Tile.mk (6, 3) (6, 3)), ((7, 3), Tile.mk (7, 3) (7, 3)), ((8, 3), Tile.mk (8, 3) (8, 3)), ((9, 3), Tile.mk (9, 3) (9, 3)), ((10, 3), Tile.mk (10, 3) (10, 3)), ((0, 4), Tile.mk (0, 4) (0, 4)), ((1, 4), Tile.mk (1, 4) (1, 4)), ((2, 4), Tile.mk (2, 4) (2, 4)), ((3, 4), Tile.mk (3, 4) (3, 4)), ((4, 4), Tile.mk (4, 4) (4, 4)), ((5, 4), Tile.mk (5, 4) (5, 4)), ((6, 4), Tile.mk (6, 4) (6, 4)), ((7, 4), Tile.mk (7, 4) (7, 4)), ((8, 4), Tile.mk (8, 4) (8, 4)), ((9, 4), Tile.mk (9, 4) (9, 4)), ((10, 4), Tile.mk (10, 4) (10, 4)), ((0, 5), Tile.mk (0, 5) (0, 5)), ((1, 5), Tile.mk (1, 5) (1, 5)), ((2, 5), Tile.mk (2, 5) (2, 5)), ((3, 5), Tile.mk (3, 5) (3, 5)), ((4, 5), Tile.mk (4, 5) (4, 5)), ((5, 5), Tile.mk (5, 5) (5, 5)), ((6, 5), Tile.mk (6, 5) (6, 5)), ((7, 5), Tile.mk (7, 5) (7, 5)), ((8, 5), Tile.mk (8, 5) (8, 5)), ((9, 5), Tile.mk (9, 5) (9, 5)), ((10, 5), Tile.mk (10, 5) (10, 5)), ((0, 6), Tile.mk (0, 6) (0, 6)), ((1, 6), Tile.mk (1, 6) (1, 6)), ((2, 6), Tile.mk (2, 6) (2, 6)), ((3, 6), Tile.mk (3, 6) (3, 6)), ((4, 6), Tile.mk (4, 6) (4, 6)), ((5, 6), Tile.mk (5, 6) (5, 6)), ((6, 6), Tile.mk (6, 6) (6, 6)), ((7, 6), Tile.mk (7, 6) (7, 6)), ((8, 6), Tile.mk (8, 6) (8, 6)), ((9, 6), Tile.mk (9, 6) (9, 6)), ((10, 6), Tile.mk (10, 6) (10, 6)), ((0, 7), Tile.mk (0, 7) (0, 7)), ((1, 7), Tile.mk (1, 7) (1, 7)), ((2, 7), Tile.mk (2, 7) (2, 7)), ((3, 7), Tile.mk (3, 7) (3, 7)), ((4, 7), Tile.mk (4, 7) (4, 7)), ((5, 7), Tile.mk (5, 7) (5, 7)), ((6, 7), Tile.mk (6, 7) (6, 7)), ((7, 7), Tile.mk (7, 7) (7, 7)), ((8, 7), Tile.mk (8, 7) (8, 7)), ((9, 7), Tile.mk (9, 7) (9, 7)), ((10, 7), Tile.mk (10, 7) (10, 7)), ((0, 8), Tile.mk (0, 8) (0, 8)), ((1, 8), Tile.mk (1, 8) (1, 8)), ((2, 8), Tile.mk (2, 8) (2, 8)), ((3, 8), Tile.mk (3, 8) (3, 8)), ((4, 8), Tile.mk (4, 8) (4, 8)), ((5, 8), Tile.mk (5, 8) (5, 8)), ((6, 8), Tile.mk (6, 8) (6, 8)), ((7, 8), Tile.mk (7, 8) (7, 8)), ((8, 8), Tile.mk (8, 8) (8, 8)), ((9, 8), Tile.mk (9, 8) (9, 8)), ((10, 8), Tile.mk (10, 8) (10, 8)), ((0, 9), Tile.mk (0, 9) (0, 9)), ((1, 9), Tile.mk (1, 9) (1, 9)), ((2, 9), Tile.mk (2, 9) (2, 9)), ((3, 9), Tile.mk (3, 9) (3, 9)), ((4, 9), Tile.mk (4, 9) (4, 9)), ((5, 9), Tile.mk (5, 9) (5, 9)), ((6, 9), Tile.mk (6, 9) (6, 9)), ((7, 9), Tile.mk (7, 9) (7, 9)), ((8, 9), Tile.mk (8, 9) (8, 9)), ((0, 10), Tile.mk (0, 10) (0, 10)), ((1, 10), Tile.mk (1, 10) (1, 10)), ((2, 10), Tile.mk (2, 10) (2, 10)), ((3, 10), Tile.mk (3, 10) (3, 10)), ((4, 10), Tile.mk (4, 10) (4, 10)), ((5, 10), Tile.mk (5, 10) (5, 10)), ((6, 10), Tile.mk (6, 10) (6, 10)), ((7, 10), Tile.mk (7, 10) (7, 10)), ((8, 10), Tile.mk (8, 10) (8, 10)), ((9, 9), Tile.mk (9, 9) (10, 9)), ((10, 9), Tile.mk (10, 9) (9, 10)), ((10, 10), Tile.mk (10, 10) (10, 10)), ((9, 10), Tile.mk (9, 10) (9, 9))] []

def ovB15 : Gameboard := Gameboard.mk 11 165 false (some (9, 10)) [((0, 0), Tile.mk (0, 0) (0, 0)), ((1, 0), Tile.mk (1, 0) (1, 0)), ((2, 0), Tile.mk (2, 0) (2, 0)), ((3, 0), Tile.mk (3, 0) (3, 0)), ((4, 0), Tile.mk (4, 0) (4, 0)), ((5, 0), Tile.mk (5, 0) (5, 0)), ((6, 0), Tile.mk (6, 0) (6, 0)), ((7, 0), Tile.mk (7, 0) (7, 0)), ((8, 0), Tile.mk (8, 0) (8, 0)), ((9, 0), Tile.mk (9, 0) (9, 0)), ((10, 0), Tile.mk (10, 0) (10, 0)), ((0, 1), Tile.mk (0, 1) (0, 1)), ((1, 1), Tile.mk (1, 1) (1, 1)), ((2, 1), Tile.mk (2, 1) (2, 1)), ((3, 1), Tile.mk (3, 1) (3, 1)), ((4, 1), Tile.mk (4, 1) (4, 1)), ((5, 1), Tile.mk (5, 1) (5, 1)), ((6, 1), Tile.mk (6, 1) (6, 1)), ((7, 1), Tile.mk (7, 1) (7, 1)), ((8, 1), Tile.mk (8, 1) (8, 1)), ((9, 1), Tile.mk (9, 1) (9, 1)), ((10, 1), Tile.mk (10, 1) (10, 1)), ((0, 2), Tile.mk (0, 2) (0, 2)), ((1, 2), Tile.mk (1, 2) (1, 2)), ((2, 2), Tile.mk (2, 2) (2, 2)), ((3, 2), Tile.mk (3, 2) (3, 2)), ((4, 2), Tile.mk (4, 2) (4, 2)), ((5, 2), Tile.mk (5, 2) (5, 2)), ((6, 2), Tile.mk (6, 2) (6, 2)), ((7, 2), Tile.mk (7, 2) (7, 2)), ((8, 2), Tile.mk (8, 2) (8, 2)), ((9, 2), Tile.mk (9, 2) (9, 2)), ((10, 2), Tile.mk (10, 2) (10, 2)), ((0, 3), Tile.mk (0, 3) (0, 3)), ((1, 3), Tile.mk (1, 3) (1, 3)), ((2, 3), Tile.mk (2, 3) (2, 3)), ((3, 3), Tile.mk (3, 3) (3, 3)), ((4, 3), Tile.mk (4, 3) (4, 3)), ((5, 3), Tile.mk (5, 3) (5, 3)), ((6, 3), Tile.mk (6, 3) (6, 3)), ((7, 3), Tile.mk (7, 3) (7, 3)), ((8, 3), Tile.mk (8, 3) (8, 3)), ((9, 3), Tile.mk (9, 3) (9, 3)), ((10, 3), Tile.mk (10, 3) (10, 3)), ((0, 4), Tile.mk (0, 4) (0, 4)), ((1, 4), Tile.mk (1, 4) (1, 4)), ((2, 4), Tile.mk (2, 4) (2, 4)), ((3, 4), Tile.mk (3, 4) (3, 4)), ((4, 4), Tile.mk (4, 4) (4, 4)), ((5, 4), Tile.mk (5, 4) (5, 4)), ((6, 4), Tile.mk (6, 4) (6, 4)), ((7, 4), Tile.mk (7, 4) (7, 4)), ((8, 4), Tile.mk (8, 4) (8, 4)), ((9, 4), Tile.mk (9, 4) (9, 4)), ((10, 4), Tile.mk (10, 4) (10, 4)), ((0, 5), Tile.mk (0, 5) (0, 5)), ((1, 5), Tile.mk (1, 5) (1, 5)), ((2, 5), Tile.mk (2, 5) (2, 5)), ((3, 5), Tile.mk (3, 5) (3, 5)), ((4, 5), Tile.mk (4, 5) (4, 5)), ((5, 5), Tile.mk (5, 5) (5, 5)), ((6, 5), Tile.mk (6, 5) (6, 5)), ((7, 5), Tile.mk (7, 5) (7, 5)), ((8, 5), Tile.mk (8, 5) (8, 5)), ((9, 5), Tile.mk (9, 5) (9, 5)), ((10, 5), Tile.mk (10, 5) (10, 5)), ((0, 6), Tile.mk (0, 6) (0, 6)), ((1, 6), Tile.mk (1, 6) (1, 6)), ((2, 6), Tile.mk (2, 6) (2, 6)), ((3, 6), Tile.mk (3, 6) (3, 6)), ((4, 6), Tile.mk (4, 6) (4, 6)), ((5, 6), Tile.mk (5, 6) (5, 6)), ((6, 6), Tile.mk (6, 6) (6, 6)), ((7, 6), Tile.mk (7, 6) (7, 6)), ((8, 6), Tile.mk (8, 6) (8, 6)), ((9, 6), Tile.mk (9, 6) (9, 6)), ((10, 6), Tile.mk (10, 6) (10, 6)), ((0, 7), Tile.mk (0, 7) (0, 7)), ((1, 7), Tile.mk (1, 7) (1, 7)), ((2, 7), Tile.mk (2, 7) (2, 7)), ((3, 7), Tile.mk (3, 7) (3, 7)), ((4, 7), Tile.mk (4, 7) (4, 7)), ((5, 7), Tile.mk (5, 7) (5, 7)), ((6, 7), Tile.mk (6, 7) (6, 7)), ((7, 7), Tile.mk (7, 7) (7, 7)), ((8, 7), Tile.mk (8, 7) (8, 7)), ((9, 7), Tile.mk (9, 7) (9, 7)), ((10, 7), Tile.mk (10, 7) (10, 7)), ((0, 8), Tile.mk (0, 8) (0, 8)), ((1, 8), Tile.mk (1, 8) (1, 8)), ((2, 8), Tile.mk (2, 8) (2, 8)), ((3, 8), Tile.mk (3, 8) (3, 8)), ((4, 8), Tile.mk (4, 8) (4, 8)), ((5, 8), Tile.mk (5, 8) (5, 8)), ((6, 8), Tile.mk (6, 8) (6, 8)), ((7, 8), Tile.mk (7, 8) (7, 8)), ((8, 8), Tile.mk (8, 8) (8, 8)), ((9, 8), Tile.mk (9, 8) (9, 8)), ((10, 8), Tile.mk (10, 8) (10, 8)), ((0, 9), Tile.mk (0, 9) (0, 9)), ((1, 9), Tile.mk (1, 9) (1, 9)), ((2, 9), Tile.mk (2, 9) (2, 9)), ((3, 9), Tile.mk (3, 9) (3, 9)), ((4, 9), Tile.mk (4, 9) (4, 9)), ((5, 9), Tile.mk (5, 9) (5, 9)), ((6, 9), Tile.mk (6, 9) (6, 9)), ((7, 9), Tile.mk (7, 9) (7, 9)), ((8, 9), Tile.mk (8, 9) (8, 9)), ((0, 10), Tile.mk (0, 10) (0, 10)), ((1, 10), Tile.mk (1, 10) (1, 10)), ((2, 10), Tile.mk (2, 10) (2, 10)), ((3, 10), Tile.mk (3, 10) (3, 10)), ((4, 10), Tile.mk (4, 10) (4, 10)), ((5, 10), Tile.mk (5, 10) (5, 10)), ((6, 10), Tile.mk (6, 10) (6, 10)), ((7, 10), Tile.mk (7, 10) (7, 10)), ((8, 10), Tile.mk (8, 10) (8, 10)), ((9, 9), Tile.mk (9, 9) (10, 9)), ((10, 9), Tile.mk (10, 9) (9, 10)), ((9, 10), Tile.mk (9, 10) (10, 10)), ((10, 10), Tile.mk (10, 10) (9, 9))] []

def ovB16 : Gameboard := Gameboard.mk 11 176 false (some (10, 10)) [((0, 0), Tile.mk (0, 0) (0, 0)), ((1, 0), Tile.mk (1, 0) (1, 0)), ((2, 0), Tile.mk (2, 0) (2, 0)), ((3, 0), Tile.mk (3, 0) (3, 0)), ((4, 0), Tile.mk (4, 0) (4, 0)), ((5, 0), Tile.mk (5, 0) (5, 0)), ((6, 0), Tile.mk (6, 0) (6, 0)), ((7, 0), Tile.mk (7, 0) (7, 0)), ((8, 0), Tile.mk (8, 0) (8, 0)), ((9, 0), Tile.mk (9, 0) (9, 0)), ((10, 0), Tile.mk (10, 0) (10, 0)), ((0, 1), Tile.mk (0, 1) (0, 1)), ((1, 1), Tile.mk (1, 1) (1, 1)), ((2, 1), Tile.mk (2, 1) (2, 1)), ((3, 1), Tile.mk (3, 1) (3, 1)), ((4, 1), Tile.mk (4, 1) (4, 1)), ((5, 1), Tile.mk (5, 1) (5, 1)), ((6, 1), Tile.mk (6, 1) (6, 1)), ((7, 1), Tile.mk (7, 1) (7, 1)), ((8, 1), Tile.mk (8, 1) (8, 1)), ((9, 1), Tile.mk (9, 1) (9, 1)), ((10, 1), Tile.mk (10, 1) (10, 1)), ((0, 2), Tile.mk (0, 2) (0, 2)), ((1, 2), Tile.mk (1, 2) (1, 2)), ((2, 2), Tile.mk (2, 2) (2, 2)), ((3, 2), Tile.mk (3, 2) (3, 2)), ((4, 2), Tile.mk (4, 2) (4, 2)), ((5, 2), Tile.mk (5, 2) (5, 2)), ((6, 2), Tile.mk (6, 2) (6, 2)), ((7, 2), Tile.mk (7, 2) (7, 2)), ((8, 2), Tile.mk (8, 2) (8, 2)), ((9, 2), Tile.mk (9, 2) (9, 2)), ((10, 2), Tile.mk (10, 2) (10, 2)), ((0, 3), Tile.mk (0, 3) (0, 3)), ((1, 3), Tile.mk (1, 3) (1, 3)), ((2, 3), Tile.mk (2, 3) (2, 3)), ((3, 3), Tile.mk (3, 3) (3, 3)), ((4, 3), Tile.mk (4, 3) (4, 3)), ((5, 3), Tile.mk (5, 3) (5, 3)), ((6, 3), Tile.mk (6, 3) (6, 3)), ((7, 3), Tile.mk (7, 3) (7, 3)), ((8, 3), Tile.mk (8, 3) (8, 3)), ((9, 3), Tile.mk (9, 3) (9, 3)), ((10, 3), Tile.mk (10, 3) (10, 3)), ((0, 4), Tile.mk (0, 4) (0, 4)), ((1, 4), Tile.mk (1, 4) (1, 4)), ((2, 4), Tile.mk (2, 4) (2, 4)), ((3, 4), Tile.mk (3, 4) (3, 4)), ((4, 4), Tile.mk (4, 4) (4, 4)), ((5, 4), Tile.mk (5, 4) (5, 4)), ((6, 4), Tile.mk (6, 4) (6, 4)), ((7, 4), Tile.mk (7, 4) (7, 4)), ((8, 4), Tile.mk (8, 4) (8, 4)), ((9, 4), Tile.mk (9, 4) (9, 4)), ((10, 4), Tile.mk (10, 4) (10, 4)), ((0, 5), Tile.mk (0, 5) (0, 5)), ((1, 5), Tile.mk (1, 5) (1, 5)), ((2, 5), Tile.mk (2, 5) (2, 5)), ((3, 5), Tile.mk (3, 5) (3, 5)), ((4, 5), Tile.mk (4, 5) (4, 5)), ((5, 5), Tile.mk (5, 5) (5, 5)), ((6, 5), Tile.mk (6, 5) (6, 5)), ((7, 5), Tile.mk (7, 5) (7, 5)), ((8, 5), Tile.mk (8, 5) (8, 5)), ((9, 5), Tile.mk (9, 5) (9, 5)), ((10, 5), Tile.mk (10, 5) (10, 5)), ((0, 6), Tile.mk (0, 6) (0, 6)), ((1, 6), Tile.mk (1, 6) (1, 6)), ((2, 6), Tile.mk (2, 6) (2, 6)), ((3, 6), Tile.mk (3, 6) (3, 6)), ((4, 6), Tile.mk (4, 6) (4, 6)), ((5, 6), Tile.mk (5, 6) (5, 6)), ((6, 6), Tile.mk (6, 6) (6, 6)), ((7, 6), Tile.mk (7, 6) (7, 6)), ((8, 6), Tile.mk (8, 6) (8, 6)), ((9, 6), Tile.mk (9, 6) (9, 6)), ((10, 6), Tile.mk (10, 6) (10, 6)), ((0, 7), Tile.mk (0, 7) (0, 7)), ((1, 7), Tile.mk (1, 7) (1, 7)), ((2, 7), Tile.mk (2, 7) (2, 7)), ((3, 7), Tile.mk (3, 7) (3, 7)), ((4, 7), Tile.mk (4, 7) (4, 7)), ((5, 7), Tile.mk (5, 7) (5, 7)), ((6, 7), Tile.mk (6, 7) (6, 7)), ((7, 7), Tile.mk (7, 7) (7, 7)), ((8, 7), Tile.mk (8, 7) (8, 7)), ((9, 7), Tile.mk (9, 7) (9, 7)), ((10, 7), Tile.mk (10, 7) (10, 7)), ((0, 8), Tile.mk (0, 8) (0, 8)), ((1, 8), Tile.mk (1, 8) (1, 8)), ((2, 8), Tile.mk (2, 8) (2, 8)), ((3, 8), Tile.mk (3, 8) (3, 8)), ((4, 8), Tile.mk (4, 8) (4, 8)), ((5, 8), Tile.mk (5, 8) (5, 8)), ((6, 8), Tile.mk (6, 8) (6, 8)), ((7, 8), Tile.mk (7, 8) (7, 8)), ((8, 8), Tile.mk (8, 8) (8, 8)), ((9, 8), Tile.mk (9, 8) (9, 8)), ((10, 8), Tile.mk (10, 8) (10, 8)), ((0, 9), Tile.mk (0, 9) (0, 9)), ((1, 9), Tile.mk (1, 9) (1, 9)), ((2, 9), Tile.mk (2, 9) (2, 9)), ((3, 9), Tile.mk (3, 9) (3, 9)), ((4, 9), Tile.mk (4, 9) (4, 9)), ((5, 9), Tile.mk (5, 9) (5, 9)), ((6, 9), Tile.mk (6, 9) (6, 9)), ((7, 9), Tile.mk (7, 9) (7, 9)), ((8, 9), Tile.mk (8, 9) (8, 9)), ((0, 10), Tile.mk (0, 10) (0, 10)), ((1, 10), Tile.mk (1, 10) (1, 10)), ((2, 10), Tile.mk (2, 10) (2, 10)), ((3, 10), Tile.mk (3, 10) (3, 10)), ((4, 10), Tile.mk (4, 10) (4, 10)), ((5, 10), Tile.mk (5, 10) (5, 10)), ((6, 10), Tile.mk (6, 10) (6, 10)), ((7, 10), Tile.mk (7, 10) (7, 10)), ((8, 10), Tile.mk (8, 10) (8, 10)), ((9, 9), Tile.mk (9, 9) (10, 9)), ((10, 9), Tile.mk (10, 9) (9, 10)), ((10, 10), Tile.mk (10, 10) (10, 10)), ((9, 10), Tile.mk (9, 10) (9, 9))] []

def ovB17 : Gameboard := Gameboard.mk 11 187 false (some (9, 10)) [((0, 0), Tile.mk (0, 0) (0, 0)), ((1, 0), Tile.mk (1, 0) (1, 0)), ((2, 0), Tile.mk (2, 0) (2, 0)), ((3, 0), Tile.mk (3, 0) (3, 0)), ((4, 0), Tile.mk (4, 0) (4, 0)), ((5, 0), Tile.mk (5, 0) (5, 0)), ((6, 0), Tile.mk (6, 0) (6, 0)), ((7, 0), Tile.mk (7, 0) (7, 0)), ((8, 0), Tile.mk (8, 0) (8, 0)), ((9, 0), Tile.mk (9, 0) (9, 0)), ((10, 0), Tile.mk (10, 0) (10, 0)), ((0, 1), Tile.mk (0, 1) (0, 1)), ((1, 1), Tile.mk (1, 1) (1, 1)), ((2, 1), Tile.mk (2, 1) (2, 1)), ((3, 1), Tile.mk (3, 1) (3, 1)), ((4, 1), Tile.mk (4, 1) (4, 1)), ((5, 1), Tile.mk (5, 1) (5, 1)), ((6, 1), Tile.mk (6, 1) (6, 1)), ((7, 1), Tile.mk (7, 1) (7, 1)), ((8, 1), Tile.mk (8, 1) (8, 1)), ((9, 1), Tile.mk (9, 1) (9, 1)), ((10, 1), Tile.mk (10, 1) (10, 1)), ((0, 2), Tile.mk (0, 2) (0, 2)), ((1, 2), Tile.mk (1, 2) (1, 2)), ((2, 2), Tile.mk (2, 2) (2, 2)), ((3, 2), Tile.mk (3, 2) (3, 2)), ((4, 2), Tile.mk (4, 2) (4, 2)), ((5, 2), Tile.mk (5, 2) (5, 2)), ((6, 2), Tile.mk (6, 2) (6, 2)), ((7, 2), Tile.mk (7, 2) (7, 2)), ((8, 2), Tile.mk (8, 2) (8, 2)), ((9, 2), Tile.mk (9, 2) (9, 2)), ((10, 2), Tile.mk (10, 2) (10, 2)), ((0, 3), Tile.mk (0, 3) (0, 3)), ((1, 3), Tile.mk (1, 3) (1, 3)), ((2, 3), Tile.mk (2, 3) (2, 3)), ((3, 3), Tile.mk (3, 3) (3, 3)), ((4, 3), Tile.mk (4, 3) (4, 3)), ((5, 3), Tile.mk (5, 3) (5, 3)), ((6, 3), Tile.mk (6, 3) (6, 3)), ((7, 3), Tile.mk (7, 3) (7, 3)), ((8, 3), Tile.mk (8, 3) (8, 3)), ((9, 3), Tile.mk (9, 3) (9, 3)), ((10, 3), Tile.mk (10, 3) (10, 3)), ((0, 4), Tile.mk (0, 4) (0, 4)), ((1, 4), Tile.mk (1, 4) (1, 4)), ((2, 4), Tile.mk (2, 4) (2, 4)), ((3, 4), Tile.mk (3, 4) (3, 4)), ((4, 4), Tile.mk (4, 4) (4, 4)), ((5, 4), Tile.mk (5, 4) (5, 4)), ((6, 4), Tile.mk (6, 4) (6, 4)), ((7, 4), Tile.mk (7, 4) (7, 4)), ((8, 4), Tile.mk (8, 4) (8, 4)), ((9, 4), Tile.mk (9, 4) (9, 4)), ((10, 4), Tile.mk (10, 4) (10, 4)), ((0, 5), Tile.mk (0, 5) (0, 5)), ((1, 5), Tile.mk (1, 5) (1, 5)), ((2, 5), Tile.mk (2, 5) (2, 5)), ((3, 5), Tile.mk (3, 5) (3, 5)), ((4, 5), Tile.mk (4, 5) (4, 5)), ((5, 5), Tile.mk (5, 5) (5, 5)), ((6, 5), Tile.mk (6, 5) (6, 5)), ((7, 5), Tile.mk (7, 5) (7, 5)), ((8, 5), Tile.mk (8, 5) (8, 5)), ((9, 5), Tile.mk (9, 5) (9, 5)), ((10, 5), Tile.mk (10, 5) (10, 5)), ((0, 6), Tile.mk (0, 6) (0, 6)), ((1, 6), Tile.mk (1, 6) (1, 6)), ((2, 6), Tile.mk (2, 6) (2, 6)), ((3, 6), Tile.mk (3, 6) (3, 6)), ((4, 6), Tile.mk (4, 6) (4, 6)), ((5, 6), Tile.mk (5, 6) (5, 6)), ((6, 6), Tile.mk (6, 6) (6, 6)), ((7, 6), Tile.mk (7, 6) (7, 6)), ((8, 6), Tile.mk (8, 6) (8, 6)), ((9, 6), Tile.mk (9, 6) (9, 6)), ((10, 6), Tile.mk (10, 6) (10, 6)), ((0, 7), Tile.mk (0, 7) (0, 7)), ((1, 7), Tile.mk (1, 7) (1, 7)), ((2, 7), Tile.mk (2, 7) (2, 7)), ((3, 7), Tile.mk (3, 7) (3, 7)), ((4, 7), Tile.mk (4, 7) (4, 7)), ((5, 7), Tile.mk (5, 7) (5, 7)), ((6, 7), Tile.mk (6, 7) (6, 7)), ((7, 7), Tile.mk (7, 7) (7, 7)), ((8, 7), Tile.mk (8, 7) (8, 7)), ((9, 7), Tile.mk (9, 7) (9, 7)), ((10, 7), Tile.mk (10, 7) (10, 7)), ((0, 8), Tile.mk (0, 8) (0, 8)), ((1, 8), Tile.mk (1, 8) (1, 8)), ((2, 8), Tile.mk (2, 8) (2, 8)), ((3, 8), Tile.mk (3, 8) (3, 8)), ((4, 8), Tile.mk (4, 8) (4, 8)), ((5, 8), Tile.mk (5, 8) (5, 8)), ((6, 8), Tile.mk (6, 8) (6, 8)), ((7, 8), Tile.mk (7, 8) (7, 8)), ((8, 8), Tile.mk (8, 8) (8, 8)), ((9, 8), Tile.mk (9, 8) (9, 8)), ((10, 8), Tile.mk (10, 8) (10, 8)), ((0, 9), Tile.mk (0, 9) (0, 9)), ((1, 9), Tile.mk (1, 9) (1, 9)), ((2, 9), Tile.mk (2, 9) (2, 9)), ((3, 9), Tile.mk (3, 9) (3, 9)), ((4, 9), Tile.mk (4, 9) (4, 9)), ((5, 9), Tile.mk (5, 9) (5, 9)), ((6, 9), Tile.mk (6, 9) (6, 9)), ((7, 9), Tile.mk (7, 9) (7, 9)), ((8, 9), Tile.mk (8, 9) (8, 9)), ((0, 10), Tile.mk (0, 10) (0, 10)), ((1, 10), Tile.mk (1, 10) (1, 10)), ((2, 10), Tile.mk (2, 10) (2, 10)), ((3, 10), Tile.mk (3, 10) (3, 10)), ((4, 10), Tile.mk (4, 10) (4, 10)), ((5, 10), Tile.mk (5, 10) (5, 10)), ((6, 10), Tile.mk (6, 10) (6, 10)), ((7, 10), Tile.mk (7, 10) (7, 10)), ((8, 10), Tile.mk (8, 10) (8, 10)), ((9, 9), Tile.mk (9, 9) (10, 9)), ((10, 9), Tile.mk (10, 9) (9, 10)), ((9, 10), Tile.mk (9, 10) (10, 10)), ((10, 10), Tile.mk (10, 10) (9, 9))] []

def ovB18 : Gameboard := Gameboard.mk 11 198 false (some (10, 10)) [((0, 0), Tile.mk (0, 0) (0, 0)), ((1, 0), Tile.mk (1, 0) (1, 0)), ((2, 0), Tile.mk (2, 0) (2, 0)), ((3, 0), Tile.mk (3, 0) (3, 0)), ((4, 0), Tile.mk (4, 0) (4, 0)), ((5, 0), Tile.mk (5, 0) (5, 0)), ((6, 0), Tile.mk (6, 0) (6, 0)), ((7, 0), Tile.mk (7, 0) (7, 0)), ((8, 0), Tile.mk (8, 0) (8, 0)), ((9, 0), Tile.mk (9, 0) (9, 0)), ((10, 0), Tile.mk (10, 0) (10, 0)), ((0, 1), Tile.mk (0, 1) (0, 1)), ((1, 1), Tile.mk (1, 1) (1, 1)), ((2, 1), Tile.mk (2, 1) (2, 1)), ((3, 1), Tile.mk (3, 1) (3, 1)), ((4, 1), Tile.mk (4, 1) (4, 1)), ((5, 1), Tile.mk (5, 1) (5, 1)), ((6, 1), Tile.mk (6, 1) (6, 1)), ((7, 1), Tile.mk (7, 1) (7, 1)), ((8, 1), Tile.mk (8, 1) (8, 1)), ((9, 1), Tile.mk (9, 1) (9, 1)), ((10, 1), Tile.mk (10, 1) (10, 1)), ((0, 2), Tile.mk (0, 2) (0, 2)), ((1, 2), Tile.mk (1, 2) (1, 2)), ((2, 2), Tile.mk (2, 2) (2, 2)), ((3, 2), Tile.mk (3, 2) (3, 2)), ((4, 2), Tile.mk (4, 2) (4, 2)), ((5, 2), Tile.mk (5, 2) (5, 2)), ((6, 2), Tile.mk (6, 2) (6, 2)), ((7, 2), Tile.mk (7, 2) (7, 2)), ((8, 2), Tile.mk (8, 2) (8, 2)), ((9, 2), Tile.mk (9, 2) (9, 2)), ((10, 2), Tile.mk (10, 2) (10, 2)), ((0, 3), Tile.mk (0, 3) (0, 3)), ((1, 3), Tile.mk (1, 3) (1, 3)), ((2, 3), Tile.mk (2, 3) (2, 3)), ((3, 3), Tile.mk (3, 3) (3, 3)), ((4, 3), Tile.mk (4, 3) (4, 3)), ((5, 3), Tile.mk (5, 3) (5, 3)), ((6, 3), Tile.mk (6, 3) (6, 3)), ((7, 3), Tile.mk (7, 3) (7, 3)), ((8, 3), Tile.mk (8, 3) (8, 3)), ((9, 3), Tile.mk (9, 3) (9, 3)), ((10, 3), Tile.mk (10, 3) (10, 3)), ((0, 4), Tile.mk (0, 4) (0, 4)), ((1, 4), Tile.mk (1, 4) (1, 4)), ((2, 4), Tile.mk (2, 4) (2, 4)), ((3, 4), Tile.mk (3, 4) (3, 4)), ((4, 4), Tile.mk (4, 4) (4, 4)), ((5, 4), Tile.mk (5, 4) (5, 4)), ((6, 4), Tile.mk (6, 4) (6, 4)), ((7, 4), Tile.mk (7, 4) (7, 4)), ((8, 4), Tile.mk (8, 4) (8, 4)), ((9, 4), Tile.mk (9, 4) (9, 4)), ((10, 4), Tile.mk (10, 4) (10, 4)), ((0, 5), Tile.mk (0, 5) (0, 5)), ((1, 5), Tile.mk (1, 5) (1, 5)), ((2, 5), Tile.mk (2, 5) (2, 5)), ((3, 5), Tile.mk (3, 5) (3, 5)), ((4, 5), Tile.mk (4, 5) (4, 5)), ((5, 5), Tile.mk (5, 5) (5, 5)), ((6, 5), Tile.mk (6, 5) (6, 5)), ((7, 5), Tile.mk (7, 5) (7, 5)), ((8, 5), Tile.mk (8, 5) (8, 5)), ((9, 5), Tile.mk (9, 5) (9, 5)), ((10, 5), Tile.mk (10, 5) (10, 5)), ((0, 6), Tile.mk (0, 6) (0, 6)), ((1, 6), Tile.mk (1, 6) (1, 6)), ((2, 6), Tile.mk (2, 6) (2, 6)), ((3, 6), Tile.mk (3, 6) (3, 6)), ((4, 6), Tile.mk (4, 6) (4, 6)), ((5, 6), Tile.mk (5, 6) (5, 6)), ((6, 6), Tile.mk (6, 6) (6, 6)), ((7, 6), Tile.mk (7, 6) (7, 6)), ((8, 6), Tile.mk (8, 6) (8, 6)), ((9, 6), Tile.mk (9, 6) (9, 6)), ((10, 6), Tile.mk (10, 6) (10, 6)), ((0, 7), Tile.mk (0, 7) (0, 7)), ((1, 7), Tile.mk (1, 7) (1, 7)), ((2, 7), Tile.mk (2, 7) (2, 7)), ((3, 7), Tile.mk (3, 7) (3, 7)), ((4, 7), Tile.mk (4, 7) (4, 7)), ((5, 7), Tile.mk (5, 7) (5, 7)), ((6, 7), Tile.mk (6, 7) (6, 7)), ((7, 7), Tile.mk (7, 7) (7, 7)), ((8, 7), Tile.mk (8, 7) (8, 7)), ((9, 7), Tile.mk (9, 7) (9, 7)), ((10, 7), Tile.mk (10, 7) (10, 7)), ((0, 8), Tile.mk (0, 8) (0, 8)), ((1, 8), Tile.mk (1, 8) (1, 8)), ((2, 8), Tile.mk (2, 8) (2, 8)), ((3, 8), Tile.mk (3, 8) (3, 8)), ((4, 8), Tile.mk (4, 8) (4, 8)), ((5, 8), Tile.mk (5, 8) (5, 8)), ((6, 8), Tile.mk (6, 8) (6, 8)), ((7, 8), Tile.mk (7, 8) (7, 8)), ((8, 8), Tile.mk (8, 8) (8, 8)), ((9, 8), Tile.mk (9, 8) (9, 8)), ((10, 8), Tile.mk (10, 8) (10, 8)), ((0, 9), Tile.mk (0, 9) (0, 9)), ((1, 9), Tile.mk (1, 9) (1, 9)), ((2, 9), Tile.mk (2, 9) (2, 9)), ((3, 9), Tile.mk (3, 9) (3, 9)), ((4, 9), Tile.mk (4, 9) (4, 9)), ((5, 9), Tile.mk (5, 9) (5, 9)), ((6, 9), Tile.mk (6, 9) (6, 9)), ((7, 9), Tile.mk (7, 9) (7, 9)), ((8, 9), Tile.mk (8, 9) (8, 9)), ((0, 10), Tile.mk (0, 10) (0, 10)), ((1, 10), Tile.mk (1, 10) (1, 10)), ((2, 10), Tile.mk (2, 10) (2, 10)), ((3, 10), Tile.mk (3, 10) (3, 10)), ((4, 10), Tile.mk (4, 10) (4, 10)), ((5, 10), Tile.mk (5, 10) (5, 10)), ((6, 10), Tile.mk (6, 10) (6, 10)), ((7, 10), Tile.mk (7, 10) (7, 10)), ((8, 10), Tile.mk (8, 10) (8, 10)), ((9, 9), Tile.mk (9, 9) (10, 9)), ((10, 9), Tile.mk (10, 9) (9, 10)), ((10, 10), Tile.mk (10, 10) (10, 10)), ((9, 10), Tile.mk (9, 10) (9, 9))] []

def ovB19 : Gameboard := Gameboard.mk 11 209 false (some (9, 10)) [((0, 0), Tile.mk (0, 0) (0, 0)), ((1, 0), Tile.mk (1, 0) (1, 0)), ((2, 0), Tile.mk (2, 0) (2, 0)), ((3, 0), Tile.mk (3, 0) (3, 0)), ((4, 0), Tile.mk (4, 0) (4, 0)), ((5, 0), Tile.mk (5, 0) (5, 0)), ((6, 0), Tile.mk (6, 0) (6, 0)), ((7, 0), Tile.mk (7, 0) (7, 0)), ((8, 0), Tile.mk (8, 0) (8, 0)), ((9, 0), Tile.mk (9, 0) (9, 0)), ((10, 0), Tile.mk (10, 0) (10, 0)), ((0, 1), Tile.mk (0, 1) (0, 1)), ((1, 1), Tile.mk (1, 1) (1, 1)), ((2, 1), Tile.mk (2, 1) (2, 1)), ((3, 1), Tile.mk (3, 1) (3, 1)), ((4, 1), Tile.mk (4, 1) (4, 1)), ((5, 1), Tile.mk (5, 1) (5, 1)), ((6, 1), Tile.mk (6, 1) (6, 1)), ((7, 1), Tile.mk (7, 1) (7, 1)), ((8, 1), Tile.mk (8, 1) (8, 1)), ((9, 1), Tile.mk (9, 1) (9, 1)), ((10, 1), Tile.mk (10, 1) (10, 1)), ((0, 2), Tile.mk (0, 2) (0, 2)), ((1, 2), Tile.mk (1, 2) (1, 2)), ((2, 2), Tile.mk (2, 2) (2, 2)), ((3, 2), Tile.mk (3, 2) (3, 2)), ((4, 2), Tile.mk (4, 2) (4, 2)), ((5, 2), Tile.mk (5, 2) (5, 2)), ((6, 2), Tile.mk (6, 2) (6, 2)), ((7, 2), Tile.mk (7, 2) (7, 2)), ((8, 2), Tile.mk (8, 2) (8, 2)), ((9, 2), Tile.mk (9, 2) (9, 2)), ((10, 2), Tile.mk (10, 2) (10, 2)), ((0, 3), Tile.mk (0, 3) (0, 3)), ((1, 3), Tile.mk (1, 3) (1, 3)), ((2, 3), Tile.mk (2, 3) (2, 3)), ((3, 3), Tile.mk (3, 3) (3, 3)), ((4, 3), Tile.mk (4, 3) (4, 3)), ((5, 3), Tile.mk (5, 3) (5, 3)), ((6, 3), Tile.mk (6, 3) (6, 3)), ((7, 3), Tile.mk (7, 3) (7, 3)), ((8, 3), Tile.mk (8, 3) (8, 3)), ((9, 3), Tile.mk (9, 3) (9, 3)), ((10, 3), Tile.mk (10, 3) (10, 3)), ((0, 4), Tile.mk (0, 4) (0, 4)), ((1, 4), Tile.mk (1, 4) (1, 4)), ((2, 4), Tile.mk (2, 4) (2, 4)), ((3, 4), Tile.mk (3, 4) (3, 4)), ((4, 4), Tile.mk (4, 4) (4, 4)), ((5, 4), Tile.mk (5, 4) (5, 4)), ((6, 4), Tile.mk (6, 4) (6, 4)), ((7, 4), Tile.mk (7, 4) (7, 4)), ((8, 4), Tile.mk (8, 4) (8, 4)), ((9, 4), Tile.mk (9, 4) (9, 4)), ((10, 4), Tile.mk (10, 4) (10, 4)), ((0, 5), Tile.mk (0, 5) (0, 5)), ((1, 5), Tile.mk (1, 5) (1, 5)), ((2, 5), Tile.mk (2, 5) (2, 5)), ((3, 5), Tile.mk (3, 5) (3, 5)), ((4, 5), Tile.mk (4, 5) (4, 5)), ((5, 5), Tile.mk (5, 5) (5, 5)), ((6, 5), Tile.mk (6, 5) (6, 5)), ((7, 5), Tile.mk (7, 5) (7, 5)), ((8, 5), Tile.mk (8, 5) (8, 5)), ((9, 5), Tile.mk (9, 5) (9, 5)), ((10, 5), Tile.mk (10, 5) (10, 5)), ((0, 6), Tile.mk (0, 6) (0, 6)), ((1, 6), Tile.mk (1, 6) (1, 6)), ((2, 6), Tile.mk (2, 6) (2, 6)), ((3, 6), Tile.mk (3, 6) (3, 6)), ((4, 6), Tile.mk (4, 6) (4, 6)), ((5, 6), Tile.mk (5, 6) (5, 6)), ((6, 6), Tile.mk (6, 6) (6, 6)), ((7, 6), Tile.mk (7, 6) (7, 6)), ((8, 6), Tile.mk (8, 6) (8, 6)), ((9, 6), Tile.mk (9, 6) (9, 6)), ((10, 6), Tile.mk (10, 6) (10, 6)), ((0, 7), Tile.mk (0, 7) (0, 7)), ((1, 7), Tile.mk (1, 7) (1, 7)), ((2, 7), Tile.mk (2, 7) (2, 7)), ((3, 7), Tile.mk (3, 7) (3, 7)), ((4, 7), Tile.mk (4, 7) (4, 7)), ((5, 7), Tile.mk (5, 7) (5, 7)), ((6, 7), Tile.mk (6, 7) (6, 7)), ((7, 7), Tile.mk (7, 7) (7, 7)), ((8, 7), Tile.mk (8, 7) (8, 7)), ((9, 7), Tile.mk (9, 7) (9, 7)), ((10, 7), Tile.mk (10, 7) (10, 7)), ((0, 8), Tile.mk (0, 8) (0, 8)), ((1, 8), Tile.mk (1, 8) (1, 8)), ((2, 8), Tile.mk (2, 8) (2, 8)), ((3, 8), Tile.mk (3, 8) (3, 8)), ((4, 8), Tile.mk (4, 8) (4, 8)), ((5, 8), Tile.mk (5, 8) (5, 8)), ((6, 8), Tile.mk (6, 8) (6, 8)), ((7, 8), Tile.mk (7, 8) (7, 8)), ((8, 8), Tile.mk (8, 8) (8, 8)), ((9, 8), Tile.mk (9, 8) (9, 8)), ((10, 8), Tile.mk (10, 8) (10, 8)), ((0, 9), Tile.mk (0, 9) (0, 9)), ((1, 9), Tile.mk (1, 9) (1, 9)), ((2, 9), Tile.mk (2, 9) (2, 9)), ((3, 9), Tile.mk (3, 9) (3, 9)), ((4, 9), Tile.mk (4, 9) (4, 9)), ((5, 9), Tile.mk (5, 9) (5, 9)), ((6, 9), Tile.mk (6, 9) (6, 9)), ((7, 9), Tile.mk (7, 9) (7, 9)), ((8, 9), Tile.mk (8, 9) (8, 9)), ((0, 10), Tile.mk (0, 10) (0, 10)), ((1, 10), Tile.mk (1, 10) (1, 10)), ((2, 10), Tile.mk (2, 10) (2, 10)), ((3, 10), Tile.mk (3, 10) (3, 10)), ((4, 10), Tile.mk (4, 10) (4, 10)), ((5, 10), Tile.mk (5, 10) (5, 10)), ((6, 10), Tile.mk (6, 10) (6, 10)), ((7, 10), Tile.mk (7, 10) (7, 10)), ((8, 10), Tile.mk (8, 10) (8, 10)), ((9, 9), Tile.mk (9, 9) (10, 9)), ((10, 9), Tile.mk (10, 9) (9, 10)), ((9, 10), Tile.mk (9, 10) (10, 10)), ((10, 10), Tile.mk (10, 10) (9, 9))] []

def ovB20 : Gameboard := Gameboard.mk 11 220 false (some (10, 10)) [((0, 0), Tile.mk (0, 0) (0, 0)), ((1, 0), Tile.mk (1, 0) (1, 0)), ((2, 0), Tile.mk (2, 0) (2, 0)), ((3, 0), Tile.mk (3, 0) (3, 0)), ((4, 0), Tile.mk (4, 0) (4, 0)), ((5, 0), Tile.mk (5, 0) (5, 0)), ((6, 0), Tile.mk (6, 0) (6, 0)), ((7, 0), Tile.mk (7, 0) (7, 0)), ((8, 0), Tile.mk (8, 0) (8, 0)), ((9, 0), Tile.mk (9, 0) (9, 0)), ((10, 0), Tile.mk (10, 0) (10, 0)), ((0, 1), Tile.mk (0, 1) (0, 1)), ((1, 1), Tile.mk (1, 1) (1, 1)), ((2, 1), Tile.mk (2, 1) (2, 1)), ((3, 1), Tile.mk (3, 1) (3, 1)), ((4, 1), Tile.mk (4, 1) (4, 1)), ((5, 1), Tile.mk (5, 1) (5, 1)), ((6, 1), Tile.mk (6, 1) (6, 1)), ((7, 1), Tile.mk (7, 1) (7, 1)), ((8, 1), Tile.mk (8, 1) (8, 1)), ((9, 1), Tile.mk (9, 1) (9, 1)), ((10, 1), Tile.mk (10, 1) (10, 1)), ((0, 2), Tile.mk (0, 2) (0, 2)), ((1, 2), Tile.mk (1, 2) (1, 2)), ((2, 2), Tile.mk (2, 2) (2, 2)), ((3, 2), Tile.mk (3, 2) (3, 2)), ((4, 2), Tile.mk (4, 2) (4, 2)), ((5, 2), Tile.mk (5, 2) (5, 2)), ((6, 2), Tile.mk (6, 2) (6, 2)), ((7, 2), Tile.mk (7, 2) (7, 2)), ((8, 2), Tile.mk (8, 2) (8, 2)), ((9, 2), Tile.mk (9, 2) (9, 2)), ((10, 2), Tile.mk (10, 2) (10, 2)), ((0, 3), Tile.mk (0, 3) (0, 3)), ((1, 3), Tile.mk (1, 3) (1, 3)), ((2, 3), Tile.mk (2, 3) (2, 3)), ((3, 3), Tile.mk (3, 3) (3, 3)), ((4, 3), Tile.mk (4, 3) (4, 3)), ((5, 3), Tile.mk (5, 3) (5, 3)), ((6, 3), Tile.mk (6, 3) (6, 3)), ((7, 3), Tile.mk (7, 3) (7, 3)), ((8, 3), Tile.mk (8, 3) (8, 3)), ((9, 3), Tile.mk (9, 3) (9, 3)), ((10, 3), Tile.mk (10, 3) (10, 3)), ((0, 4), Tile.mk (0, 4) (0, 4)), ((1, 4), Tile.mk (1, 4) (1, 4)), ((2, 4), Tile.mk (2, 4) (2, 4)), ((3, 4), Tile.mk (3, 4) (3, 4)), ((4, 4), Tile.mk (4, 4) (4, 4)), ((5, 4), Tile.mk (5, 4) (5, 4)), ((6, 4), Tile.mk (6, 4) (6, 4)), ((7, 4), Tile.mk (7, 4) (7, 4)), ((8, 4), Tile.mk (8, 4) (8, 4)), ((9, 4), Tile.mk (9, 4) (9, 4)), ((10, 4), Tile.mk (10, 4) (10, 4)), ((0, 5), Tile.mk (0, 5) (0, 5)), ((1, 5), Tile.mk (1, 5) (1, 5)), ((2, 5), Tile.mk (2, 5) (2, 5)), ((3, 5), Tile.mk (3, 5) (3, 5)), ((4, 5), Tile.mk (4, 5) (4, 5)), ((5, 5), Tile.mk (5, 5) (5, 5)), ((6, 5), Tile.mk (6, 5) (6, 5)), ((7, 5), Tile.mk (7, 5) (7, 5)), ((8, 5), Tile.mk (8, 5) (8, 5)), ((9, 5), Tile.mk (9, 5) (9, 5)), ((10, 5), Tile.mk (10, 5) (10, 5)), ((0, 6), Tile.mk (0, 6) (0, 6)), ((1, 6), Tile.mk (1, 6) (1, 6)), ((2, 6), Tile.mk (2, 6) (2, 6)), ((3, 6), Tile.mk (3, 6) (3, 6)), ((4, 6), Tile.mk (4, 6) (4, 6)), ((5, 6), Tile.mk (5, 6) (5, 6)), ((6, 6), Tile.mk (6, 6) (6, 6)), ((7, 6), Tile.mk (7, 6) (7, 6)), ((8, 6), Tile.mk (8, 6) (8, 6)), ((9, 6), Tile.mk (9, 6) (9, 6)), ((10, 6), Tile.mk (10, 6) (10, 6)), ((0, 7), Tile.mk (0, 7) (0, 7)), ((1, 7), Tile.mk (1, 7) (1, 7)), ((2, 7), Tile.mk (2, 7) (2, 7)), ((3, 7), Tile.mk (3, 7) (3, 7)), ((4, 7), Tile.mk (4, 7) (4, 7)), ((5, 7), Tile.mk (5, 7) (5, 7)), ((6, 7), Tile.mk (6, 7) (6, 7)), ((7, 7), Tile.mk (7, 7) (7, 7)), ((8, 7), Tile.mk (8, 7) (8, 7)), ((9, 7), Tile.mk (9, 7) (9, 7)), ((10, 7), Tile.mk (10, 7) (10, 7)), ((0, 8), Tile.mk (0, 8) (0, 8)), ((1, 8), Tile.mk (1, 8) (1, 8)), ((2, 8), Tile.mk (2, 8) (2, 8)), ((3, 8), Tile.mk (3, 8) (3, 8)), ((4, 8), Tile.mk (4, 8) (4, 8)), ((5, 8), Tile.mk (5, 8) (5, 8)), ((6, 8), Tile.mk (6, 8) (6, 8)), ((7, 8), Tile.mk (7, 8) (7, 8)), ((8, 8), Tile.mk (8, 8) (8, 8)), ((9, 8), Tile.mk (9, 8) (9, 8)), ((10, 8), Tile.mk (10, 8) (10, 8)), ((0, 9), Tile.mk (0, 9) (0, 9)), ((1, 9), Tile.mk (1, 9) (1, 9)), ((2, 9), Tile.mk (2, 9) (2, 9)), ((3, 9), Tile.mk (3, 9) (3, 9)), ((4, 9), Tile.mk (4, 9) (4, 9)), ((5, 9), Tile.mk (5, 9) (5, 9)), ((6, 9), Tile.mk (6, 9) (6, 9)), ((7, 9), Tile.mk (7, 9) (7, 9)), ((8, 9), Tile.mk (8, 9) (8, 9)), ((0, 10), Tile.mk (0, 10) (0, 10)), ((1, 10), Tile.mk (1, 10) (1, 10)), ((2, 10), Tile.mk (2, 10) (2, 10)), ((3, 10), Tile.mk (3, 10) (3, 10)), ((4, 10), Tile.mk (4, 10) (4, 10)), ((5, 10), Tile.mk (5, 10) (5, 10)), ((6, 10), Tile.mk (6, 10) (6, 10)), ((7, 10), Tile.mk (7, 10) (7, 10)), ((8, 10), Tile.mk (8, 10) (8, 10)), ((9, 9), Tile.mk (9, 9) (10, 9)), ((10, 9), Tile.mk (10, 9) (9, 10)), ((10, 10), Tile.mk (10, 10) (10, 10)), ((9, 10), Tile.mk (9, 10) (9, 9))] []

def ovB21 : Gameboard := Gameboard.mk 11 231 false (some (9, 10)) [((0, 0), Tile.mk (0, 0) (0, 0)), ((1, 0), Tile.mk (1, 0) (1, 0)), ((2, 0), Tile.mk (2, 0) (2, 0)), ((3, 0), Tile.mk (3, 0) (3, 0)), ((4, 0), Tile.mk (4, 0) (4, 0)), ((5, 0), Tile.mk (5, 0) (5, 0)), ((6, 0), Tile.mk (6, 0) (6, 0)), ((7, 0), Tile.mk (7, 0) (7, 0)), ((8, 0), Tile.mk (8, 0) (8, 0)), ((9, 0), Tile.mk (9, 0) (9, 0)), ((10, 0), Tile.mk (10, 0) (10, 0)), ((0, 1), Tile.mk (0, 1) (0, 1)), ((1, 1), Tile.mk (1, 1) (1, 1)), ((2, 1), Tile.mk (2, 1) (2, 1)), ((3, 1), Tile.mk (3, 1) (3, 1)), ((4, 1), Tile.mk (4, 1) (4, 1)), ((5, 1), Tile.mk (5, 1) (5, 1)), ((6, 1), Tile.mk (6, 1) (6, 1)), ((7, 1), Tile.mk (7, 1) (7, 1)), ((8, 1), Tile.mk (8, 1) (8, 1)), ((9, 1), Tile.mk (9, 1) (9, 1)), ((10, 1), Tile.mk (10, 1) (10, 1)), ((0, 2), Tile.mk (0, 2) (0, 2)), ((1, 2), Tile.mk (1, 2) (1, 2)), ((2, 2), Tile.mk (2, 2) (2, 2)), ((3, 2), Tile.mk (3, 2) (3, 2)), ((4, 2), Tile.mk (4, 2) (4, 2)), ((5, 2), Tile.mk (5, 2) (5, 2)), ((6, 2), Tile.mk (6, 2) (6, 2)), ((7, 2), Tile.mk (7, 2) (7, 2)), ((8, 2), Tile.mk (8, 2) (8, 2)), ((9, 2), Tile.mk (9, 2) (9, 2)), ((10, 2), Tile.mk (10, 2) (10, 2)), ((0, 3), Tile.mk (0, 3) (0, 3)), ((1, 3), Tile.mk (1, 3) (1, 3)), ((2, 3), Tile.mk (2, 3) (2, 3)), ((3, 3), Tile.mk (3, 3) (3, 3)), ((4, 3), Tile.mk (4, 3) (4, 3)), ((5, 3), Tile.mk (5, 3) (5, 3)), ((6, 3), Tile.mk (6, 3) (6, 3)), ((7, 3), Tile.mk (7, 3) (7, 3)), ((8, 3), Tile.mk (8, 3) (8, 3)), ((9, 3), Tile.mk (9, 3) (9, 3)), ((10, 3), Tile.mk (10, 3) (10, 3)), ((0, 4), Tile.mk (0, 4) (0, 4)), ((1, 4), Tile.mk (1, 4) (1, 4)), ((2, 4), Tile.mk (2, 4) (2, 4)), ((3, 4), Tile.mk (3, 4) (3, 4)), ((4, 4), Tile.mk (4, 4) (4, 4)), ((5, 4), Tile.mk (5, 4) (5, 4)), ((6, 4), Tile.mk (6, 4) (6, 4)), ((7, 4), Tile.mk (7, 4) (7, 4)), ((8, 4), Tile.mk (8, 4) (8, 4)), ((9, 4), Tile.mk (9, 4) (9, 4)), ((10, 4), Tile.mk (10, 4) (10, 4)), ((0, 5), Tile.mk (0, 5) (0, 5)), ((1, 5), Tile.mk (1, 5) (1, 5)), ((2, 5), Tile.mk (2, 5) (2, 5)), ((3, 5), Tile.mk (3, 5) (3, 5)), ((4, 5), Tile.mk (4, 5) (4, 5)), ((5, 5), Tile.mk (5, 5) (5, 5)), ((6, 5), Tile.mk (6, 5) (6, 5)), ((7, 5), Tile.mk (7, 5) (7, 5)), ((8, 5), Tile.mk (8, 5) (8, 5)), ((9, 5), Tile.mk (9, 5) (9, 5)), ((10, 5), Tile.mk (10, 5) (10, 5)), ((0, 6), Tile.mk (0, 6) (0, 6)), ((1, 6), Tile.mk (1, 6) (1, 6)), ((2, 6), Tile.mk (2, 6) (2, 6)), ((3, 6), Tile.mk (3, 6) (3, 6)), ((4, 6), Tile.mk (4, 6) (4, 6)), ((5, 6), Tile.mk (5, 6) (5, 6)), ((6, 6), Tile.mk (6, 6) (6, 6)), ((7, 6), Tile.mk (7, 6) (7, 6)), ((8, 6), Tile.mk (8, 6) (8, 6)), ((9, 6), Tile.mk (9, 6) (9, 6)), ((10, 6), Tile.mk (10, 6) (10, 6)), ((0, 7), Tile.mk (0, 7) (0, 7)), ((1, 7), Tile.mk (1, 7) (1, 7)), ((2, 7), Tile.mk (2, 7) (2, 7)), ((3, 7), Tile.mk (3, 7) (3, 7)), ((4, 7), Tile.mk (4, 7) (4, 7)), ((5, 7), Tile.mk (5, 7) (5, 7)), ((6, 7), Tile.mk (6, 7) (6, 7)), ((7, 7), Tile.mk (7, 7) (7, 7)), ((8, 7), Tile.mk (8, 7) (8, 7)), ((9, 7), Tile.mk (9, 7) (9, 7)), ((10, 7), Tile.mk (10, 7) (10, 7)), ((0, 8), Tile.mk (0, 8) (0, 8)), ((1, 8), Tile.mk (1, 8) (1, 8)), ((2, 8), Tile.mk (2, 8) (2, 8)), ((3, 8), Tile.mk (3, 8) (3, 8)), ((4, 8), Tile.mk (4, 8) (4, 8)), ((5, 8), Tile.mk (5, 8) (5, 8)), ((6, 8), Tile.mk (6, 8) (6, 8)), ((7, 8), Tile.mk (7, 8) (7, 8)), ((8, 8), Tile.mk (8, 8) (8, 8)), ((9, 8), Tile.mk (9, 8) (9, 8)), ((10, 8), Tile.mk (10, 8) (10, 8)), ((0, 9), Tile.mk (0, 9) (0, 9)), ((1, 9), Tile.mk (1, 9) (1, 9)), ((2, 9), Tile.mk (2, 9) (2, 9)), ((3, 9), Tile.mk (3, 9) (3, 9)), ((4, 9), Tile.mk (4, 9) (4, 9)), ((5, 9), Tile.mk (5, 9) (5, 9)), ((6, 9), Tile.mk (6, 9) (6, 9)), ((7, 9), Tile.mk (7, 9) (7, 9)), ((8, 9), Tile.mk (8, 9) (8, 9)), ((0, 10), Tile.mk (0, 10) (0, 10)), ((1, 10), Tile.mk (1, 10) (1, 10)), ((2, 10), Tile.mk (2, 10) (2, 10)), ((3, 10), Tile.mk (3, 10) (3, 10)), ((4, 10), Tile.mk (4, 10) (4, 10)), ((5, 10), Tile.mk (5, 10) (5, 10)), ((6, 10), Tile.mk (6, 10) (6, 10)), ((7, 10), Tile.mk (7, 10) (7, 10)), ((8, 10), Tile.mk (8, 10) (8, 10)), ((9, 9), Tile.mk (9, 9) (10, 9)), ((10, 9), Tile.mk (10, 9) (9, 10)), ((9, 10), Tile.mk (9, 10) (10, 10)), ((10, 10), Tile.mk (10, 10) (9, 9))] []

def ovB22 : Gameboard := Gameboard.mk 11 242 false (some (10, 10)) [((0, 0), Tile.mk (0, 0) (0, 0)), ((1, 0), Tile.mk (1, 0) (1, 0)), ((2, 0), Tile.mk (2, 0) (2, 0)), ((3, 0), Tile.mk (3, 0) (3, 0)), ((4, 0), Tile.mk (4, 0) (4, 0)), ((5, 0), Tile.mk (5, 0) (5, 0)), ((6, 0), Tile.mk (6, 0) (6, 0)), ((7, 0), Tile.mk (7, 0) (7, 0)), ((8, 0), Tile.mk (8, 0) (8, 0)), ((9, 0), Tile.mk (9, 0) (9, 0)), ((10, 0), Tile.mk (10, 0) (10, 0)), ((0, 1), Tile.mk (0, 1) (0, 1)), ((1, 1), Tile.mk (1, 1) (1, 1)), ((2, 1), Tile.mk (2, 1) (2, 1)), ((3, 1), Tile.mk (3, 1) (3, 1)), ((4, 1), Tile.mk (4, 1) (4, 1)), ((5, 1), Tile.mk (5, 1) (5, 1)), ((6, 1), Tile.mk (6, 1) (6, 1)), ((7, 1), Tile.mk (7, 1) (7, 1)), ((8, 1), Tile.mk (8, 1) (8, 1)), ((9, 1), Tile.mk (9, 1) (9, 1)), ((10, 1), Tile.mk (10, 1) (10, 1)), ((0, 2), Tile.mk (0, 2) (0, 2)), ((1, 2), Tile.mk (1, 2) (1, 2)), ((2, 2), Tile.mk (2, 2) (2, 2)), ((3, 2), Tile.mk (3, 2) (3, 2)), ((4, 2), Tile.mk (4, 2) (4, 2)), ((5, 2), Tile.mk (5, 2) (5, 2)), ((6, 2), Tile.mk (6, 2) (6, 2)), ((7, 2), Tile.mk (7, 2) (7, 2)), ((8, 2), Tile.mk (8, 2) (8, 2)), ((9, 2), Tile.mk (9, 2) (9, 2)), ((10, 2), Tile.mk (10, 2) (10, 2)), ((0, 3), Tile.mk (0, 3) (0, 3)), ((1, 3), Tile.mk (1, 3) (1, 3)), ((2, 3), Tile.mk (2, 3) (2, 3)), ((3, 3), Tile.mk (3, 3) (3, 3)), ((4, 3), Tile.mk (4, 3) (4, 3)), ((5, 3), Tile.mk (5, 3) (5, 3)), ((6, 3), Tile.mk (6, 3) (6, 3)), ((7, 3), Tile.mk (7, 3) (7, 3)), ((8, 3), Tile.mk (8, 3) (8, 3)), ((9, 3), Tile.mk (9, 3) (9, 3)), ((10, 3), Tile.mk (10, 3) (10, 3)), ((0, 4), Tile.mk (0, 4) (0, 4)), ((1, 4), Tile.mk (1, 4) (1, 4)), ((2, 4), Tile.mk (2, 4) (2, 4)), ((3, 4), Tile.mk (3, 4) (3, 4)), ((4, 4), Tile.mk (4, 4) (4, 4)), ((5, 4), Tile.mk (5, 4) (5, 4)), ((6, 4), Tile.mk (6, 4) (6, 4)), ((7, 4), Tile.mk (7, 4) (7, 4)), ((8, 4), Tile.mk (8, 4) (8, 4)), ((9, 4), Tile.mk (9, 4) (9, 4)), ((10, 4), Tile.mk (10, 4) (10, 4)), ((0, 5), Tile.mk (0, 5) (0, 5)), ((1, 5), Tile.mk (1, 5) (1, 5)), ((2, 5), Tile.mk (2, 5) (2, 5)), ((3, 5), Tile.mk (3, 5) (3, 5)), ((4, 5), Tile.mk (4, 5) (4, 5)), ((5, 5), Tile.mk (5, 5) (5, 5)), ((6, 5), Tile.mk (6, 5) (6, 5)), ((7, 5), Tile.mk (7, 5) (7, 5)), ((8, 5), Tile.mk (8, 5) (8, 5)), ((9, 5), Tile.mk (9, 5) (9, 5)), ((10, 5), Tile.mk (10, 5) (10, 5)), ((0, 6), Tile.mk (0, 6) (0, 6)), ((1, 6), Tile.mk (1, 6) (1, 6)), ((2, 6), Tile.mk (2, 6) (2, 6)), ((3, 6), Tile.mk (3, 6) (3, 6)), ((4, 6), Tile.mk (4, 6) (4, 6)), ((5, 6), Tile.mk (5, 6) (5, 6)), ((6, 6), Tile.mk (6, 6) (6, 6)), ((7, 6), Tile.mk (7, 6) (7, 6)), ((8, 6), Tile.mk (8, 6) (8, 6)), ((9, 6), Tile.mk (9, 6) (9, 6)), ((10, 6), Tile.mk (10, 6) (10, 6)), ((0, 7), Tile.mk (0, 7) (0, 7)), ((1, 7), Tile.mk (1, 7) (1, 7)), ((2, 7), Tile.mk (2, 7) (2, 7)), ((3, 7), Tile.mk (3, 7) (3, 7)), ((4, 7), Tile.mk (4, 7) (4, 7)), ((5, 7), Tile.mk (5, 7) (5, 7)), ((6, 7), Tile.mk (6, 7) (6, 7)), ((7, 7), Tile.mk (7, 7) (7, 7)), ((8, 7), Tile.mk (8, 7) (8, 7)), ((9, 7), Tile.mk (9, 7) (9, 7)), ((10, 7), Tile.mk (10, 7) (10, 7)), ((0, 8), Tile.mk (0, 8) (0, 8)), ((1, 8), Tile.mk (1, 8) (1, 8)), ((2, 8), Tile.mk (2, 8) (2, 8)), ((3, 8), Tile.mk (3, 8) (3, 8)), ((4, 8), Tile.mk (4, 8) (4, 8)), ((5, 8), Tile.mk (5, 8) (5, 8)), ((6, 8), Tile.mk (6, 8) (6, 8)), ((7, 8), Tile.mk (7, 8) (7, 8)), ((8, 8), Tile.mk (8, 8) (8, 8)), ((9, 8), Tile.mk (9, 8) (9, 8)), ((10, 8), Tile.mk (10, 8) (10, 8)), ((0, 9), Tile.mk (0, 9) (0, 9)), ((1, 9), Tile.mk (1, 9) (1, 9)), ((2, 9), Tile.mk (2, 9) (2, 9)), ((3, 9), Tile.mk (3, 9) (3, 9)), ((4, 9), Tile.mk (4, 9) (4, 9)), ((5, 9), Tile.mk (5, 9) (5, 9)), ((6, 9), Tile.mk (6, 9) (6, 9)), ((7, 9), Tile.mk (7, 9) (7, 9)), ((8, 9), Tile.mk (8, 9) (8, 9)), ((0, 10), Tile.mk (0, 10) (0, 10)), ((1, 10), Tile.mk (1, 10) (1, 10)), ((2, 10), Tile.mk (2, 10) (2, 10)), ((3, 10), Tile.mk (3, 10) (3, 10)), ((4, 10), Tile.mk (4, 10) (4, 10)), ((5, 10), Tile.mk (5, 10) (5, 10)), ((6, 10), Tile.mk (6, 10) (6, 10)), ((7, 10), Tile.mk (7, 10) (7, 10)), ((8, 10), Tile.mk (8, 10) (8, 10)), ((9, 9), Tile.mk (9, 9) (10, 9)), ((10, 9), Tile.mk (10, 9) (9, 10)), ((10, 10), Tile.mk (10, 10) (10, 10)), ((9, 10), Tile.mk (9, 10) (9, 9))] []

theorem ovChunk0 : run_pass ovB0 oversizeStream 0 11 = some ovB1 := rfl

theorem ovChunk1 : run_pass ovB1 oversizeStream 11 11 = some ovB2 := rfl

theorem ovChunk2 : run_pass ovB2 oversizeStream 22 11 = some ovB3 := rfl

theorem ovChunk3 : run_pass ovB3 oversizeStream 33 11 = some ovB4 := rfl

theorem ovChunk4 : run_pass ovB4 oversizeStream 44 11 = some ovB5 := rfl

theorem ovChunk5 : run_pass ovB5 oversizeStream 55 11 = some ovB6 := rfl

theorem ovChunk6 : run_pass ovB6 oversizeStream 66 11 = some ovB7 := rfl

theorem ovChunk7 : run_pass ovB7 oversizeStream 77 11 = some ovB8 := rfl

theorem ovChunk8 : run_pass ovB8 oversizeStream 88 11 = some ovB9 := rfl

theorem ovChunk9 : run_pass ovB9 oversizeStream 99 11 = some ovB10 := rfl

theorem ovChunk10 : run_pass ovB10 oversizeStream 110 11 = some ovB11 := rfl

theorem ovChunk11 : run_pass ovB11 oversizeStream 121 11 = some ovB12 := rfl

theorem ovChunk12 : run_pass ovB12 oversizeStream 132 11 = some ovB13 := rfl

theorem ovChunk13 : run_pass ovB13 oversizeStream 143 11 = some ovB14 := rfl

theorem ovChunk14 : run_pass ovB14 oversizeStream 154 11 = some ovB15 := rfl

theorem ovChunk15 : run_pass ovB15 oversizeStream 165 11 = some ovB16 := rfl

theorem ovChunk16 : run_pass ovB16 oversizeStream 176 11 = some ovB17 := rfl

theorem ovChunk17 : run_pass ovB17 oversizeStream 187 11 = some ovB18 := rfl

theorem ovChunk18 : run_pass ovB18 oversizeStream 198 11 = some ovB19 := rfl

theorem ovChunk19 : run_pass ovB19 oversizeStream 209 11 = some ovB20 := rfl

theorem ovChunk20 : run_pass ovB20 oversizeStream 220 11 = some ovB21 := rfl

theorem ovChunk21 : run_pass ovB21 oversizeStream 231 11 = some ovB22 := rfl

theorem ovPass1 : run_pass ovB0 oversizeStream 0 121 = some ovB11 :=
  (run_pass_append oversizeStream 121 11 110 _ _ _ 0 rfl ovChunk0
    (run_pass_append oversizeStream 110 11 99 _ _ _ 11 rfl ovChunk1
    (run_pass_append oversizeStream 99 11 88 _ _ _ 22 rfl ovChunk2
    (run_pass_append oversizeStream 88 11 77 _ _ _ 33 rfl ovChunk3
    (run_pass_append oversizeStream 77 11 66 _ _ _ 44 rfl ovChunk4
    (run_pass_append oversizeStream 66 11 55 _ _ _ 55 rfl ovChunk5
    (run_pass_append oversizeStream 55 11 44 _ _ _ 66 rfl ovChunk6
    (run_pass_append oversizeStream 44 11 33 _ _ _ 77 rfl ovChunk7
    (run_pass_append oversizeStream 33 11 22 _ _ _ 88 rfl ovChunk8
    (run_pass_append oversizeStream 22 11 11 _ _ _ 99 rfl ovChunk9
    ovChunk10))))))))))

theorem ovPass2 : run_pass ovB11 oversizeStream 121 121 = some ovB22 :=
  (run_pass_append oversizeStream 121 11 110 _ _ _ 121 rfl ovChunk11
    (run_pass_append oversizeStream 110 11 99 _ _ _ 132 rfl ovChunk12
    (run_pass_append oversizeStream 99 11 88 _ _ _ 143 rfl ovChunk13
    (run_pass_append oversizeStream 88 11 77 _ _ _ 154 rfl ovChunk14
    (run_pass_append oversizeStream 77 11 66 _ _ _ 165 rfl ovChunk15
    (run_pass_append oversizeStream 66 11 55 _ _ _ 176 rfl ovChunk16
    (run_pass_append oversizeStream 55 11 44 _ _ _ 187 rfl ovChunk17
    (run_pass_append oversizeStream 44 11 33 _ _ _ 198 rfl ovChunk18
    (run_pass_append oversizeStream 33 11 22 _ _ _ 209 rfl ovChunk19
    (run_pass_append oversizeStream 22 11 11 _ _ _ 220 rfl ovChunk20
    ovChunk21))))))))))

theorem ovSetup : setup_grid initGameboard 11 = ovB0 := rfl

/-- The accepted, running 11 by 11 game produced by the out-of-range
shuffle. -/
def oversizeShuffled : Gameboard :=
  { ovB22 with game_running := true, counter := 0 }

theorem ovLoop : shuffle_loop oversizeStream 2 ovB0 0 = some ovB22 := by
  rw [show (2 : Nat) = 1 + 1 from rfl, shuffle_loop_succ]
  rw [show ovB0.grid_size ^ 2 = 121 from rfl, ovPass1]
  dsimp only
  rw [if_neg (by decide)]
  rw [show (1 : Nat) = 0 + 1 from rfl, shuffle_loop_succ]
  rw [show ovB11.grid_size ^ 2 = 121 from rfl]
  rw [show (0 + 121 : Nat) = 121 from rfl, ovPass2]
  dsimp only
  rw [if_pos (by decide)]

theorem ovShuffle :
    shuffle initGameboard 11 oversizeStream 2 = some oversizeShuffled := by
  unfold shuffle
  rw [if_neg (by decide : ¬ initGameboard.game_running = true)]
  rw [ovSetup, ovLoop]
  rfl

/-- C9 as stated is refuted: grid size 11, outside the documented range
[2, 10], is accepted by the engine with no failure of any kind — the
shuffle call returns a running, unclamped 11 by 11 game. -/
theorem oversize_grid_accepted :
    (shuffle initGameboard 11 oversizeStream 2).map
      (fun g => (g.grid_size, g.game_running, g.counter)) =
      some (11, true, 0) := by
  rw [ovShuffle]
  rfl

/-- C9 (amended): the engine neither validates nor clamps the grid size:
whatever size a terminating shuffle is given, in range or not, becomes the
configured grid size of the running game; the range [2, 10] is enforced
only by the UI spin box. -/
theorem shuffle_no_size_validation (g : Gameboard) (n : Nat) (r : Nat → Nat)
    (fuel : Nat) (g' : Gameboard) (hrun : g.game_running = false)
    (h : shuffle g n r fuel = some g') :
    g'.grid_size = n ∧ g'.game_running = true := by
  obtain ⟨g2, hloop, rfl⟩ := shuffle_some g n r fuel g' hrun h
  exact ⟨(shuffle_loop_fields r fuel _ 0 g2 hloop).1, rfl⟩

theorem shuffle_no_size_validation_witness :
    oversizeShuffled.grid_size = 11 ∧ oversizeShuffled.game_running = true :=
  shuffle_no_size_validation initGameboard 11 oversizeStream 2
    oversizeShuffled rfl ovShuffle

/-- Rewriting a tile record update that does not change anything. -/
theorem tile_update_self (t : Tile) (q : Nat × Nat) (h : t.location = q) :
    ({ t with location := q } : Tile) = t := by
  obtain ⟨tl, tid⟩ := t
  dsimp only at h
  rw [h]

/-- C10: move_tile is its own inverse: from a state satisfying the
reachable-game dictionary conditions, moving the tile at p (adjacent to the
empty cell e) leaves that tile at e, adjacent to the new empty cell p;
moving it again restores every dictionary entry, every tile location and
the empty-cell tracker, with the counter increased by two overall. -/
theorem move_tile_involution (g : Gameboard) (p e : Nat × Nat) (t et : Tile)
    (he : g.current_empty_tile = some e) (hadj : adjacent p e)
    (ht : dget g.tiles p = some t) (htl : t.location = p)
    (het : dget g.tiles e = some et) (hetl : et.location = e)
    (hnd : (dkeys g.tiles).Nodup) :
    ∃ g1 g2, move_tile g p = some g1 ∧
      g1.current_empty_tile = some p ∧
      dget g1.tiles e = some { t with location := e } ∧
      adjacent e p ∧
      move_tile g1 e = some g2 ∧
      g2.current_empty_tile = some e ∧
      g2.counter = g.counter + 2 ∧
      (∀ q, dget g2.tiles q = dget g.tiles q) := by
  have hne : p ≠ e := adjacent_ne p e hadj
  have hspec1 := move_tile_spec g e p t et he hne ht htl het hnd
  set et1 : Tile := { et with location := p } with het1
  set t1 : Tile := { t with location := e } with ht1
  set D2 : TileDict := dremove (dremove g.tiles e) p with hD2
  have hndD2e : (dkeys (dremove g.tiles e)).Nodup :=
    dkeys_nodup_dremove _ _ hnd
  have hgetD2p : dget D2 p = none := dget_dremove_self _ _ hndD2e
  have hgetD2e : dget D2 e = none := by
    rw [hD2, dget_dremove_ne _ _ _ (Ne.symm hne)]
    exact dget_dremove_self _ _ hnd
  have hD2sub : D2.Sublist g.tiles :=
    (dremove_sublist _ _).trans (dremove_sublist _ _)
  have hD2notp : p ∉ dkeys D2 := by
    intro hmem2
    rw [← dget_isSome_iff, hgetD2p] at hmem2
    exact Bool.noConfusion hmem2
  have hD2note : e ∉ dkeys D2 := by
    intro hmem2
    rw [← dget_isSome_iff, hgetD2e] at hmem2
    exact Bool.noConfusion hmem2
  set T1 : TileDict := D2 ++ [(p, et1), (e, t1)] with hT1
  have hT1nd : (dkeys T1).Nodup := by
    rw [hT1, dkeys, List.map_append]
    refine List.nodup_append.mpr ⟨hnd.sublist (hD2sub.map Prod.fst), ?_, ?_⟩
    · simp [hne]
    · intro q hq1 hq2
      simp only [List.map_cons, List.map_nil, List.mem_cons,
        List.not_mem_nil, or_false] at hq2
      rcases hq2 with rfl | rfl
      · exact hD2notp hq1
      · exact hD2note hq1
  have hT1e : dget T1 e = some t1 := by
    rw [hT1, dget_append_right _ _ _ hgetD2e]
    simp [dget, hne]
  have hT1p : dget T1 p = some et1 := by
    rw [hT1, dget_append_right _ _ _ hgetD2p]
    simp [dget]
  have hspec2 := move_tile_spec
    { g with
        tiles := T1
        current_empty_tile := some p
        counter := g.counter + 1 }
    p e t1 et1 rfl (Ne.symm hne) hT1e rfl hT1p hT1nd
  refine ⟨_, _, hspec1, rfl, hT1e, (adjacent_symm e p).mpr hadj, hspec2,
    rfl, rfl, ?_⟩
  intro q
  show dget (dremove (dremove T1 p) e ++
    [(e, { et1 with location := e }), (p, { t1 with location := p })]) q
      = dget g.tiles q
  have hrm1 : dremove T1 p = D2 ++ [(e, t1)] := by
    rw [hT1, dremove_append_left _ _ _ hgetD2p]
    simp [dremove, hne]
  have hrm2 : dremove (dremove T1 p) e = D2 := by
    rw [hrm1, dremove_append_left _ _ _ hgetD2e]
    simp [dremove]
  have hA : ({ et1 with location := e } : Tile) = et := by
    rw [het1]
    dsimp only
    exact tile_update_self et e hetl
  have hB : ({ t1 with location := p } : Tile) = t := by
    rw [ht1]
    dsimp only
    exact tile_update_self t p htl
  rw [hrm2, hA, hB]
  by_cases hqp : q = p
  · subst hqp
    rw [ht, dget_append_right _ _ _ hgetD2p]
    simp [dget, Ne.symm hne]
  · by_cases hqe : q = e
    · subst hqe
      rw [het, dget_append_right _ _ _ hgetD2e]
      simp [dget]
    · have hD2q : dget D2 q = dget g.tiles q := by
        rw [hD2, dget_dremove_ne _ _ _ hqp, dget_dremove_ne _ _ _ hqe]
      cases hval : dget g.tiles q with
      | none =>
        rw [dget_append_right _ _ _ (hD2q.trans hval)]
        simp [dget, Ne.symm hqe, Ne.symm hqp]
      | some w =>
        rw [dget_append_left _ _ _ w (hD2q.trans hval)]

theorem move_tile_involution_witness :
    ∃ g1 g2, move_tile (setup_grid initGameboard 2) (0, 1) = some g1 ∧
      g1.current_empty_tile = some (0, 1) ∧
      dget g1.tiles (1, 1) = some { location := (1, 1), id := (0, 1) } ∧
      adjacent (1, 1) (0, 1) ∧
      move_tile g1 (1, 1) = some g2 ∧
      g2.current_empty_tile = some (1, 1) ∧
      g2.counter = (setup_grid initGameboard 2).counter + 2 ∧
      (∀ q, dget g2.tiles q = dget (setup_grid initGameboard 2).tiles q) :=
  move_tile_involution (setup_grid initGameboard 2) (0, 1) (1, 1)
    { location := (0, 1), id := (0, 1) } { location := (1, 1), id := (1, 1) }
    rfl (by decide) (by decide) rfl (by decide) rfl (by decide)

end SlidingPuzzle
